import Mathlib

/-!
Verification of the EFW2C record-layout engine of the w2c-generator
repository.  The Go sources under internal/adapters/efw2c (generator.go and
the spec package) are shallowly embedded below: Go strings become `List Char`
(the files are 7-bit ASCII), Go `int64` becomes `Int` with two's-complement
wrap-around made explicit where additions occur, and the 1024-byte record
buffer becomes a function from 1-based byte positions to characters together
with a `render` that lays it out as a character list.
-/

set_option maxHeartbeats 1000000
set_option maxRecDepth 16384

namespace EFW2C

/-- Go strings are modelled as ASCII character lists. -/
abbrev Str := List Char

/-- Decimal digit character: 48 + d is the ASCII code of the digit d < 10. -/
def digitChar (d : Nat) : Char := Char.ofNat (48 + d)

/-- Fuel-driven decimal rendering of a natural number, most significant digit
first.  With fuel at least n + 1 this is the usual decimal representation. -/
def natCharsAux : Nat → Nat → Str
  | 0, _ => []
  | fuel + 1, n =>
    if n < 10 then [digitChar n]
    else natCharsAux fuel (n / 10) ++ [digitChar (n % 10)]

/-- Decimal representation of a natural number (what Go fmt prints for a
non-negative integer). -/
def natRepr (n : Nat) : Str := natCharsAux (n + 1) n

/-- Reads a digit string back as a natural number (most significant first). -/
def parseNat (s : Str) : Nat := s.foldl (fun acc c => 10 * acc + (c.toNat - 48)) 0

/-- Left-pads a string with zero characters up to width w; this is what Go
fmt.Sprintf with a zero-padded width-w verb does to a decimal numeral. -/
def zeroPad (w : Nat) (s : Str) : Str := List.replicate (w - s.length) '0' ++ s

/-- Two's-complement wrap-around of an integer into the int64 range, making
Go's fixed-width arithmetic explicit. -/
def wrap64 (x : Int) : Int := (x + 2 ^ 63) % 2 ^ 64 - 2 ^ 63

/-- Go int64 addition: add, then wrap. -/
def i64add (a b : Int) : Int := wrap64 (a + b)

/-! ## Domain model (internal/domain/models.go)

Database identifiers and timestamps (ID, SubmissionID, CreatedAt, UpdatedAt)
are never read by the generator and are omitted.  All monetary fields are
cents stored in Go as int64, modelled as `Int`. -/

/-- SubmitterInfo holds the RCA (Submitter) record fields. -/
structure SubmitterInfo where
  BSOUID : Str := []
  ContactName : Str := []
  ContactPhone : Str := []
  ContactEmail : Str := []
  PreparerCode : Str := []
  ResubIndicator : Str := []
  ResubWFID : Str := []
deriving DecidableEq

/-- EmployerRecord holds the employer (RCE) fields for EFW2C. -/
structure EmployerRecord where
  EIN : Str := []
  OriginalEIN : Str := []
  Name : Str := []
  AddressLine1 : Str := []
  AddressLine2 : Str := []
  City : Str := []
  State : Str := []
  ZIP : Str := []
  ZIPExtension : Str := []
  TaxYear : Str := []
  AgentIndicator : Str := []
  AgentEIN : Str := []
  TerminatingBusiness : Bool := false
  EmploymentCode : Str := []
  KindOfEmployer : Str := []
  ContactName : Str := []
  ContactPhone : Str := []
  ContactEmail : Str := []
deriving DecidableEq

/-- MonetaryAmounts holds all monetary correction fields for an employee,
in cents. -/
structure MonetaryAmounts where
  OriginalWagesTipsOther : Int := 0
  CorrectWagesTipsOther : Int := 0
  OriginalFederalIncomeTax : Int := 0
  CorrectFederalIncomeTax : Int := 0
  OriginalSocialSecurityWages : Int := 0
  CorrectSocialSecurityWages : Int := 0
  OriginalSocialSecurityTax : Int := 0
  CorrectSocialSecurityTax : Int := 0
  OriginalMedicareWages : Int := 0
  CorrectMedicareWages : Int := 0
  OriginalMedicareTax : Int := 0
  CorrectMedicareTax : Int := 0
  OriginalSocialSecurityTips : Int := 0
  CorrectSocialSecurityTips : Int := 0
  OriginalAllocatedTips : Int := 0
  CorrectAllocatedTips : Int := 0
  OriginalDependentCare : Int := 0
  CorrectDependentCare : Int := 0
  OriginalNonqualPlan457 : Int := 0
  CorrectNonqualPlan457 : Int := 0
  OriginalNonqualNotSection457 : Int := 0
  CorrectNonqualNotSection457 : Int := 0
  OriginalCode401k : Int := 0
  CorrectCode401k : Int := 0
  OriginalCode403b : Int := 0
  CorrectCode403b : Int := 0
  OriginalCode457bGovt : Int := 0
  CorrectCode457bGovt : Int := 0
  OriginalCodeW_HSA : Int := 0
  CorrectCodeW_HSA : Int := 0
  OriginalCodeAA_Roth401k : Int := 0
  CorrectCodeAA_Roth401k : Int := 0
  OriginalCodeBB_Roth403b : Int := 0
  CorrectCodeBB_Roth403b : Int := 0
  OriginalCodeDD_EmpHealth : Int := 0
  CorrectCodeDD_EmpHealth : Int := 0
  OriginalStateWages : Int := 0
  CorrectStateWages : Int := 0
  OriginalStateIncomeTax : Int := 0
  CorrectStateIncomeTax : Int := 0
  OriginalLocalWages : Int := 0
  CorrectLocalWages : Int := 0
  OriginalLocalIncomeTax : Int := 0
  CorrectLocalIncomeTax : Int := 0
deriving DecidableEq

/-- Box13Flags holds the Box 13 checkbox corrections; Go's nullable
pointer-to-bool becomes `Option Bool`. -/
structure Box13Flags where
  OrigStatutoryEmployee : Option Bool := none
  CorrectStatutoryEmployee : Option Bool := none
  OrigRetirementPlan : Option Bool := none
  CorrectRetirementPlan : Option Bool := none
  OrigThirdPartySickPay : Option Bool := none
  CorrectThirdPartySickPay : Option Bool := none
deriving DecidableEq

/-- EmployeeRecord represents one W-2c correction (RCW record). -/
structure EmployeeRecord where
  SSN : Str := []
  OriginalSSN : Str := []
  FirstName : Str := []
  MiddleName : Str := []
  LastName : Str := []
  Suffix : Str := []
  OriginalFirstName : Str := []
  OriginalMiddleName : Str := []
  OriginalLastName : Str := []
  OriginalSuffix : Str := []
  AddressLine1 : Str := []
  AddressLine2 : Str := []
  City : Str := []
  State : Str := []
  ZIP : Str := []
  ZIPExtension : Str := []
  Amounts : MonetaryAmounts := {}
  Box13 : Box13Flags := {}
  OriginalStateCode : Str := []
  CorrectStateCode : Str := []
  OriginalStateIDNumber : Str := []
  CorrectStateIDNumber : Str := []
  OriginalLocalityName : Str := []
  CorrectLocalityName : Str := []
deriving DecidableEq

/-- Submission groups a submitter, an employer and a batch of employee
corrections. -/
structure Submission where
  Submitter : SubmitterInfo := {}
  Employer : EmployerRecord := {}
  Employees : List EmployeeRecord := []
  Notes : Str := []
deriving DecidableEq

/-! ## Field-table catalog (the spec package)

`Required` and `Description` of the Go `Field` struct are documentation-only
metadata never read by the generator and are omitted from the embedding. -/

/-- Semantic field types of the spec package (Money is an alias of Money11
in the source). -/
inductive FieldType where
  | Alpha
  | Numeric
  | Money11
  | Money15
  | Fixed
  | Blank
deriving DecidableEq

/-- Backward-compatibility alias from the source. -/
abbrev FieldType.Money := FieldType.Money11

/-- One field of a record layout: a name, a 1-based inclusive byte range and
a semantic type. -/
structure Field where
  Name : String
  Start : Nat
  End : Nat
  Ty : FieldType
deriving DecidableEq

/-- Width of a field in bytes. -/
def Field.Len (f : Field) : Nat := f.End - f.Start + 1

/-- Fixed record length of the EFW2C format. -/
def RecordLen : Nat := 1024

/-- One tax year's layout: metadata plus one field list per record kind. -/
structure YearSpec where
  TaxYear : Int
  PublicationURL : String
  SSWageBase : Int
  RCA : List Field
  RCE : List Field
  RCW : List Field
  RCO : List Field
  RCS : List Field
  RCT : List Field
  RCF : List Field
deriving DecidableEq

/-- Default tax year of the catalog. -/
def DefaultYear : Int := 2024

/-- Supported tax years, ascending. -/
def Supported : List Int := [2021, 2022, 2023, 2024]

/-- Base RCA field table (shared across TY2021 through TY2023). -/
def baseRCA : List Field :=
  [
    ⟨"RecordIdentifier", 1, 3, .Fixed⟩,
    ⟨"SubmitterEIN", 4, 12, .Numeric⟩,
    ⟨"BSOUID", 13, 20, .Alpha⟩,
    ⟨"SoftwareVendorCode", 21, 24, .Numeric⟩,
    ⟨"Blank25", 25, 29, .Blank⟩,
    ⟨"SoftwareCode", 30, 31, .Numeric⟩,
    ⟨"CompanyName", 32, 88, .Alpha⟩,
    ⟨"LocationAddress", 89, 110, .Alpha⟩,
    ⟨"DeliveryAddress", 111, 132, .Alpha⟩,
    ⟨"City", 133, 154, .Alpha⟩,
    ⟨"StateAbbrev", 155, 156, .Alpha⟩,
    ⟨"ZIPCode", 157, 161, .Numeric⟩,
    ⟨"ZIPExtension", 162, 165, .Numeric⟩,
    ⟨"Blank166", 166, 171, .Blank⟩,
    ⟨"ForeignStateProvince", 172, 194, .Alpha⟩,
    ⟨"ForeignPostalCode", 195, 209, .Alpha⟩,
    ⟨"CountryCode", 210, 211, .Alpha⟩,
    ⟨"ContactName", 212, 238, .Alpha⟩,
    ⟨"ContactPhone", 239, 253, .Numeric⟩,
    ⟨"PhoneExtension", 254, 258, .Numeric⟩,
    ⟨"Blank259", 259, 261, .Blank⟩,
    ⟨"ContactEmail", 262, 301, .Alpha⟩,
    ⟨"Blank302", 302, 304, .Blank⟩,
    ⟨"ContactFax", 305, 314, .Numeric⟩,
    ⟨"Blank315", 315, 315, .Blank⟩,
    ⟨"PreparerCode", 316, 316, .Alpha⟩,
    ⟨"ResubIndicator", 317, 317, .Alpha⟩,
    ⟨"ResubWFID", 318, 323, .Alpha⟩,
    ⟨"Blank324", 324, 1024, .Blank⟩]

/-- Base RCE field table (shared across TY2021 through TY2023). -/
def baseRCE : List Field :=
  [
    ⟨"RecordIdentifier", 1, 3, .Fixed⟩,
    ⟨"TaxYear", 4, 7, .Alpha⟩,
    ⟨"OrigReportedEIN", 8, 16, .Numeric⟩,
    ⟨"EmployerEIN", 17, 25, .Numeric⟩,
    ⟨"AgentIndicatorCode", 26, 26, .Alpha⟩,
    ⟨"AgentForEIN", 27, 35, .Numeric⟩,
    ⟨"OrigEstablishmentNum", 36, 39, .Alpha⟩,
    ⟨"CorrectEstablishmentNum", 40, 43, .Alpha⟩,
    ⟨"EmployerName", 44, 100, .Alpha⟩,
    ⟨"LocationAddress", 101, 122, .Alpha⟩,
    ⟨"DeliveryAddress", 123, 144, .Alpha⟩,
    ⟨"City", 145, 166, .Alpha⟩,
    ⟨"StateAbbrev", 167, 168, .Alpha⟩,
    ⟨"ZIPCode", 169, 173, .Numeric⟩,
    ⟨"ZIPExtension", 174, 177, .Numeric⟩,
    ⟨"Blank178", 178, 181, .Blank⟩,
    ⟨"ForeignStateProvince", 182, 204, .Alpha⟩,
    ⟨"ForeignPostalCode", 205, 219, .Alpha⟩,
    ⟨"CountryCode", 220, 221, .Alpha⟩,
    ⟨"OrigEmploymentCode", 222, 222, .Alpha⟩,
    ⟨"CorrectEmploymentCode", 223, 223, .Alpha⟩,
    ⟨"OrigThirdPartySick", 224, 224, .Alpha⟩,
    ⟨"CorrectThirdPartySick", 225, 225, .Alpha⟩,
    ⟨"Blank226", 226, 226, .Blank⟩,
    ⟨"KindOfEmployer", 227, 227, .Alpha⟩,
    ⟨"ContactName", 228, 254, .Alpha⟩,
    ⟨"ContactPhone", 255, 269, .Numeric⟩,
    ⟨"PhoneExtension", 270, 274, .Numeric⟩,
    ⟨"ContactFax", 275, 284, .Numeric⟩,
    ⟨"ContactEmail", 285, 324, .Alpha⟩,
    ⟨"Blank325", 325, 1024, .Blank⟩]

/-- Base RCW field table (shared across TY2021 through TY2023). -/
def baseRCW : List Field :=
  [
    ⟨"RecordIdentifier", 1, 3, .Fixed⟩,
    ⟨"OrigSSN", 4, 12, .Numeric⟩,
    ⟨"CorrectSSN", 13, 21, .Numeric⟩,
    ⟨"OrigFirstName", 22, 36, .Alpha⟩,
    ⟨"OrigMiddleName", 37, 51, .Alpha⟩,
    ⟨"OrigLastName", 52, 71, .Alpha⟩,
    ⟨"CorrectFirstName", 72, 86, .Alpha⟩,
    ⟨"CorrectMiddleName", 87, 101, .Alpha⟩,
    ⟨"CorrectLastName", 102, 121, .Alpha⟩,
    ⟨"LocationAddress", 122, 143, .Alpha⟩,
    ⟨"DeliveryAddress", 144, 165, .Alpha⟩,
    ⟨"City", 166, 187, .Alpha⟩,
    ⟨"StateAbbrev", 188, 189, .Alpha⟩,
    ⟨"ZIPCode", 190, 194, .Numeric⟩,
    ⟨"ZIPExtension", 195, 198, .Numeric⟩,
    ⟨"Blank199", 199, 203, .Blank⟩,
    ⟨"ForeignStateProvince", 204, 226, .Alpha⟩,
    ⟨"ForeignPostalCode", 227, 241, .Alpha⟩,
    ⟨"CountryCode", 242, 243, .Alpha⟩,
    ⟨"OrigWagesTipsOther", 244, 254, .Money11⟩,
    ⟨"CorrectWagesTipsOther", 255, 265, .Money11⟩,
    ⟨"OrigFedIncomeTax", 266, 276, .Money11⟩,
    ⟨"CorrectFedIncomeTax", 277, 287, .Money11⟩,
    ⟨"OrigSSWages", 288, 298, .Money11⟩,
    ⟨"CorrectSSWages", 299, 309, .Money11⟩,
    ⟨"OrigSSTax", 310, 320, .Money11⟩,
    ⟨"CorrectSSTax", 321, 331, .Money11⟩,
    ⟨"OrigMedicareWages", 332, 342, .Money11⟩,
    ⟨"CorrectMedicareWages", 343, 353, .Money11⟩,
    ⟨"OrigMedicareTax", 354, 364, .Money11⟩,
    ⟨"CorrectMedicareTax", 365, 375, .Money11⟩,
    ⟨"OrigSSTips", 376, 386, .Money11⟩,
    ⟨"CorrectSSTips", 387, 397, .Money11⟩,
    ⟨"Blank398", 398, 419, .Blank⟩,
    ⟨"OrigDependentCare", 420, 430, .Money11⟩,
    ⟨"CorrectDependentCare", 431, 441, .Money11⟩,
    ⟨"OrigCode401k", 442, 452, .Money11⟩,
    ⟨"CorrectCode401k", 453, 463, .Money11⟩,
    ⟨"OrigCode403b", 464, 474, .Money11⟩,
    ⟨"CorrectCode403b", 475, 485, .Money11⟩,
    ⟨"OrigCodeF", 486, 496, .Money11⟩,
    ⟨"CorrectCodeF", 497, 507, .Money11⟩,
    ⟨"OrigCode457bGovt", 508, 518, .Money11⟩,
    ⟨"CorrectCode457bGovt", 519, 529, .Money11⟩,
    ⟨"OrigCodeH", 530, 540, .Money11⟩,
    ⟨"CorrectCodeH", 541, 551, .Money11⟩,
    ⟨"OrigTIBDeferredComp", 552, 562, .Money11⟩,
    ⟨"CorrectTIBDeferredComp", 563, 573, .Money11⟩,
    ⟨"Blank574", 574, 595, .Blank⟩,
    ⟨"OrigNonqualPlan457", 596, 606, .Money11⟩,
    ⟨"CorrectNonqualPlan457", 607, 617, .Money11⟩,
    ⟨"OrigCodeW_HSA", 618, 628, .Money11⟩,
    ⟨"CorrectCodeW_HSA", 629, 639, .Money11⟩,
    ⟨"OrigNonqualNotSection457", 640, 650, .Money11⟩,
    ⟨"CorrectNonqualNotSection457", 651, 661, .Money11⟩,
    ⟨"OrigCodeQ", 662, 672, .Money11⟩,
    ⟨"CorrectCodeQ", 673, 683, .Money11⟩,
    ⟨"Blank684", 684, 705, .Blank⟩,
    ⟨"OrigCodeC", 706, 716, .Money11⟩,
    ⟨"CorrectCodeC", 717, 727, .Money11⟩,
    ⟨"OrigCodeV", 728, 738, .Money11⟩,
    ⟨"CorrectCodeV", 739, 749, .Money11⟩,
    ⟨"OrigCodeY", 750, 760, .Money11⟩,
    ⟨"CorrectCodeY", 761, 771, .Money11⟩,
    ⟨"OrigCodeAA_Roth401k", 772, 782, .Money11⟩,
    ⟨"CorrectCodeAA_Roth401k", 783, 793, .Money11⟩,
    ⟨"OrigCodeBB_Roth403b", 794, 804, .Money11⟩,
    ⟨"CorrectCodeBB_Roth403b", 805, 815, .Money11⟩,
    ⟨"OrigCodeDD_EmpHealth", 816, 826, .Money11⟩,
    ⟨"CorrectCodeDD_EmpHealth", 827, 837, .Money11⟩,
    ⟨"OrigCodeFF_QSEHRA", 838, 848, .Money11⟩,
    ⟨"CorrectCodeFF_QSEHRA", 849, 859, .Money11⟩,
    ⟨"Blank860", 860, 1002, .Blank⟩,
    ⟨"OrigStatutoryEmployee", 1003, 1003, .Alpha⟩,
    ⟨"CorrectStatutoryEmployee", 1004, 1004, .Alpha⟩,
    ⟨"OrigRetirementPlan", 1005, 1005, .Alpha⟩,
    ⟨"CorrectRetirementPlan", 1006, 1006, .Alpha⟩,
    ⟨"OrigThirdPartySickPay", 1007, 1007, .Alpha⟩,
    ⟨"CorrectThirdPartySickPay", 1008, 1008, .Alpha⟩,
    ⟨"Blank1009", 1009, 1024, .Blank⟩]

/-- Base RCO field table (shared across TY2021 through TY2023). -/
def baseRCO : List Field :=
  [
    ⟨"RecordIdentifier", 1, 3, .Fixed⟩,
    ⟨"Blank4", 4, 12, .Blank⟩,
    ⟨"OrigAllocatedTips", 13, 23, .Money11⟩,
    ⟨"CorrectAllocatedTips", 24, 34, .Money11⟩,
    ⟨"OrigUncollectedEETax", 35, 45, .Money11⟩,
    ⟨"CorrectUncollectedEETax", 46, 56, .Money11⟩,
    ⟨"OrigCodeR_MSA", 57, 67, .Money11⟩,
    ⟨"CorrectCodeR_MSA", 68, 78, .Money11⟩,
    ⟨"OrigCodeS_SIMPLE", 79, 89, .Money11⟩,
    ⟨"CorrectCodeS_SIMPLE", 90, 100, .Money11⟩,
    ⟨"OrigCodeT_Adoption", 101, 111, .Money11⟩,
    ⟨"CorrectCodeT_Adoption", 112, 122, .Money11⟩,
    ⟨"OrigCodeM_UncollSS", 123, 133, .Money11⟩,
    ⟨"CorrectCodeM_UncollSS", 134, 144, .Money11⟩,
    ⟨"OrigCodeN_UncollMed", 145, 155, .Money11⟩,
    ⟨"CorrectCodeN_UncollMed", 156, 166, .Money11⟩,
    ⟨"OrigCodeZ_409A", 167, 177, .Money11⟩,
    ⟨"CorrectCodeZ_409A", 178, 188, .Money11⟩,
    ⟨"Blank189", 189, 210, .Blank⟩,
    ⟨"OrigCodeEE_Roth457b", 211, 221, .Money11⟩,
    ⟨"CorrectCodeEE_Roth457b", 222, 232, .Money11⟩,
    ⟨"OrigCodeGG_83i", 233, 243, .Money11⟩,
    ⟨"CorrectCodeGG_83i", 244, 254, .Money11⟩,
    ⟨"OrigCodeHH_83iDeferral", 255, 265, .Money11⟩,
    ⟨"CorrectCodeHH_83iDeferral", 266, 276, .Money11⟩,
    ⟨"Blank277", 277, 1024, .Blank⟩]

/-- Base RCS field table (shared across TY2021 through TY2023). -/
def baseRCS : List Field :=
  [
    ⟨"RecordIdentifier", 1, 3, .Fixed⟩,
    ⟨"StateCode", 4, 5, .Numeric⟩,
    ⟨"OrigTaxingEntityCode", 6, 10, .Alpha⟩,
    ⟨"CorrectTaxingEntityCode", 11, 15, .Alpha⟩,
    ⟨"OrigSSN", 16, 24, .Numeric⟩,
    ⟨"CorrectSSN", 25, 33, .Numeric⟩,
    ⟨"OrigFirstName", 34, 48, .Alpha⟩,
    ⟨"OrigMiddleName", 49, 63, .Alpha⟩,
    ⟨"OrigLastName", 64, 83, .Alpha⟩,
    ⟨"CorrectFirstName", 84, 98, .Alpha⟩,
    ⟨"CorrectMiddleName", 99, 113, .Alpha⟩,
    ⟨"CorrectLastName", 114, 133, .Alpha⟩,
    ⟨"LocationAddress", 134, 155, .Alpha⟩,
    ⟨"DeliveryAddress", 156, 177, .Alpha⟩,
    ⟨"City", 178, 199, .Alpha⟩,
    ⟨"StateAbbrev", 200, 201, .Alpha⟩,
    ⟨"ZIPCode", 202, 206, .Numeric⟩,
    ⟨"ZIPExtension", 207, 210, .Numeric⟩,
    ⟨"Blank211", 211, 395, .Blank⟩,
    ⟨"StateCode2", 396, 397, .Numeric⟩,
    ⟨"OrigStateWages", 398, 408, .Money11⟩,
    ⟨"CorrectStateWages", 409, 419, .Money11⟩,
    ⟨"OrigStateIncomeTax", 420, 430, .Money11⟩,
    ⟨"CorrectStateIncomeTax", 431, 441, .Money11⟩,
    ⟨"Blank442", 442, 1024, .Blank⟩]

/-- Base RCT field table (shared across TY2021 through TY2023). -/
def baseRCT : List Field :=
  [
    ⟨"RecordIdentifier", 1, 3, .Fixed⟩,
    ⟨"TotalRCWRecords", 4, 10, .Numeric⟩,
    ⟨"OrigTotalWagesTips", 11, 25, .Money15⟩,
    ⟨"CorrectTotalWagesTips", 26, 40, .Money15⟩,
    ⟨"OrigTotalFedIncomeTax", 41, 55, .Money15⟩,
    ⟨"CorrectTotalFedIncomeTax", 56, 70, .Money15⟩,
    ⟨"OrigTotalSSWages", 71, 85, .Money15⟩,
    ⟨"CorrectTotalSSWages", 86, 100, .Money15⟩,
    ⟨"OrigTotalSSTax", 101, 115, .Money15⟩,
    ⟨"CorrectTotalSSTax", 116, 130, .Money15⟩,
    ⟨"OrigTotalMedicareWages", 131, 145, .Money15⟩,
    ⟨"CorrectTotalMedicareWages", 146, 160, .Money15⟩,
    ⟨"OrigTotalMedicareTax", 161, 175, .Money15⟩,
    ⟨"CorrectTotalMedicareTax", 176, 190, .Money15⟩,
    ⟨"OrigTotalSSTips", 191, 205, .Money15⟩,
    ⟨"CorrectTotalSSTips", 206, 220, .Money15⟩,
    ⟨"Blank221", 221, 250, .Blank⟩,
    ⟨"OrigTotalDependentCare", 251, 265, .Money15⟩,
    ⟨"CorrectTotalDependentCare", 266, 280, .Money15⟩,
    ⟨"OrigTotalCode401k", 281, 295, .Money15⟩,
    ⟨"CorrectTotalCode401k", 296, 310, .Money15⟩,
    ⟨"OrigTotalCode403b", 311, 325, .Money15⟩,
    ⟨"CorrectTotalCode403b", 326, 340, .Money15⟩,
    ⟨"OrigTotalCodeF", 341, 355, .Money15⟩,
    ⟨"CorrectTotalCodeF", 356, 370, .Money15⟩,
    ⟨"OrigTotalCode457bGovt", 371, 385, .Money15⟩,
    ⟨"CorrectTotalCode457bGovt", 386, 400, .Money15⟩,
    ⟨"OrigTotalCodeH", 401, 415, .Money15⟩,
    ⟨"CorrectTotalCodeH", 416, 430, .Money15⟩,
    ⟨"OrigTotalTIBDeferredComp", 431, 445, .Money15⟩,
    ⟨"CorrectTotalTIBDeferredComp", 446, 460, .Money15⟩,
    ⟨"Blank461", 461, 490, .Blank⟩,
    ⟨"OrigTotalNonqualPlan457", 491, 505, .Money15⟩,
    ⟨"CorrectTotalNonqualPlan457", 506, 520, .Money15⟩,
    ⟨"OrigTotalCodeW_HSA", 521, 535, .Money15⟩,
    ⟨"CorrectTotalCodeW_HSA", 536, 550, .Money15⟩,
    ⟨"OrigTotalNonqualNotSection457", 551, 565, .Money15⟩,
    ⟨"CorrectTotalNonqualNotSection457", 566, 580, .Money15⟩,
    ⟨"OrigTotalCodeQ", 581, 595, .Money15⟩,
    ⟨"CorrectTotalCodeQ", 596, 610, .Money15⟩,
    ⟨"Blank611", 611, 640, .Blank⟩,
    ⟨"OrigTotalCodeC", 641, 655, .Money15⟩,
    ⟨"CorrectTotalCodeC", 656, 670, .Money15⟩,
    ⟨"OrigTotalCodeV", 671, 685, .Money15⟩,
    ⟨"CorrectTotalCodeV", 686, 700, .Money15⟩,
    ⟨"OrigTotalCodeY", 701, 715, .Money15⟩,
    ⟨"CorrectTotalCodeY", 716, 730, .Money15⟩,
    ⟨"OrigTotalCodeAA_Roth401k", 731, 745, .Money15⟩,
    ⟨"CorrectTotalCodeAA_Roth401k", 746, 760, .Money15⟩,
    ⟨"OrigTotalCodeBB_Roth403b", 761, 775, .Money15⟩,
    ⟨"CorrectTotalCodeBB_Roth403b", 776, 790, .Money15⟩,
    ⟨"OrigTotalCodeDD_EmpHealth", 791, 805, .Money15⟩,
    ⟨"CorrectTotalCodeDD_EmpHealth", 806, 820, .Money15⟩,
    ⟨"OrigTotalCodeFF_QSEHRA", 821, 835, .Money15⟩,
    ⟨"CorrectTotalCodeFF_QSEHRA", 836, 850, .Money15⟩,
    ⟨"Blank851", 851, 1024, .Blank⟩]

/-- Base RCF field table (shared across TY2021 through TY2023). -/
def baseRCF : List Field :=
  [
    ⟨"RecordIdentifier", 1, 3, .Fixed⟩,
    ⟨"TotalRCWRecords", 4, 10, .Numeric⟩,
    ⟨"Blank11", 11, 1024, .Blank⟩]

/-- baseSpec returns the record layout shared across TY2021 through TY2023;
ty2024 extends it with Code II in RCO. -/
def baseSpec (year : Int) : YearSpec where
  TaxYear := year
  PublicationURL := ""
  SSWageBase := 0
  RCA := baseRCA
  RCE := baseRCE
  RCW := baseRCW
  RCO := baseRCO
  RCS := baseRCS
  RCT := baseRCT
  RCF := baseRCF

/-- TY2021 layout. -/
def ty2021Spec : YearSpec :=
  { baseSpec 2021 with
    PublicationURL := "https://www.ssa.gov/employer/efw/21efw2c.pdf"
    SSWageBase := 14280000 }

/-- TY2022 layout. -/
def ty2022Spec : YearSpec :=
  { baseSpec 2022 with
    PublicationURL := "https://www.ssa.gov/employer/efw/22efw2c.pdf"
    SSWageBase := 14700000 }

/-- TY2023 layout. -/
def ty2023Spec : YearSpec :=
  { baseSpec 2023 with
    PublicationURL := "https://www.ssa.gov/employer/efw/23efw2c.pdf"
    SSWageBase := 16020000 }

/-- TY2024 layout: baseSpec plus Box 12 Code II (Medicaid Waiver) in RCO at
positions 277-298, replacing the trailing blank. -/
def ty2024Spec : YearSpec :=
  let s := baseSpec 2024
  { s with
    PublicationURL := "https://www.ssa.gov/employer/efw/24efw2c.pdf"
    SSWageBase := 16860000
    RCO := s.RCO.dropLast ++ [
      ⟨"OrigMedicaidWaiver", 277, 287, .Money11⟩,
      ⟨"CorrectMedicaidWaiver", 288, 298, .Money11⟩,
      ⟨"Blank299", 299, 1024, .Blank⟩] }

/-- The year-keyed catalog map of the spec package. -/
def specs (year : Int) : Option YearSpec :=
  if year = 2021 then some ty2021Spec
  else if year = 2022 then some ty2022Spec
  else if year = 2023 then some ty2023Spec
  else if year = 2024 then some ty2024Spec
  else none

/-- ForYear returns the year's spec and whether the lookup was exact; a miss
falls back to the default year's layout (the getD default is never used
because the default year is in the catalog). -/
def ForYear (year : Int) : YearSpec × Bool :=
  match specs year with
  | some s => (s, true)
  | none => ((specs DefaultYear).getD ty2024Spec, false)

/-! ## Formatting helpers (generator.go) -/

/-- ASCII uppercasing, Go strings.ToUpper restricted to ASCII input. -/
def toUpperStr (s : Str) : Str := s.map Char.toUpper

/-- Go strings.TrimSpace: strip leading and trailing whitespace. -/
def trimSpace (s : Str) : Str :=
  ((s.dropWhile Char.isWhitespace).reverse.dropWhile Char.isWhitespace).reverse

/-- padAlpha uppercases and pads with trailing spaces to exactly n chars,
truncating when longer. -/
def padAlpha (s : Str) (n : Nat) : Str :=
  let s := toUpperStr (trimSpace s)
  if n < s.length then s.take n else s ++ List.replicate (n - s.length) ' '

/-- padNumeric strips non-digits and pads with trailing spaces to exactly
n chars. -/
def padNumeric (s : Str) (n : Nat) : Str :=
  let result := s.filter Char.isDigit
  if n < result.length then result.take n
  else result ++ List.replicate (n - result.length) ' '

/-- padEmail preserves case, trims ends, truncates or pads with spaces. -/
def padEmail (s : Str) (n : Nat) : Str :=
  let s := trimSpace s
  if n < s.length then s.take n else s ++ List.replicate (n - s.length) ' '

/-- cleanDigits strips non-digits and pads with trailing zeros to exactly
n digits; used for EIN and SSN fields. -/
def cleanDigits (s : Str) (n : Nat) : Str :=
  let result := s.filter Char.isDigit
  if n < result.length then result.take n
  else result ++ List.replicate (n - result.length) '0'

/-- money11 formats cents with Go fmt verb percent-zero-eleven-d after
clamping negatives to zero.  Note that Go's zero-padded width verb pads but
never truncates, so a value of 10^11 or more yields more than 11 bytes. -/
def money11 (cents : Int) : Str :=
  let c := if cents < 0 then (0 : Int) else cents
  zeroPad 11 (natRepr c.toNat)

/-- money15 is the 15-char variant used in RCT totals. -/
def money15 (cents : Int) : Str :=
  let c := if cents < 0 then (0 : Int) else cents
  zeroPad 15 (natRepr c.toNat)

/-- boolChar renders a Box 13 indicator. -/
def boolChar (b : Bool) : Str := if b then ['1'] else ['0']

/-- defaultStr substitutes a fallback for the empty string. -/
def defaultStr (s fallback : Str) : Str := if s = [] then fallback else s

/-- SSA Appendix H table from statePostalToNumeric, keyed by postal
abbreviation. -/
def stateCodes : List (String × String) := [
  ("AL", "01"), ("AK", "02"), ("AZ", "03"), ("AR", "04"), ("CA", "05"),
  ("CO", "06"), ("CT", "07"), ("DE", "08"), ("FL", "09"), ("GA", "10"),
  ("HI", "11"), ("ID", "12"), ("IL", "13"), ("IN", "14"), ("IA", "15"),
  ("KS", "16"), ("KY", "17"), ("LA", "18"), ("ME", "19"), ("MD", "20"),
  ("MA", "21"), ("MI", "22"), ("MN", "23"), ("MS", "24"), ("MO", "25"),
  ("MT", "26"), ("NE", "27"), ("NV", "28"), ("NH", "29"), ("NJ", "30"),
  ("NM", "31"), ("NY", "32"), ("NC", "33"), ("ND", "34"), ("OH", "35"),
  ("OK", "36"), ("OR", "37"), ("PA", "38"), ("RI", "39"), ("SC", "40"),
  ("SD", "41"), ("TN", "42"), ("TX", "43"), ("UT", "44"), ("VT", "45"),
  ("VA", "46"), ("WA", "47"), ("WV", "48"), ("WI", "49"), ("WY", "50"),
  ("DC", "51"), ("PR", "72"), ("VI", "78"), ("GU", "66"), ("AS", "60"),
  ("MP", "69")]

/-- statePostalToNumeric converts a 2-char postal abbreviation to the SSA
2-digit numeric state code; unknown input yields two spaces. -/
def statePostalToNumeric (abbr : Str) : Str :=
  match stateCodes.lookup (String.mk (toUpperStr (trimSpace abbr))) with
  | some v => v.toList
  | none => [' ', ' ']

/-! ## Fixed record buffer (generator.go fixedBuf)

The Go buffer is a 1024-byte array pre-filled with spaces; `put` copies a
value into a named field's byte range, truncating to the field width.  It is
modelled as a function from 1-based byte positions to characters; `render`
below lays the first 1024 positions out as the record's bytes. -/

/-- A record buffer: 1-based byte position to character. -/
abbrev Buf := Nat → Char

/-- newBuf: every byte starts as a space. -/
def newBuf : Buf := fun _ => ' '

/-- writeAt places value at positions start..start+width-1 (1-based),
writing only min width (length value) bytes, exactly like Go copy into the
field's subslice of the buffer. -/
def writeAt (b : Buf) (start width : Nat) (value : Str) : Buf :=
  fun p =>
    if start ≤ p ∧ p - start < width ∧ p - start < value.length then
      value.getD (p - start) ' '
    else b p

/-- put looks up fieldName in fields and writes value at its position,
truncated to the field width.  The Go version panics on an unknown field
name (a generator bug); every call below uses a name present in the table,
so the none branch returning the buffer unchanged is never exercised. -/
def put (b : Buf) (fields : List Field) (fieldName : String) (value : Str) : Buf :=
  match fields.find? (fun f => f.Name == fieldName) with
  | some f => writeAt b f.Start (f.End - f.Start + 1) value
  | none => b

/-- putMoney11Pair writes an 11-char money pair; leaves the range as blanks
when both sides are zero (no correction). -/
def putMoney11Pair (b : Buf) (fields : List Field) (origName corrName : String)
    (orig corr : Int) : Buf :=
  if orig = 0 ∧ corr = 0 then b
  else put (put b fields origName (money11 orig)) fields corrName (money11 corr)

/-- putMoney15Pair is the 15-char variant for RCT totals. -/
def putMoney15Pair (b : Buf) (fields : List Field) (origName corrName : String)
    (orig corr : Int) : Buf :=
  if orig = 0 ∧ corr = 0 then b
  else put (put b fields origName (money15 orig)) fields corrName (money15 corr)

/-- putBox13 writes Box 13 checkbox indicators when a correction is being
made; blank means no correction. -/
def putBox13 (b : Buf) (fields : List Field) (origName corrName : String)
    (orig corr : Option Bool) : Buf :=
  if orig = none ∧ corr = none then b
  else
    let b := if orig = none then b else put b fields origName (boolChar (orig.getD false))
    if corr = none then b else put b fields corrName (boolChar (corr.getD false))

/-! ## The generator -/

/-- A Generator pairs the requested year with its resolved YearSpec. -/
structure Generator where
  year : Int
  yspec : YearSpec

/-- New resolves the year (0 means the default year); the Bool is true when
the lookup was exact (Go returns an error otherwise). -/
def New (year : Int) : Generator × Bool :=
  let y := if year = 0 then DefaultYear else year
  let r := ForYear y
  ({ year := y, yspec := r.1 }, r.2)

/-- MustNew ignores the exactness flag. -/
def MustNew (year : Int) : Generator :=
  { year, yspec := (ForYear year).1 }

/-- buildRCA builds the submitter record.  The submitter EIN is filled with
the employer EIN by design. -/
def buildRCA (g : Generator) (s : Submission) : Buf :=
  let sub := s.Submitter
  let preparerCode := if sub.PreparerCode = [] then "L".toList else sub.PreparerCode
  let resubIndicator := if sub.ResubIndicator = [] then "0".toList else sub.ResubIndicator
  let b := newBuf
  let b := put b g.yspec.RCA "RecordIdentifier" "RCA".toList
  let b := put b g.yspec.RCA "SubmitterEIN" (cleanDigits s.Employer.EIN 9)
  let b := put b g.yspec.RCA "BSOUID" (padAlpha sub.BSOUID 8)
  let b := put b g.yspec.RCA "CompanyName" (padAlpha s.Employer.Name 57)
  let b := put b g.yspec.RCA "LocationAddress" (padAlpha s.Employer.AddressLine1 22)
  let b := put b g.yspec.RCA "DeliveryAddress" (padAlpha s.Employer.AddressLine2 22)
  let b := put b g.yspec.RCA "City" (padAlpha s.Employer.City 22)
  let b := put b g.yspec.RCA "StateAbbrev" (padAlpha s.Employer.State 2)
  let b := put b g.yspec.RCA "ZIPCode" (padNumeric s.Employer.ZIP 5)
  let b := put b g.yspec.RCA "ZIPExtension" (padNumeric s.Employer.ZIPExtension 4)
  let b := put b g.yspec.RCA "ContactName" (padAlpha sub.ContactName 27)
  let b := put b g.yspec.RCA "ContactPhone" (padNumeric sub.ContactPhone 15)
  let b := put b g.yspec.RCA "ContactEmail" (padEmail sub.ContactEmail 40)
  let b := put b g.yspec.RCA "PreparerCode" preparerCode
  let b := put b g.yspec.RCA "ResubIndicator" resubIndicator
  if sub.ResubWFID ≠ [] then put b g.yspec.RCA "ResubWFID" (padAlpha sub.ResubWFID 6)
  else b

/-- buildRCE builds the employer record. -/
def buildRCE (g : Generator) (s : Submission) : Buf :=
  let b := newBuf
  let b := put b g.yspec.RCE "RecordIdentifier" "RCE".toList
  let b := put b g.yspec.RCE "TaxYear" s.Employer.TaxYear
  let b := if s.Employer.OriginalEIN ≠ [] then
      put b g.yspec.RCE "OrigReportedEIN" (cleanDigits s.Employer.OriginalEIN 9)
    else b
  let b := put b g.yspec.RCE "EmployerEIN" (cleanDigits s.Employer.EIN 9)
  let b := if s.Employer.AgentIndicator ≠ [] then
      put b g.yspec.RCE "AgentIndicatorCode" s.Employer.AgentIndicator
    else b
  let b := if s.Employer.AgentEIN ≠ [] then
      put b g.yspec.RCE "AgentForEIN" (cleanDigits s.Employer.AgentEIN 9)
    else b
  let b := put b g.yspec.RCE "EmployerName" (padAlpha s.Employer.Name 57)
  let b := put b g.yspec.RCE "LocationAddress" (padAlpha s.Employer.AddressLine1 22)
  let b := put b g.yspec.RCE "DeliveryAddress" (padAlpha s.Employer.AddressLine2 22)
  let b := put b g.yspec.RCE "City" (padAlpha s.Employer.City 22)
  let b := put b g.yspec.RCE "StateAbbrev" (padAlpha s.Employer.State 2)
  let b := put b g.yspec.RCE "ZIPCode" (padNumeric s.Employer.ZIP 5)
  let b := put b g.yspec.RCE "ZIPExtension" (padNumeric s.Employer.ZIPExtension 4)
  let b := put b g.yspec.RCE "CorrectEmploymentCode"
    (defaultStr s.Employer.EmploymentCode "R".toList)
  let b := put b g.yspec.RCE "KindOfEmployer"
    (defaultStr s.Employer.KindOfEmployer "N".toList)
  let b := if s.Employer.ContactName ≠ [] then
      put b g.yspec.RCE "ContactName" (padAlpha s.Employer.ContactName 27)
    else b
  let b := if s.Employer.ContactPhone ≠ [] then
      put b g.yspec.RCE "ContactPhone" (padNumeric s.Employer.ContactPhone 15)
    else b
  if s.Employer.ContactEmail ≠ [] then
    put b g.yspec.RCE "ContactEmail" (padEmail s.Employer.ContactEmail 40)
  else b

/-- buildRCW builds one employee correction record. -/
def buildRCW (g : Generator) (e : EmployeeRecord) : Buf :=
  let b := newBuf
  let b := put b g.yspec.RCW "RecordIdentifier" "RCW".toList
  let b := put b g.yspec.RCW "OrigSSN" (cleanDigits e.SSN 9)
  let b := if e.OriginalSSN ≠ [] then
      let b := put b g.yspec.RCW "OrigSSN" (cleanDigits e.OriginalSSN 9)
      put b g.yspec.RCW "CorrectSSN" (cleanDigits e.SSN 9)
    else b
  let b := if e.OriginalFirstName ≠ [] ∨ e.OriginalLastName ≠ [] then
      let b := put b g.yspec.RCW "OrigFirstName" (padAlpha e.OriginalFirstName 15)
      let b := put b g.yspec.RCW "OrigMiddleName" (padAlpha e.OriginalMiddleName 15)
      let b := put b g.yspec.RCW "OrigLastName" (padAlpha e.OriginalLastName 20)
      let b := put b g.yspec.RCW "CorrectFirstName" (padAlpha e.FirstName 15)
      let b := put b g.yspec.RCW "CorrectMiddleName" (padAlpha e.MiddleName 15)
      put b g.yspec.RCW "CorrectLastName" (padAlpha e.LastName 20)
    else
      let b := put b g.yspec.RCW "CorrectFirstName" (padAlpha e.FirstName 15)
      let b := put b g.yspec.RCW "CorrectMiddleName" (padAlpha e.MiddleName 15)
      put b g.yspec.RCW "CorrectLastName" (padAlpha e.LastName 20)
  let b := put b g.yspec.RCW "LocationAddress" (padAlpha e.AddressLine1 22)
  let b := put b g.yspec.RCW "DeliveryAddress" (padAlpha e.AddressLine2 22)
  let b := put b g.yspec.RCW "City" (padAlpha e.City 22)
  let b := put b g.yspec.RCW "StateAbbrev" (padAlpha e.State 2)
  let b := put b g.yspec.RCW "ZIPCode" (padNumeric e.ZIP 5)
  let b := put b g.yspec.RCW "ZIPExtension" (padNumeric e.ZIPExtension 4)
  let a := e.Amounts
  let b := put b g.yspec.RCW "OrigWagesTipsOther" (money11 a.OriginalWagesTipsOther)
  let b := put b g.yspec.RCW "CorrectWagesTipsOther" (money11 a.CorrectWagesTipsOther)
  let b := put b g.yspec.RCW "OrigFedIncomeTax" (money11 a.OriginalFederalIncomeTax)
  let b := put b g.yspec.RCW "CorrectFedIncomeTax" (money11 a.CorrectFederalIncomeTax)
  let b := put b g.yspec.RCW "OrigSSWages" (money11 a.OriginalSocialSecurityWages)
  let b := put b g.yspec.RCW "CorrectSSWages" (money11 a.CorrectSocialSecurityWages)
  let b := put b g.yspec.RCW "OrigSSTax" (money11 a.OriginalSocialSecurityTax)
  let b := put b g.yspec.RCW "CorrectSSTax" (money11 a.CorrectSocialSecurityTax)
  let b := put b g.yspec.RCW "OrigMedicareWages" (money11 a.OriginalMedicareWages)
  let b := put b g.yspec.RCW "CorrectMedicareWages" (money11 a.CorrectMedicareWages)
  let b := put b g.yspec.RCW "OrigMedicareTax" (money11 a.OriginalMedicareTax)
  let b := put b g.yspec.RCW "CorrectMedicareTax" (money11 a.CorrectMedicareTax)
  let b := put b g.yspec.RCW "OrigSSTips" (money11 a.OriginalSocialSecurityTips)
  let b := put b g.yspec.RCW "CorrectSSTips" (money11 a.CorrectSocialSecurityTips)
  let b := putMoney11Pair b g.yspec.RCW "OrigDependentCare" "CorrectDependentCare"
    a.OriginalDependentCare a.CorrectDependentCare
  let b := putMoney11Pair b g.yspec.RCW "OrigCode401k" "CorrectCode401k"
    a.OriginalCode401k a.CorrectCode401k
  let b := putMoney11Pair b g.yspec.RCW "OrigCode403b" "CorrectCode403b"
    a.OriginalCode403b a.CorrectCode403b
  let b := putMoney11Pair b g.yspec.RCW "OrigCode457bGovt" "CorrectCode457bGovt"
    a.OriginalCode457bGovt a.CorrectCode457bGovt
  let b := putMoney11Pair b g.yspec.RCW "OrigCodeW_HSA" "CorrectCodeW_HSA"
    a.OriginalCodeW_HSA a.CorrectCodeW_HSA
  let b := putMoney11Pair b g.yspec.RCW "OrigCodeAA_Roth401k" "CorrectCodeAA_Roth401k"
    a.OriginalCodeAA_Roth401k a.CorrectCodeAA_Roth401k
  let b := putMoney11Pair b g.yspec.RCW "OrigCodeBB_Roth403b" "CorrectCodeBB_Roth403b"
    a.OriginalCodeBB_Roth403b a.CorrectCodeBB_Roth403b
  let b := putMoney11Pair b g.yspec.RCW "OrigCodeDD_EmpHealth" "CorrectCodeDD_EmpHealth"
    a.OriginalCodeDD_EmpHealth a.CorrectCodeDD_EmpHealth
  let b := putMoney11Pair b g.yspec.RCW "OrigNonqualPlan457" "CorrectNonqualPlan457"
    a.OriginalNonqualPlan457 a.CorrectNonqualPlan457
  let b := putMoney11Pair b g.yspec.RCW "OrigNonqualNotSection457"
    "CorrectNonqualNotSection457" a.OriginalNonqualNotSection457
    a.CorrectNonqualNotSection457
  let box13 := e.Box13
  let b := putBox13 b g.yspec.RCW "OrigStatutoryEmployee" "CorrectStatutoryEmployee"
    box13.OrigStatutoryEmployee box13.CorrectStatutoryEmployee
  let b := putBox13 b g.yspec.RCW "OrigRetirementPlan" "CorrectRetirementPlan"
    box13.OrigRetirementPlan box13.CorrectRetirementPlan
  putBox13 b g.yspec.RCW "OrigThirdPartySickPay" "CorrectThirdPartySickPay"
    box13.OrigThirdPartySickPay box13.CorrectThirdPartySickPay

/-- buildRCO builds the optional employee record (Box 8 allocated tips). -/
def buildRCO (g : Generator) (e : EmployeeRecord) : Buf :=
  let b := newBuf
  let b := put b g.yspec.RCO "RecordIdentifier" "RCO".toList
  putMoney11Pair b g.yspec.RCO "OrigAllocatedTips" "CorrectAllocatedTips"
    e.Amounts.OriginalAllocatedTips e.Amounts.CorrectAllocatedTips

/-- buildRCS builds the optional state record. -/
def buildRCS (g : Generator) (e : EmployeeRecord) : Buf :=
  let b := newBuf
  let b := put b g.yspec.RCS "RecordIdentifier" "RCS".toList
  let sc := if e.CorrectStateCode = [] then e.OriginalStateCode else e.CorrectStateCode
  let b := put b g.yspec.RCS "StateCode" (padNumeric (statePostalToNumeric sc) 2)
  let b := put b g.yspec.RCS "CorrectSSN" (cleanDigits e.SSN 9)
  let b := put b g.yspec.RCS "CorrectFirstName" (padAlpha e.FirstName 15)
  let b := put b g.yspec.RCS "CorrectMiddleName" (padAlpha e.MiddleName 15)
  let b := put b g.yspec.RCS "CorrectLastName" (padAlpha e.LastName 20)
  let b := put b g.yspec.RCS "StateCode2" (padNumeric (statePostalToNumeric sc) 2)
  let b := putMoney11Pair b g.yspec.RCS "OrigStateWages" "CorrectStateWages"
    e.Amounts.OriginalStateWages e.Amounts.CorrectStateWages
  putMoney11Pair b g.yspec.RCS "OrigStateIncomeTax" "CorrectStateIncomeTax"
    e.Amounts.OriginalStateIncomeTax e.Amounts.CorrectStateIncomeTax

/-- buildRCT builds the totals record from the accumulated sums.  The
TotalRCWRecords field is written as the zero-padded literal 0 (the Go source
calls it a placeholder). -/
def buildRCT (g : Generator)
    (origWages corrWages origFed corrFed origSS corrSS origSSTax corrSSTax
     origMed corrMed origMedTax corrMedTax origSSTips corrSSTips
     origDepCare corrDepCare origNQ457 corrNQ457 origNQNot457 corrNQNot457
     origD corrD origE corrE origG corrG origW corrW origAA corrAA
     origBB corrBB origDD corrDD : Int) : Buf :=
  let b := newBuf
  let b := put b g.yspec.RCT "RecordIdentifier" "RCT".toList
  let b := put b g.yspec.RCT "TotalRCWRecords" (zeroPad 7 (natRepr 0))
  let b := put b g.yspec.RCT "OrigTotalWagesTips" (money15 origWages)
  let b := put b g.yspec.RCT "CorrectTotalWagesTips" (money15 corrWages)
  let b := put b g.yspec.RCT "OrigTotalFedIncomeTax" (money15 origFed)
  let b := put b g.yspec.RCT "CorrectTotalFedIncomeTax" (money15 corrFed)
  let b := put b g.yspec.RCT "OrigTotalSSWages" (money15 origSS)
  let b := put b g.yspec.RCT "CorrectTotalSSWages" (money15 corrSS)
  let b := put b g.yspec.RCT "OrigTotalSSTax" (money15 origSSTax)
  let b := put b g.yspec.RCT "CorrectTotalSSTax" (money15 corrSSTax)
  let b := put b g.yspec.RCT "OrigTotalMedicareWages" (money15 origMed)
  let b := put b g.yspec.RCT "CorrectTotalMedicareWages" (money15 corrMed)
  let b := put b g.yspec.RCT "OrigTotalMedicareTax" (money15 origMedTax)
  let b := put b g.yspec.RCT "CorrectTotalMedicareTax" (money15 corrMedTax)
  let b := put b g.yspec.RCT "OrigTotalSSTips" (money15 origSSTips)
  let b := put b g.yspec.RCT "CorrectTotalSSTips" (money15 corrSSTips)
  let b := putMoney15Pair b g.yspec.RCT "OrigTotalDependentCare"
    "CorrectTotalDependentCare" origDepCare corrDepCare
  let b := putMoney15Pair b g.yspec.RCT "OrigTotalCode401k" "CorrectTotalCode401k"
    origD corrD
  let b := putMoney15Pair b g.yspec.RCT "OrigTotalCode403b" "CorrectTotalCode403b"
    origE corrE
  let b := putMoney15Pair b g.yspec.RCT "OrigTotalCode457bGovt"
    "CorrectTotalCode457bGovt" origG corrG
  let b := putMoney15Pair b g.yspec.RCT "OrigTotalCodeW_HSA" "CorrectTotalCodeW_HSA"
    origW corrW
  let b := putMoney15Pair b g.yspec.RCT "OrigTotalNonqualPlan457"
    "CorrectTotalNonqualPlan457" origNQ457 corrNQ457
  let b := putMoney15Pair b g.yspec.RCT "OrigTotalNonqualNotSection457"
    "CorrectTotalNonqualNotSection457" origNQNot457 corrNQNot457
  let b := putMoney15Pair b g.yspec.RCT "OrigTotalCodeAA_Roth401k"
    "CorrectTotalCodeAA_Roth401k" origAA corrAA
  let b := putMoney15Pair b g.yspec.RCT "OrigTotalCodeBB_Roth403b"
    "CorrectTotalCodeBB_Roth403b" origBB corrBB
  putMoney15Pair b g.yspec.RCT "OrigTotalCodeDD_EmpHealth"
    "CorrectTotalCodeDD_EmpHealth" origDD corrDD

/-- buildRCF builds the final record carrying the true RCW count. -/
def buildRCF (g : Generator) (count : Nat) : Buf :=
  let b := newBuf
  let b := put b g.yspec.RCF "RecordIdentifier" "RCF".toList
  put b g.yspec.RCF "TotalRCWRecords" (zeroPad 7 (natRepr count))

/-- hasRCOData: RCO is emitted iff an allocated-tips side is non-zero. -/
def hasRCOData (e : EmployeeRecord) : Bool :=
  e.Amounts.OriginalAllocatedTips != 0 || e.Amounts.CorrectAllocatedTips != 0

/-- hasRCSData: RCS is emitted iff state code, state wages or state income
tax is populated. -/
def hasRCSData (e : EmployeeRecord) : Bool :=
  e.OriginalStateCode != [] || e.CorrectStateCode != [] ||
  e.Amounts.OriginalStateWages != 0 || e.Amounts.CorrectStateWages != 0 ||
  e.Amounts.OriginalStateIncomeTax != 0 || e.Amounts.CorrectStateIncomeTax != 0

/-- Go strconv.Atoi on ASCII digit strings, with failures collapsing to 0
exactly as Generate discards the error.  Tax-year strings are far below the
int64 overflow cutoff, which is therefore not modelled. -/
def atoi (s : Str) : Int :=
  if s ≠ [] ∧ s.all Char.isDigit then (parseNat s : Int)
  else if s.head? = some '-' ∧ s.tail ≠ [] ∧ s.tail.all Char.isDigit then
    -(parseNat s.tail : Int)
  else 0

/-- The records Generate emits for one employee: RCW, then RCO and RCS when
triggered. -/
def perEmployee (g : Generator) (e : EmployeeRecord) : List Buf :=
  [buildRCW g e] ++ (if hasRCOData e then [buildRCO g e] else []) ++
    (if hasRCSData e then [buildRCS g e] else [])

/-- The per-employee section of the stream, in submission order. -/
def employeeRecords (g : Generator) : List EmployeeRecord → List Buf
  | [] => []
  | e :: es => perEmployee g e ++ employeeRecords g es

/-- One accumulator of Generate's summing loop: the Go loop keeps 34
independent int64 accumulators, each adding one MonetaryAmounts field per
employee with int64 (wrap-around) addition. -/
def sumAmt (f : MonetaryAmounts → Int) (es : List EmployeeRecord) : Int :=
  es.foldl (fun acc e => i64add acc (f e.Amounts)) 0

/-- The ordered list of 1024-byte records Generate writes: RCA, RCE, the
per-employee records, RCT from the accumulated totals, and RCF with the
employee count.  Generate re-resolves the spec from the submission's tax
year, ignoring the generator it was called on. -/
def generateRecords (s : Submission) : List Buf :=
  let yearInt := atoi s.Employer.TaxYear
  let local_ := MustNew yearInt
  [buildRCA local_ s, buildRCE local_ s] ++ employeeRecords local_ s.Employees ++
  [buildRCT local_
    (sumAmt (·.OriginalWagesTipsOther) s.Employees)
    (sumAmt (·.CorrectWagesTipsOther) s.Employees)
    (sumAmt (·.OriginalFederalIncomeTax) s.Employees)
    (sumAmt (·.CorrectFederalIncomeTax) s.Employees)
    (sumAmt (·.OriginalSocialSecurityWages) s.Employees)
    (sumAmt (·.CorrectSocialSecurityWages) s.Employees)
    (sumAmt (·.OriginalSocialSecurityTax) s.Employees)
    (sumAmt (·.CorrectSocialSecurityTax) s.Employees)
    (sumAmt (·.OriginalMedicareWages) s.Employees)
    (sumAmt (·.CorrectMedicareWages) s.Employees)
    (sumAmt (·.OriginalMedicareTax) s.Employees)
    (sumAmt (·.CorrectMedicareTax) s.Employees)
    (sumAmt (·.OriginalSocialSecurityTips) s.Employees)
    (sumAmt (·.CorrectSocialSecurityTips) s.Employees)
    (sumAmt (·.OriginalDependentCare) s.Employees)
    (sumAmt (·.CorrectDependentCare) s.Employees)
    (sumAmt (·.OriginalNonqualPlan457) s.Employees)
    (sumAmt (·.CorrectNonqualPlan457) s.Employees)
    (sumAmt (·.OriginalNonqualNotSection457) s.Employees)
    (sumAmt (·.CorrectNonqualNotSection457) s.Employees)
    (sumAmt (·.OriginalCode401k) s.Employees)
    (sumAmt (·.CorrectCode401k) s.Employees)
    (sumAmt (·.OriginalCode403b) s.Employees)
    (sumAmt (·.CorrectCode403b) s.Employees)
    (sumAmt (·.OriginalCode457bGovt) s.Employees)
    (sumAmt (·.CorrectCode457bGovt) s.Employees)
    (sumAmt (·.OriginalCodeW_HSA) s.Employees)
    (sumAmt (·.CorrectCodeW_HSA) s.Employees)
    (sumAmt (·.OriginalCodeAA_Roth401k) s.Employees)
    (sumAmt (·.CorrectCodeAA_Roth401k) s.Employees)
    (sumAmt (·.OriginalCodeBB_Roth403b) s.Employees)
    (sumAmt (·.CorrectCodeBB_Roth403b) s.Employees)
    (sumAmt (·.OriginalCodeDD_EmpHealth) s.Employees)
    (sumAmt (·.CorrectCodeDD_EmpHealth) s.Employees),
   buildRCF local_ s.Employees.length]

/-- render lays a record buffer out as its 1024 bytes. -/
def render (b : Buf) : Str := (List.range RecordLen).map fun i => b (i + 1)

/-- Concatenation of rendered records, back to back with no separators. -/
def joinRender : List Buf → Str
  | [] => []
  | r :: rs => render r ++ joinRender rs

/-- The full byte stream Generate writes for a submission. -/
def generateBytes (s : Submission) : Str := joinRender (generateRecords s)

/-- readN reads n consecutive bytes of a record starting at 1-based
position start. -/
def readN (b : Buf) (start n : Nat) : Str := (List.range n).map fun i => b (start + i)

/-! ## Derived record accessors and spec-side properties -/

/-- The RCT record of a generated stream: the second-to-last record. -/
def rctOf (s : Submission) : Buf :=
  (generateRecords s).getD ((generateRecords s).length - 2) newBuf

/-- The RCF record of a generated stream: the last record. -/
def rcfOf (s : Submission) : Buf := (generateRecords s).getLastD newBuf

/-- Record-kind tags of the per-employee section, as the spec prescribes:
RCW, optionally followed by RCO, optionally followed by RCS. -/
def specKindsEmp : List EmployeeRecord → List String
  | [] => []
  | e :: es =>
    (["RCW"] ++ (if hasRCOData e then ["RCO"] else []) ++
      (if hasRCSData e then ["RCS"] else [])) ++ specKindsEmp es

/-- The record-kind sequence the spec prescribes for a submission:
RCA, RCE, the per-employee tags, RCT, RCF. -/
def specKindSeq (s : Submission) : List String :=
  ["RCA", "RCE"] ++ specKindsEmp s.Employees ++ ["RCT", "RCF"]

/-- chainFrom pos fields checks that the fields tile [pos, 1024] exactly:
each field starts where the previous ended plus one, has a non-negative
width, and the last field ends at 1024. -/
def chainFrom : Nat → List Field → Bool
  | pos, [] => pos = 1025
  | pos, f :: fs => f.Start = pos && f.Start ≤ f.End && chainFrom (f.End + 1) fs

/-- chainOK is the gapless/non-overlap partition property of a field list
over [1, 1024]: the first field starts at 1, each subsequent field starts at
the previous end plus one, and the last field ends at 1024. -/
def chainOK (fields : List Field) : Bool := chainFrom 1 fields

/-- All fourteen Box 1-7 sides of one employee are non-negative and small
enough for the 11-digit money rendering to be exact. -/
abbrev Box17OK (e : EmployeeRecord) : Prop :=
  (0 ≤ e.Amounts.OriginalWagesTipsOther ∧ e.Amounts.OriginalWagesTipsOther < 10 ^ 11) ∧
  (0 ≤ e.Amounts.CorrectWagesTipsOther ∧ e.Amounts.CorrectWagesTipsOther < 10 ^ 11) ∧
  (0 ≤ e.Amounts.OriginalFederalIncomeTax ∧ e.Amounts.OriginalFederalIncomeTax < 10 ^ 11) ∧
  (0 ≤ e.Amounts.CorrectFederalIncomeTax ∧ e.Amounts.CorrectFederalIncomeTax < 10 ^ 11) ∧
  (0 ≤ e.Amounts.OriginalSocialSecurityWages ∧ e.Amounts.OriginalSocialSecurityWages < 10 ^ 11) ∧
  (0 ≤ e.Amounts.CorrectSocialSecurityWages ∧ e.Amounts.CorrectSocialSecurityWages < 10 ^ 11) ∧
  (0 ≤ e.Amounts.OriginalSocialSecurityTax ∧ e.Amounts.OriginalSocialSecurityTax < 10 ^ 11) ∧
  (0 ≤ e.Amounts.CorrectSocialSecurityTax ∧ e.Amounts.CorrectSocialSecurityTax < 10 ^ 11) ∧
  (0 ≤ e.Amounts.OriginalMedicareWages ∧ e.Amounts.OriginalMedicareWages < 10 ^ 11) ∧
  (0 ≤ e.Amounts.CorrectMedicareWages ∧ e.Amounts.CorrectMedicareWages < 10 ^ 11) ∧
  (0 ≤ e.Amounts.OriginalMedicareTax ∧ e.Amounts.OriginalMedicareTax < 10 ^ 11) ∧
  (0 ≤ e.Amounts.CorrectMedicareTax ∧ e.Amounts.CorrectMedicareTax < 10 ^ 11) ∧
  (0 ≤ e.Amounts.OriginalSocialSecurityTips ∧ e.Amounts.OriginalSocialSecurityTips < 10 ^ 11) ∧
  (0 ≤ e.Amounts.CorrectSocialSecurityTips ∧ e.Amounts.CorrectSocialSecurityTips < 10 ^ 11)

/-- Each of the fourteen Box 1-7 submission-wide totals stays below the
15-digit rendering cutoff (and hence far below int64 overflow). -/
abbrev Box17SumsOK (s : Submission) : Prop :=
  ((s.Employees.map fun e => e.Amounts.OriginalWagesTipsOther).sum < 10 ^ 15) ∧
  ((s.Employees.map fun e => e.Amounts.CorrectWagesTipsOther).sum < 10 ^ 15) ∧
  ((s.Employees.map fun e => e.Amounts.OriginalFederalIncomeTax).sum < 10 ^ 15) ∧
  ((s.Employees.map fun e => e.Amounts.CorrectFederalIncomeTax).sum < 10 ^ 15) ∧
  ((s.Employees.map fun e => e.Amounts.OriginalSocialSecurityWages).sum < 10 ^ 15) ∧
  ((s.Employees.map fun e => e.Amounts.CorrectSocialSecurityWages).sum < 10 ^ 15) ∧
  ((s.Employees.map fun e => e.Amounts.OriginalSocialSecurityTax).sum < 10 ^ 15) ∧
  ((s.Employees.map fun e => e.Amounts.CorrectSocialSecurityTax).sum < 10 ^ 15) ∧
  ((s.Employees.map fun e => e.Amounts.OriginalMedicareWages).sum < 10 ^ 15) ∧
  ((s.Employees.map fun e => e.Amounts.CorrectMedicareWages).sum < 10 ^ 15) ∧
  ((s.Employees.map fun e => e.Amounts.OriginalMedicareTax).sum < 10 ^ 15) ∧
  ((s.Employees.map fun e => e.Amounts.CorrectMedicareTax).sum < 10 ^ 15) ∧
  ((s.Employees.map fun e => e.Amounts.OriginalSocialSecurityTips).sum < 10 ^ 15) ∧
  ((s.Employees.map fun e => e.Amounts.CorrectSocialSecurityTips).sum < 10 ^ 15)

/-! ## Concrete test inputs (spec section 8, Scenario A and variants) -/

/-- Scenario A submitter: TESTUSER / JANE DOE. -/
def scenarioASubmitter : SubmitterInfo where
  BSOUID := "TESTUSER".toList
  ContactName := "JANE DOE".toList
  ContactPhone := "8005551234".toList
  ContactEmail := "jane@example.com".toList

/-- Scenario A employer: ACME CORP, EIN 123456789, TY2024. -/
def scenarioAEmployer : EmployerRecord where
  EIN := "123456789".toList
  Name := "ACME CORP".toList
  AddressLine1 := "100 MAIN ST".toList
  AddressLine2 := "SUITE 200".toList
  City := "SPRINGFIELD".toList
  State := "IL".toList
  ZIP := "62701".toList
  ZIPExtension := "1234".toList
  TaxYear := "2024".toList
  EmploymentCode := "R".toList
  KindOfEmployer := "N".toList

/-- Scenario A Box 1-6 amounts in cents. -/
def scenarioAAmounts : MonetaryAmounts where
  OriginalWagesTipsOther := 5000000
  CorrectWagesTipsOther := 5100000
  OriginalFederalIncomeTax := 800000
  CorrectFederalIncomeTax := 820000
  OriginalSocialSecurityWages := 5000000
  CorrectSocialSecurityWages := 5100000
  OriginalSocialSecurityTax := 310000
  CorrectSocialSecurityTax := 316200
  OriginalMedicareWages := 5000000
  CorrectMedicareWages := 5100000
  OriginalMedicareTax := 72500
  CorrectMedicareTax := 73950

/-- Scenario A employee JOHN SMITH. -/
def scenarioAEmployee : EmployeeRecord where
  SSN := "987654321".toList
  FirstName := "JOHN".toList
  LastName := "SMITH".toList
  Amounts := scenarioAAmounts

/-- Scenario A submission: one employee, TY2024. -/
def scenarioA : Submission where
  Submitter := scenarioASubmitter
  Employer := scenarioAEmployer
  Employees := [scenarioAEmployee]

/-- An employee triggering both RCO (allocated tips) and RCS (state data). -/
def trigEmployee : EmployeeRecord :=
  { scenarioAEmployee with
    Amounts := { scenarioAAmounts with
      OriginalAllocatedTips := 123456
      CorrectAllocatedTips := 130000 }
    OriginalStateCode := "IL".toList
    CorrectStateCode := "IL".toList }

/-- Scenario A with the employee replaced by one triggering RCO and RCS. -/
def subAllTrig : Submission := { scenarioA with Employees := [trigEmployee] }

/-- An employee whose original Box 1 is a negative cents value. -/
def negEmployee : EmployeeRecord :=
  { SSN := "111111111".toList
    Amounts := { OriginalWagesTipsOther := -100 } }

/-- A second employee with a positive original Box 1. -/
def posEmployee : EmployeeRecord :=
  { SSN := "222222222".toList
    Amounts := { OriginalWagesTipsOther := 200 } }

/-- Two-employee submission mixing a negative and a positive Box 1 side. -/
def subNeg : Submission :=
  { Employer := { TaxYear := "2024".toList }
    Employees := [negEmployee, posEmployee] }

/-- A submission with ten million (blank) employees, enough to overflow the
7-digit RCW counter. -/
def subBig : Submission :=
  { Employer := { TaxYear := "2024".toList }
    Employees := List.replicate 10000000 {} }

/-- An employee whose SSN is being corrected (Scenario D). -/
def ssnEmployee : EmployeeRecord :=
  { scenarioAEmployee with OriginalSSN := "111223333".toList }

/-! ## Generic buffer and numeral lemmas -/

theorem writeAt_out (b : Buf) (start width : Nat) (v : Str) (p : Nat)
    (h : p < start ∨ start + width ≤ p) : writeAt b start width v p = b p := by
  simp only [writeAt]
  rw [if_neg]
  omega

theorem writeAt_in (b : Buf) (start width : Nat) (v : Str) (p : Nat)
    (h1 : start ≤ p) (h2 : p - start < width) (h3 : p - start < v.length) :
    writeAt b start width v p = v.getD (p - start) ' ' := by
  simp [writeAt, h1, h2, h3]

theorem map_range_getD (v : Str) :
    (List.range v.length).map (fun i => v.getD i ' ') = v := by
  induction v with
  | nil => simp
  | cons a v ih =>
    simp only [List.length_cons, List.range_succ_eq_map, List.map_cons, List.map_map,
      List.getD_cons_zero]
    refine congrArg₂ _ rfl ?_
    simpa [Function.comp_def, Nat.succ_eq_add_one] using ih

theorem readN_writeAt_out (b : Buf) (s w : Nat) (v : Str) (start n : Nat)
    (h : start + n ≤ s ∨ s + w ≤ start) :
    readN (writeAt b s w v) start n = readN b start n := by
  refine List.map_congr_left fun i hi => ?_
  have hi' := List.mem_range.1 hi
  exact writeAt_out b s w v (start + i) (by omega)

theorem readN_writeAt_self (b : Buf) (s w : Nat) (v : Str) (hw : v.length = w) :
    readN (writeAt b s w v) s w = v := by
  subst hw
  have h : ∀ i ∈ List.range v.length,
      writeAt b s v.length v (s + i) = v.getD i ' ' := by
    intro i hi
    have hi' := List.mem_range.1 hi
    rw [writeAt_in b s v.length v (s + i) (by omega) (by omega) (by omega)]
    congr 1
    omega
  rw [readN, List.map_congr_left h, map_range_getD]

theorem readN_ite (c : Prop) [Decidable c] (f g : Buf) (start n : Nat) :
    readN (if c then f else g) start n =
      if c then readN f start n else readN g start n :=
  apply_ite (readN · start n) c f g

theorem readN_zero (b : Buf) (s : Nat) : readN b s 0 = [] := rfl

theorem readN_length (b : Buf) (s n : Nat) : (readN b s n).length = n := by
  simp [readN]

theorem readN_append (b : Buf) (s m n : Nat) :
    readN b s (m + n) = readN b s m ++ readN b (s + m) n := by
  simp [readN, List.range_add, List.map_map, Function.comp_def, Nat.add_assoc]

theorem readN_newBuf (s n : Nat) : readN newBuf s n = List.replicate n ' ' := by
  simp [readN, newBuf]

/-- Peels the last write of a contiguous block: if the write sits at the end
of the window, the window reads as the rest of the window followed by the
value. -/
theorem readN_writeAt_last (b : Buf) (s w : Nat) (v : Str) (start n : Nat)
    (hv : v.length = w) (hn : n = (n - w) + w) (hs : s = start + (n - w)) :
    readN (writeAt b s w v) start n = readN b start (n - w) ++ v := by
  have key : ∀ m, s = start + m →
      readN (writeAt b s w v) start (m + w) = readN b start m ++ v := by
    intro m hs2
    rw [readN_append, readN_writeAt_out b s w v start m (by omega), ← hs2,
      readN_writeAt_self b s w v hv]
  calc readN (writeAt b s w v) start n
      = readN (writeAt b s w v) start ((n - w) + w) := by rw [← hn]
    _ = readN b start (n - w) ++ v := key (n - w) hs

/-! Concrete resolutions of put against each table, one per field name a
builder uses; each is definitional. -/

theorem putRCA_RecordIdentifier (b : Buf) (v : Str) :
    put b baseRCA "RecordIdentifier" v = writeAt b 1 3 v := rfl

theorem putRCA_SubmitterEIN (b : Buf) (v : Str) :
    put b baseRCA "SubmitterEIN" v = writeAt b 4 9 v := rfl

theorem putRCA_BSOUID (b : Buf) (v : Str) :
    put b baseRCA "BSOUID" v = writeAt b 13 8 v := rfl

theorem putRCA_CompanyName (b : Buf) (v : Str) :
    put b baseRCA "CompanyName" v = writeAt b 32 57 v := rfl

theorem putRCA_LocationAddress (b : Buf) (v : Str) :
    put b baseRCA "LocationAddress" v = writeAt b 89 22 v := rfl

theorem putRCA_DeliveryAddress (b : Buf) (v : Str) :
    put b baseRCA "DeliveryAddress" v = writeAt b 111 22 v := rfl

theorem putRCA_City (b : Buf) (v : Str) :
    put b baseRCA "City" v = writeAt b 133 22 v := rfl

theorem putRCA_StateAbbrev (b : Buf) (v : Str) :
    put b baseRCA "StateAbbrev" v = writeAt b 155 2 v := rfl

theorem putRCA_ZIPCode (b : Buf) (v : Str) :
    put b baseRCA "ZIPCode" v = writeAt b 157 5 v := rfl

theorem putRCA_ZIPExtension (b : Buf) (v : Str) :
    put b baseRCA "ZIPExtension" v = writeAt b 162 4 v := rfl

theorem putRCA_ContactName (b : Buf) (v : Str) :
    put b baseRCA "ContactName" v = writeAt b 212 27 v := rfl

theorem putRCA_ContactPhone (b : Buf) (v : Str) :
    put b baseRCA "ContactPhone" v = writeAt b 239 15 v := rfl

theorem putRCA_ContactEmail (b : Buf) (v : Str) :
    put b baseRCA "ContactEmail" v = writeAt b 262 40 v := rfl

theorem putRCA_PreparerCode (b : Buf) (v : Str) :
    put b baseRCA "PreparerCode" v = writeAt b 316 1 v := rfl

theorem putRCA_ResubIndicator (b : Buf) (v : Str) :
    put b baseRCA "ResubIndicator" v = writeAt b 317 1 v := rfl

theorem putRCA_ResubWFID (b : Buf) (v : Str) :
    put b baseRCA "ResubWFID" v = writeAt b 318 6 v := rfl

theorem putRCE_RecordIdentifier (b : Buf) (v : Str) :
    put b baseRCE "RecordIdentifier" v = writeAt b 1 3 v := rfl

theorem putRCE_TaxYear (b : Buf) (v : Str) :
    put b baseRCE "TaxYear" v = writeAt b 4 4 v := rfl

theorem putRCE_OrigReportedEIN (b : Buf) (v : Str) :
    put b baseRCE "OrigReportedEIN" v = writeAt b 8 9 v := rfl

theorem putRCE_EmployerEIN (b : Buf) (v : Str) :
    put b baseRCE "EmployerEIN" v = writeAt b 17 9 v := rfl

theorem putRCE_AgentIndicatorCode (b : Buf) (v : Str) :
    put b baseRCE "AgentIndicatorCode" v = writeAt b 26 1 v := rfl

theorem putRCE_AgentForEIN (b : Buf) (v : Str) :
    put b baseRCE "AgentForEIN" v = writeAt b 27 9 v := rfl

theorem putRCE_EmployerName (b : Buf) (v : Str) :
    put b baseRCE "EmployerName" v = writeAt b 44 57 v := rfl

theorem putRCE_LocationAddress (b : Buf) (v : Str) :
    put b baseRCE "LocationAddress" v = writeAt b 101 22 v := rfl

theorem putRCE_DeliveryAddress (b : Buf) (v : Str) :
    put b baseRCE "DeliveryAddress" v = writeAt b 123 22 v := rfl

theorem putRCE_City (b : Buf) (v : Str) :
    put b baseRCE "City" v = writeAt b 145 22 v := rfl

theorem putRCE_StateAbbrev (b : Buf) (v : Str) :
    put b baseRCE "StateAbbrev" v = writeAt b 167 2 v := rfl

theorem putRCE_ZIPCode (b : Buf) (v : Str) :
    put b baseRCE "ZIPCode" v = writeAt b 169 5 v := rfl

theorem putRCE_ZIPExtension (b : Buf) (v : Str) :
    put b baseRCE "ZIPExtension" v = writeAt b 174 4 v := rfl

theorem putRCE_CorrectEmploymentCode (b : Buf) (v : Str) :
    put b baseRCE "CorrectEmploymentCode" v = writeAt b 223 1 v := rfl

theorem putRCE_KindOfEmployer (b : Buf) (v : Str) :
    put b baseRCE "KindOfEmployer" v = writeAt b 227 1 v := rfl

theorem putRCE_ContactName (b : Buf) (v : Str) :
    put b baseRCE "ContactName" v = writeAt b 228 27 v := rfl

theorem putRCE_ContactPhone (b : Buf) (v : Str) :
    put b baseRCE "ContactPhone" v = writeAt b 255 15 v := rfl

theorem putRCE_ContactEmail (b : Buf) (v : Str) :
    put b baseRCE "ContactEmail" v = writeAt b 285 40 v := rfl

theorem putRCW_RecordIdentifier (b : Buf) (v : Str) :
    put b baseRCW "RecordIdentifier" v = writeAt b 1 3 v := rfl

theorem putRCW_OrigSSN (b : Buf) (v : Str) :
    put b baseRCW "OrigSSN" v = writeAt b 4 9 v := rfl

theorem putRCW_CorrectSSN (b : Buf) (v : Str) :
    put b baseRCW "CorrectSSN" v = writeAt b 13 9 v := rfl

theorem putRCW_OrigFirstName (b : Buf) (v : Str) :
    put b baseRCW "OrigFirstName" v = writeAt b 22 15 v := rfl

theorem putRCW_OrigMiddleName (b : Buf) (v : Str) :
    put b baseRCW "OrigMiddleName" v = writeAt b 37 15 v := rfl

theorem putRCW_OrigLastName (b : Buf) (v : Str) :
    put b baseRCW "OrigLastName" v = writeAt b 52 20 v := rfl

theorem putRCW_CorrectFirstName (b : Buf) (v : Str) :
    put b baseRCW "CorrectFirstName" v = writeAt b 72 15 v := rfl

theorem putRCW_CorrectMiddleName (b : Buf) (v : Str) :
    put b baseRCW "CorrectMiddleName" v = writeAt b 87 15 v := rfl

theorem putRCW_CorrectLastName (b : Buf) (v : Str) :
    put b baseRCW "CorrectLastName" v = writeAt b 102 20 v := rfl

theorem putRCW_LocationAddress (b : Buf) (v : Str) :
    put b baseRCW "LocationAddress" v = writeAt b 122 22 v := rfl

theorem putRCW_DeliveryAddress (b : Buf) (v : Str) :
    put b baseRCW "DeliveryAddress" v = writeAt b 144 22 v := rfl

theorem putRCW_City (b : Buf) (v : Str) :
    put b baseRCW "City" v = writeAt b 166 22 v := rfl

theorem putRCW_StateAbbrev (b : Buf) (v : Str) :
    put b baseRCW "StateAbbrev" v = writeAt b 188 2 v := rfl

theorem putRCW_ZIPCode (b : Buf) (v : Str) :
    put b baseRCW "ZIPCode" v = writeAt b 190 5 v := rfl

theorem putRCW_ZIPExtension (b : Buf) (v : Str) :
    put b baseRCW "ZIPExtension" v = writeAt b 195 4 v := rfl

theorem putRCW_OrigWagesTipsOther (b : Buf) (v : Str) :
    put b baseRCW "OrigWagesTipsOther" v = writeAt b 244 11 v := rfl

theorem putRCW_CorrectWagesTipsOther (b : Buf) (v : Str) :
    put b baseRCW "CorrectWagesTipsOther" v = writeAt b 255 11 v := rfl

theorem putRCW_OrigFedIncomeTax (b : Buf) (v : Str) :
    put b baseRCW "OrigFedIncomeTax" v = writeAt b 266 11 v := rfl

theorem putRCW_CorrectFedIncomeTax (b : Buf) (v : Str) :
    put b baseRCW "CorrectFedIncomeTax" v = writeAt b 277 11 v := rfl

theorem putRCW_OrigSSWages (b : Buf) (v : Str) :
    put b baseRCW "OrigSSWages" v = writeAt b 288 11 v := rfl

theorem putRCW_CorrectSSWages (b : Buf) (v : Str) :
    put b baseRCW "CorrectSSWages" v = writeAt b 299 11 v := rfl

theorem putRCW_OrigSSTax (b : Buf) (v : Str) :
    put b baseRCW "OrigSSTax" v = writeAt b 310 11 v := rfl

theorem putRCW_CorrectSSTax (b : Buf) (v : Str) :
    put b baseRCW "CorrectSSTax" v = writeAt b 321 11 v := rfl

theorem putRCW_OrigMedicareWages (b : Buf) (v : Str) :
    put b baseRCW "OrigMedicareWages" v = writeAt b 332 11 v := rfl

theorem putRCW_CorrectMedicareWages (b : Buf) (v : Str) :
    put b baseRCW "CorrectMedicareWages" v = writeAt b 343 11 v := rfl

theorem putRCW_OrigMedicareTax (b : Buf) (v : Str) :
    put b baseRCW "OrigMedicareTax" v = writeAt b 354 11 v := rfl

theorem putRCW_CorrectMedicareTax (b : Buf) (v : Str) :
    put b baseRCW "CorrectMedicareTax" v = writeAt b 365 11 v := rfl

theorem putRCW_OrigSSTips (b : Buf) (v : Str) :
    put b baseRCW "OrigSSTips" v = writeAt b 376 11 v := rfl

theorem putRCW_CorrectSSTips (b : Buf) (v : Str) :
    put b baseRCW "CorrectSSTips" v = writeAt b 387 11 v := rfl

theorem putRCW_OrigDependentCare (b : Buf) (v : Str) :
    put b baseRCW "OrigDependentCare" v = writeAt b 420 11 v := rfl

theorem putRCW_CorrectDependentCare (b : Buf) (v : Str) :
    put b baseRCW "CorrectDependentCare" v = writeAt b 431 11 v := rfl

theorem putRCW_OrigCode401k (b : Buf) (v : Str) :
    put b baseRCW "OrigCode401k" v = writeAt b 442 11 v := rfl

theorem putRCW_CorrectCode401k (b : Buf) (v : Str) :
    put b baseRCW "CorrectCode401k" v = writeAt b 453 11 v := rfl

theorem putRCW_OrigCode403b (b : Buf) (v : Str) :
    put b baseRCW "OrigCode403b" v = writeAt b 464 11 v := rfl

theorem putRCW_CorrectCode403b (b : Buf) (v : Str) :
    put b baseRCW "CorrectCode403b" v = writeAt b 475 11 v := rfl

theorem putRCW_OrigCode457bGovt (b : Buf) (v : Str) :
    put b baseRCW "OrigCode457bGovt" v = writeAt b 508 11 v := rfl

theorem putRCW_CorrectCode457bGovt (b : Buf) (v : Str) :
    put b baseRCW "CorrectCode457bGovt" v = writeAt b 519 11 v := rfl

theorem putRCW_OrigCodeW_HSA (b : Buf) (v : Str) :
    put b baseRCW "OrigCodeW_HSA" v = writeAt b 618 11 v := rfl

theorem putRCW_CorrectCodeW_HSA (b : Buf) (v : Str) :
    put b baseRCW "CorrectCodeW_HSA" v = writeAt b 629 11 v := rfl

theorem putRCW_OrigCodeAA_Roth401k (b : Buf) (v : Str) :
    put b baseRCW "OrigCodeAA_Roth401k" v = writeAt b 772 11 v := rfl

theorem putRCW_CorrectCodeAA_Roth401k (b : Buf) (v : Str) :
    put b baseRCW "CorrectCodeAA_Roth401k" v = writeAt b 783 11 v := rfl

theorem putRCW_OrigCodeBB_Roth403b (b : Buf) (v : Str) :
    put b baseRCW "OrigCodeBB_Roth403b" v = writeAt b 794 11 v := rfl

theorem putRCW_CorrectCodeBB_Roth403b (b : Buf) (v : Str) :
    put b baseRCW "CorrectCodeBB_Roth403b" v = writeAt b 805 11 v := rfl

theorem putRCW_OrigCodeDD_EmpHealth (b : Buf) (v : Str) :
    put b baseRCW "OrigCodeDD_EmpHealth" v = writeAt b 816 11 v := rfl

theorem putRCW_CorrectCodeDD_EmpHealth (b : Buf) (v : Str) :
    put b baseRCW "CorrectCodeDD_EmpHealth" v = writeAt b 827 11 v := rfl

theorem putRCW_OrigNonqualPlan457 (b : Buf) (v : Str) :
    put b baseRCW "OrigNonqualPlan457" v = writeAt b 596 11 v := rfl

theorem putRCW_CorrectNonqualPlan457 (b : Buf) (v : Str) :
    put b baseRCW "CorrectNonqualPlan457" v = writeAt b 607 11 v := rfl

theorem putRCW_OrigNonqualNotSection457 (b : Buf) (v : Str) :
    put b baseRCW "OrigNonqualNotSection457" v = writeAt b 640 11 v := rfl

theorem putRCW_CorrectNonqualNotSection457 (b : Buf) (v : Str) :
    put b baseRCW "CorrectNonqualNotSection457" v = writeAt b 651 11 v := rfl

theorem putRCW_OrigStatutoryEmployee (b : Buf) (v : Str) :
    put b baseRCW "OrigStatutoryEmployee" v = writeAt b 1003 1 v := rfl

theorem putRCW_CorrectStatutoryEmployee (b : Buf) (v : Str) :
    put b baseRCW "CorrectStatutoryEmployee" v = writeAt b 1004 1 v := rfl

theorem putRCW_OrigRetirementPlan (b : Buf) (v : Str) :
    put b baseRCW "OrigRetirementPlan" v = writeAt b 1005 1 v := rfl

theorem putRCW_CorrectRetirementPlan (b : Buf) (v : Str) :
    put b baseRCW "CorrectRetirementPlan" v = writeAt b 1006 1 v := rfl

theorem putRCW_OrigThirdPartySickPay (b : Buf) (v : Str) :
    put b baseRCW "OrigThirdPartySickPay" v = writeAt b 1007 1 v := rfl

theorem putRCW_CorrectThirdPartySickPay (b : Buf) (v : Str) :
    put b baseRCW "CorrectThirdPartySickPay" v = writeAt b 1008 1 v := rfl

theorem putRCO_RecordIdentifier (b : Buf) (v : Str) :
    put b baseRCO "RecordIdentifier" v = writeAt b 1 3 v := rfl

theorem putRCO_OrigAllocatedTips (b : Buf) (v : Str) :
    put b baseRCO "OrigAllocatedTips" v = writeAt b 13 11 v := rfl

theorem putRCO_CorrectAllocatedTips (b : Buf) (v : Str) :
    put b baseRCO "CorrectAllocatedTips" v = writeAt b 24 11 v := rfl

theorem putRCS_RecordIdentifier (b : Buf) (v : Str) :
    put b baseRCS "RecordIdentifier" v = writeAt b 1 3 v := rfl

theorem putRCS_StateCode (b : Buf) (v : Str) :
    put b baseRCS "StateCode" v = writeAt b 4 2 v := rfl

theorem putRCS_CorrectSSN (b : Buf) (v : Str) :
    put b baseRCS "CorrectSSN" v = writeAt b 25 9 v := rfl

theorem putRCS_CorrectFirstName (b : Buf) (v : Str) :
    put b baseRCS "CorrectFirstName" v = writeAt b 84 15 v := rfl

theorem putRCS_CorrectMiddleName (b : Buf) (v : Str) :
    put b baseRCS "CorrectMiddleName" v = writeAt b 99 15 v := rfl

theorem putRCS_CorrectLastName (b : Buf) (v : Str) :
    put b baseRCS "CorrectLastName" v = writeAt b 114 20 v := rfl

theorem putRCS_StateCode2 (b : Buf) (v : Str) :
    put b baseRCS "StateCode2" v = writeAt b 396 2 v := rfl

theorem putRCS_OrigStateWages (b : Buf) (v : Str) :
    put b baseRCS "OrigStateWages" v = writeAt b 398 11 v := rfl

theorem putRCS_CorrectStateWages (b : Buf) (v : Str) :
    put b baseRCS "CorrectStateWages" v = writeAt b 409 11 v := rfl

theorem putRCS_OrigStateIncomeTax (b : Buf) (v : Str) :
    put b baseRCS "OrigStateIncomeTax" v = writeAt b 420 11 v := rfl

theorem putRCS_CorrectStateIncomeTax (b : Buf) (v : Str) :
    put b baseRCS "CorrectStateIncomeTax" v = writeAt b 431 11 v := rfl

theorem putRCT_RecordIdentifier (b : Buf) (v : Str) :
    put b baseRCT "RecordIdentifier" v = writeAt b 1 3 v := rfl

theorem putRCT_TotalRCWRecords (b : Buf) (v : Str) :
    put b baseRCT "TotalRCWRecords" v = writeAt b 4 7 v := rfl

theorem putRCT_OrigTotalWagesTips (b : Buf) (v : Str) :
    put b baseRCT "OrigTotalWagesTips" v = writeAt b 11 15 v := rfl

theorem putRCT_CorrectTotalWagesTips (b : Buf) (v : Str) :
    put b baseRCT "CorrectTotalWagesTips" v = writeAt b 26 15 v := rfl

theorem putRCT_OrigTotalFedIncomeTax (b : Buf) (v : Str) :
    put b baseRCT "OrigTotalFedIncomeTax" v = writeAt b 41 15 v := rfl

theorem putRCT_CorrectTotalFedIncomeTax (b : Buf) (v : Str) :
    put b baseRCT "CorrectTotalFedIncomeTax" v = writeAt b 56 15 v := rfl

theorem putRCT_OrigTotalSSWages (b : Buf) (v : Str) :
    put b baseRCT "OrigTotalSSWages" v = writeAt b 71 15 v := rfl

theorem putRCT_CorrectTotalSSWages (b : Buf) (v : Str) :
    put b baseRCT "CorrectTotalSSWages" v = writeAt b 86 15 v := rfl

theorem putRCT_OrigTotalSSTax (b : Buf) (v : Str) :
    put b baseRCT "OrigTotalSSTax" v = writeAt b 101 15 v := rfl

theorem putRCT_CorrectTotalSSTax (b : Buf) (v : Str) :
    put b baseRCT "CorrectTotalSSTax" v = writeAt b 116 15 v := rfl

theorem putRCT_OrigTotalMedicareWages (b : Buf) (v : Str) :
    put b baseRCT "OrigTotalMedicareWages" v = writeAt b 131 15 v := rfl

theorem putRCT_CorrectTotalMedicareWages (b : Buf) (v : Str) :
    put b baseRCT "CorrectTotalMedicareWages" v = writeAt b 146 15 v := rfl

theorem putRCT_OrigTotalMedicareTax (b : Buf) (v : Str) :
    put b baseRCT "OrigTotalMedicareTax" v = writeAt b 161 15 v := rfl

theorem putRCT_CorrectTotalMedicareTax (b : Buf) (v : Str) :
    put b baseRCT "CorrectTotalMedicareTax" v = writeAt b 176 15 v := rfl

theorem putRCT_OrigTotalSSTips (b : Buf) (v : Str) :
    put b baseRCT "OrigTotalSSTips" v = writeAt b 191 15 v := rfl

theorem putRCT_CorrectTotalSSTips (b : Buf) (v : Str) :
    put b baseRCT "CorrectTotalSSTips" v = writeAt b 206 15 v := rfl

theorem putRCT_OrigTotalDependentCare (b : Buf) (v : Str) :
    put b baseRCT "OrigTotalDependentCare" v = writeAt b 251 15 v := rfl

theorem putRCT_CorrectTotalDependentCare (b : Buf) (v : Str) :
    put b baseRCT "CorrectTotalDependentCare" v = writeAt b 266 15 v := rfl

theorem putRCT_OrigTotalCode401k (b : Buf) (v : Str) :
    put b baseRCT "OrigTotalCode401k" v = writeAt b 281 15 v := rfl

theorem putRCT_CorrectTotalCode401k (b : Buf) (v : Str) :
    put b baseRCT "CorrectTotalCode401k" v = writeAt b 296 15 v := rfl

theorem putRCT_OrigTotalCode403b (b : Buf) (v : Str) :
    put b baseRCT "OrigTotalCode403b" v = writeAt b 311 15 v := rfl

theorem putRCT_CorrectTotalCode403b (b : Buf) (v : Str) :
    put b baseRCT "CorrectTotalCode403b" v = writeAt b 326 15 v := rfl

theorem putRCT_OrigTotalCode457bGovt (b : Buf) (v : Str) :
    put b baseRCT "OrigTotalCode457bGovt" v = writeAt b 371 15 v := rfl

theorem putRCT_CorrectTotalCode457bGovt (b : Buf) (v : Str) :
    put b baseRCT "CorrectTotalCode457bGovt" v = writeAt b 386 15 v := rfl

theorem putRCT_OrigTotalCodeW_HSA (b : Buf) (v : Str) :
    put b baseRCT "OrigTotalCodeW_HSA" v = writeAt b 521 15 v := rfl

theorem putRCT_CorrectTotalCodeW_HSA (b : Buf) (v : Str) :
    put b baseRCT "CorrectTotalCodeW_HSA" v = writeAt b 536 15 v := rfl

theorem putRCT_OrigTotalNonqualPlan457 (b : Buf) (v : Str) :
    put b baseRCT "OrigTotalNonqualPlan457" v = writeAt b 491 15 v := rfl

theorem putRCT_CorrectTotalNonqualPlan457 (b : Buf) (v : Str) :
    put b baseRCT "CorrectTotalNonqualPlan457" v = writeAt b 506 15 v := rfl

theorem putRCT_OrigTotalNonqualNotSection457 (b : Buf) (v : Str) :
    put b baseRCT "OrigTotalNonqualNotSection457" v = writeAt b 551 15 v := rfl

theorem putRCT_CorrectTotalNonqualNotSection457 (b : Buf) (v : Str) :
    put b baseRCT "CorrectTotalNonqualNotSection457" v = writeAt b 566 15 v := rfl

theorem putRCT_OrigTotalCodeAA_Roth401k (b : Buf) (v : Str) :
    put b baseRCT "OrigTotalCodeAA_Roth401k" v = writeAt b 731 15 v := rfl

theorem putRCT_CorrectTotalCodeAA_Roth401k (b : Buf) (v : Str) :
    put b baseRCT "CorrectTotalCodeAA_Roth401k" v = writeAt b 746 15 v := rfl

theorem putRCT_OrigTotalCodeBB_Roth403b (b : Buf) (v : Str) :
    put b baseRCT "OrigTotalCodeBB_Roth403b" v = writeAt b 761 15 v := rfl

theorem putRCT_CorrectTotalCodeBB_Roth403b (b : Buf) (v : Str) :
    put b baseRCT "CorrectTotalCodeBB_Roth403b" v = writeAt b 776 15 v := rfl

theorem putRCT_OrigTotalCodeDD_EmpHealth (b : Buf) (v : Str) :
    put b baseRCT "OrigTotalCodeDD_EmpHealth" v = writeAt b 791 15 v := rfl

theorem putRCT_CorrectTotalCodeDD_EmpHealth (b : Buf) (v : Str) :
    put b baseRCT "CorrectTotalCodeDD_EmpHealth" v = writeAt b 806 15 v := rfl

theorem putRCF_RecordIdentifier (b : Buf) (v : Str) :
    put b baseRCF "RecordIdentifier" v = writeAt b 1 3 v := rfl

theorem putRCF_TotalRCWRecords (b : Buf) (v : Str) :
    put b baseRCF "TotalRCWRecords" v = writeAt b 4 7 v := rfl

theorem putRCO24_RecordIdentifier (b : Buf) (v : Str) :
    put b ty2024Spec.RCO "RecordIdentifier" v = writeAt b 1 3 v := rfl

theorem putRCO24_OrigAllocatedTips (b : Buf) (v : Str) :
    put b ty2024Spec.RCO "OrigAllocatedTips" v = writeAt b 13 11 v := rfl

theorem putRCO24_CorrectAllocatedTips (b : Buf) (v : Str) :
    put b ty2024Spec.RCO "CorrectAllocatedTips" v = writeAt b 24 11 v := rfl

set_option maxHeartbeats 2000000 in
theorem rcw_box17_block (g : Generator) (hg : g.yspec.RCW = baseRCW) (e : EmployeeRecord)
    (l1 : (money11 e.Amounts.OriginalWagesTipsOther).length = 11)
    (l2 : (money11 e.Amounts.CorrectWagesTipsOther).length = 11)
    (l3 : (money11 e.Amounts.OriginalFederalIncomeTax).length = 11)
    (l4 : (money11 e.Amounts.CorrectFederalIncomeTax).length = 11)
    (l5 : (money11 e.Amounts.OriginalSocialSecurityWages).length = 11)
    (l6 : (money11 e.Amounts.CorrectSocialSecurityWages).length = 11)
    (l7 : (money11 e.Amounts.OriginalSocialSecurityTax).length = 11)
    (l8 : (money11 e.Amounts.CorrectSocialSecurityTax).length = 11)
    (l9 : (money11 e.Amounts.OriginalMedicareWages).length = 11)
    (l10 : (money11 e.Amounts.CorrectMedicareWages).length = 11)
    (l11 : (money11 e.Amounts.OriginalMedicareTax).length = 11)
    (l12 : (money11 e.Amounts.CorrectMedicareTax).length = 11)
    (l13 : (money11 e.Amounts.OriginalSocialSecurityTips).length = 11)
    (l14 : (money11 e.Amounts.CorrectSocialSecurityTips).length = 11) :
    readN (buildRCW g e) 244 154 =
      money11 e.Amounts.OriginalWagesTipsOther ++
      money11 e.Amounts.CorrectWagesTipsOther ++
      money11 e.Amounts.OriginalFederalIncomeTax ++
      money11 e.Amounts.CorrectFederalIncomeTax ++
      money11 e.Amounts.OriginalSocialSecurityWages ++
      money11 e.Amounts.CorrectSocialSecurityWages ++
      money11 e.Amounts.OriginalSocialSecurityTax ++
      money11 e.Amounts.CorrectSocialSecurityTax ++
      money11 e.Amounts.OriginalMedicareWages ++
      money11 e.Amounts.CorrectMedicareWages ++
      money11 e.Amounts.OriginalMedicareTax ++
      money11 e.Amounts.CorrectMedicareTax ++
      money11 e.Amounts.OriginalSocialSecurityTips ++
      money11 e.Amounts.CorrectSocialSecurityTips := by
  simp only [Nat.reduceAdd, Nat.reduceSub, Nat.reduceLeDiff, Nat.reduceEqDiff, or_true,
    true_or, buildRCW, hg, putMoney11Pair, putBox13, putRCW_RecordIdentifier, putRCW_OrigSSN, putRCW_CorrectSSN, putRCW_OrigFirstName, putRCW_OrigMiddleName, putRCW_OrigLastName, putRCW_CorrectFirstName, putRCW_CorrectMiddleName, putRCW_CorrectLastName, putRCW_LocationAddress, putRCW_DeliveryAddress, putRCW_City, putRCW_StateAbbrev, putRCW_ZIPCode, putRCW_ZIPExtension, putRCW_OrigWagesTipsOther, putRCW_CorrectWagesTipsOther, putRCW_OrigFedIncomeTax, putRCW_CorrectFedIncomeTax, putRCW_OrigSSWages, putRCW_CorrectSSWages, putRCW_OrigSSTax, putRCW_CorrectSSTax, putRCW_OrigMedicareWages, putRCW_CorrectMedicareWages, putRCW_OrigMedicareTax, putRCW_CorrectMedicareTax, putRCW_OrigSSTips, putRCW_CorrectSSTips, putRCW_OrigDependentCare, putRCW_CorrectDependentCare, putRCW_OrigCode401k, putRCW_CorrectCode401k, putRCW_OrigCode403b, putRCW_CorrectCode403b, putRCW_OrigCode457bGovt, putRCW_CorrectCode457bGovt, putRCW_OrigCodeW_HSA, putRCW_CorrectCodeW_HSA, putRCW_OrigCodeAA_Roth401k, putRCW_CorrectCodeAA_Roth401k, putRCW_OrigCodeBB_Roth403b, putRCW_CorrectCodeBB_Roth403b, putRCW_OrigCodeDD_EmpHealth, putRCW_CorrectCodeDD_EmpHealth, putRCW_OrigNonqualPlan457, putRCW_CorrectNonqualPlan457, putRCW_OrigNonqualNotSection457, putRCW_CorrectNonqualNotSection457, putRCW_OrigStatutoryEmployee, putRCW_CorrectStatutoryEmployee, putRCW_OrigRetirementPlan, putRCW_CorrectRetirementPlan, putRCW_OrigThirdPartySickPay, putRCW_CorrectThirdPartySickPay, readN_ite, ite_self,
    readN_writeAt_out, readN_writeAt_last, readN_zero,
    l1, l2, l3, l4, l5, l6, l7, l8, l9, l10, l11, l12, l13, l14,
    List.nil_append, List.append_assoc]

/-! Decimal numeral facts. -/

theorem digitChar_toNat (d : Nat) (h : d < 10) : (digitChar d).toNat = 48 + d := by
  interval_cases d <;> rfl

theorem digitChar_ne_space (d : Nat) (h : d < 10) : digitChar d ≠ ' ' := by
  interval_cases d <;> decide

theorem parseNat_append_digit (l : Str) (c : Char) :
    parseNat (l ++ [c]) = 10 * parseNat l + (c.toNat - 48) := by
  simp [parseNat, List.foldl_append]

theorem parseNat_natCharsAux (fuel n : Nat) (h : n < fuel) :
    parseNat (natCharsAux fuel n) = n := by
  induction fuel generalizing n with
  | zero => omega
  | succ fuel ih =>
    rw [natCharsAux]
    by_cases h10 : n < 10
    · rw [if_pos h10]
      simp [parseNat]
      rw [digitChar_toNat n h10]
      omega
    · rw [if_neg h10, parseNat_append_digit, ih (n / 10) (by omega),
        digitChar_toNat _ (by omega)]
      omega

theorem parseNat_natRepr (n : Nat) : parseNat (natRepr n) = n :=
  parseNat_natCharsAux _ _ (Nat.lt_succ_self n)

theorem natCharsAux_length_le (fuel : Nat) : ∀ n k, n < fuel → n < 10 ^ k → 1 ≤ k →
    (natCharsAux fuel n).length ≤ k := by
  induction fuel with
  | zero => omega
  | succ fuel ih =>
    intro n k hf hk h1
    rw [natCharsAux]
    by_cases h10 : n < 10
    · rw [if_pos h10]
      simpa using h1
    · rw [if_neg h10]
      have hk2 : 2 ≤ k := by
        rcases Nat.lt_or_ge k 2 with h | h
        · interval_cases k <;> simp_all <;> omega
        · exact h
      have hdiv : n / 10 < 10 ^ (k - 1) := by
        have hp : 10 ^ k = 10 ^ (k - 1) * 10 := by
          rw [← pow_succ]
          congr 1
          omega
        rw [Nat.div_lt_iff_lt_mul (by norm_num)]
        omega
      have := ih (n / 10) (k - 1) (by omega) hdiv (by omega)
      simp only [List.length_append, List.length_cons, List.length_nil]
      omega

theorem natRepr_length_le (n k : Nat) (hk : n < 10 ^ k) (h1 : 1 ≤ k) :
    (natRepr n).length ≤ k :=
  natCharsAux_length_le _ _ _ (Nat.lt_succ_self n) hk h1

theorem natCharsAux_mem_digit (fuel : Nat) : ∀ n c, c ∈ natCharsAux fuel n →
    ∃ d, d < 10 ∧ c = digitChar d := by
  induction fuel with
  | zero => simp [natCharsAux]
  | succ fuel ih =>
    intro n c hc
    rw [natCharsAux] at hc
    by_cases h10 : n < 10
    · rw [if_pos h10] at hc
      simp at hc
      exact ⟨n, h10, hc⟩
    · rw [if_neg h10] at hc
      rcases List.mem_append.1 hc with h | h
      · exact ih _ _ h
      · simp at h
        exact ⟨n % 10, by omega, h⟩

theorem zeroPad_length (w : Nat) (s : Str) (h : s.length ≤ w) :
    (zeroPad w s).length = w := by
  simp [zeroPad]
  omega

theorem foldl_zeros (k : Nat) :
    List.foldl (fun acc c => 10 * acc + (c.toNat - 48)) 0 (List.replicate k '0') = 0 := by
  induction k with
  | zero => rfl
  | succ k ih => simpa [List.replicate_succ] using ih

theorem parseNat_zeroPad (w : Nat) (s : Str) : parseNat (zeroPad w s) = parseNat s := by
  rw [zeroPad, parseNat, List.foldl_append, foldl_zeros]
  rfl

/-! Money formatter facts. -/

theorem money11_length (c : Int) (h : c < 10 ^ 11) : (money11 c).length = 11 := by
  apply zeroPad_length
  apply natRepr_length_le _ 11 _ (by norm_num)
  split <;> omega

theorem money15_length (c : Int) (h : c < 10 ^ 15) : (money15 c).length = 15 := by
  apply zeroPad_length
  apply natRepr_length_le _ 15 _ (by norm_num)
  split <;> omega

theorem parseNat_money11 (c : Int) (h : 0 ≤ c) : parseNat (money11 c) = c.toNat := by
  rw [money11]
  simp only [if_neg (by omega : ¬c < 0)]
  rw [parseNat_zeroPad, parseNat_natRepr]

theorem parseNat_money15 (c : Int) (h : 0 ≤ c) : parseNat (money15 c) = c.toNat := by
  rw [money15]
  simp only [if_neg (by omega : ¬c < 0)]
  rw [parseNat_zeroPad, parseNat_natRepr]

theorem money11_of_neg (c : Int) (h : c < 0) : money11 c = List.replicate 11 '0' := by
  rw [money11]
  simp only [if_pos h]
  decide

theorem money11_ne_space (c : Int) : ∀ ch ∈ money11 c, ch ≠ ' ' := by
  intro ch hch
  rw [money11, zeroPad] at hch
  rcases List.mem_append.1 hch with h | h
  · rw [List.eq_of_mem_replicate h]
    decide
  · obtain ⟨d, hd, rfl⟩ := natCharsAux_mem_digit _ _ _ h
    exact digitChar_ne_space d hd

theorem money11_ne_nil (c : Int) : money11 c ≠ [] := by
  intro h
  have h2 := congrArg List.length h
  simp only [money11, zeroPad, List.length_append, List.length_replicate,
    List.length_nil] at h2
  omega

/-! Go int64 arithmetic. -/

theorem wrap64_eq_self (x : Int) (h1 : -(2 ^ 63) ≤ x) (h2 : x < 2 ^ 63) :
    wrap64 x = x := by
  unfold wrap64
  rw [Int.emod_eq_of_lt (by omega) (by omega)]
  omega

theorem foldl_i64add_eq (f : EmployeeRecord → Int) (es : List EmployeeRecord) :
    ∀ acc : Int, 0 ≤ acc → (∀ e ∈ es, 0 ≤ f e) → acc + (es.map f).sum < 2 ^ 63 →
    es.foldl (fun a e => i64add a (f e)) acc = acc + (es.map f).sum := by
  induction es with
  | nil =>
    intro acc _ _ _
    simp
  | cons e es ih =>
    intro acc hacc hpos hlt
    have h0 : 0 ≤ f e := hpos e (List.mem_cons_self _ _)
    have h1 : 0 ≤ (es.map f).sum := List.sum_nonneg fun x hx => by
      obtain ⟨y, hy, rfl⟩ := List.mem_map.1 hx
      exact hpos y (List.mem_cons_of_mem _ hy)
    simp only [List.foldl_cons, List.map_cons, List.sum_cons] at hlt ⊢
    rw [show i64add acc (f e) = acc + f e from by
      unfold i64add
      exact wrap64_eq_self _ (by omega) (by omega)]
    rw [ih (acc + f e) (by omega) (fun x hx => hpos x (List.mem_cons_of_mem _ hx))
      (by omega)]
    ring

theorem sumAmt_eq_sum (f : MonetaryAmounts → Int) (es : List EmployeeRecord)
    (hpos : ∀ e ∈ es, 0 ≤ f e.Amounts)
    (hsum : (es.map fun e => f e.Amounts).sum < 2 ^ 63) :
    sumAmt f es = (es.map fun e => f e.Amounts).sum := by
  have := foldl_i64add_eq (fun e => f e.Amounts) es 0 le_rfl hpos (by omega)
  simpa [sumAmt] using this

theorem sum_toNat_of_nonneg (l : List Int) (h : ∀ x ∈ l, 0 ≤ x) :
    (l.map Int.toNat).sum = l.sum.toNat := by
  induction l with
  | nil => rfl
  | cons x l ih =>
    have hx : 0 ≤ x := h x (List.mem_cons_self _ _)
    have hl : 0 ≤ l.sum := List.sum_nonneg fun y hy => h y (List.mem_cons_of_mem _ hy)
    simp only [List.map_cons, List.sum_cons, ih fun y hy => h y (List.mem_cons_of_mem _ hy)]
    omega
theorem split_first (b : Buf) (s m n : Nat) (u rest : Str) (hu : u.length = m)
    (N : Nat) (hN : N = m + n) (h : readN b s N = u ++ rest) :
    readN b s m = u ∧ readN b (s + m) n = rest := by
  subst hN
  rw [readN_append] at h
  exact List.append_inj h (by rw [readN_length, hu])

theorem rcw_box17_slices (g : Generator) (hg : g.yspec.RCW = baseRCW) (e : EmployeeRecord)
    (l1 : (money11 e.Amounts.OriginalWagesTipsOther).length = 11)
    (l2 : (money11 e.Amounts.CorrectWagesTipsOther).length = 11)
    (l3 : (money11 e.Amounts.OriginalFederalIncomeTax).length = 11)
    (l4 : (money11 e.Amounts.CorrectFederalIncomeTax).length = 11)
    (l5 : (money11 e.Amounts.OriginalSocialSecurityWages).length = 11)
    (l6 : (money11 e.Amounts.CorrectSocialSecurityWages).length = 11)
    (l7 : (money11 e.Amounts.OriginalSocialSecurityTax).length = 11)
    (l8 : (money11 e.Amounts.CorrectSocialSecurityTax).length = 11)
    (l9 : (money11 e.Amounts.OriginalMedicareWages).length = 11)
    (l10 : (money11 e.Amounts.CorrectMedicareWages).length = 11)
    (l11 : (money11 e.Amounts.OriginalMedicareTax).length = 11)
    (l12 : (money11 e.Amounts.CorrectMedicareTax).length = 11)
    (l13 : (money11 e.Amounts.OriginalSocialSecurityTips).length = 11)
    (l14 : (money11 e.Amounts.CorrectSocialSecurityTips).length = 11) :
      readN (buildRCW g e) 244 11 = money11 e.Amounts.OriginalWagesTipsOther ∧
      readN (buildRCW g e) 255 11 = money11 e.Amounts.CorrectWagesTipsOther ∧
      readN (buildRCW g e) 266 11 = money11 e.Amounts.OriginalFederalIncomeTax ∧
      readN (buildRCW g e) 277 11 = money11 e.Amounts.CorrectFederalIncomeTax ∧
      readN (buildRCW g e) 288 11 = money11 e.Amounts.OriginalSocialSecurityWages ∧
      readN (buildRCW g e) 299 11 = money11 e.Amounts.CorrectSocialSecurityWages ∧
      readN (buildRCW g e) 310 11 = money11 e.Amounts.OriginalSocialSecurityTax ∧
      readN (buildRCW g e) 321 11 = money11 e.Amounts.CorrectSocialSecurityTax ∧
      readN (buildRCW g e) 332 11 = money11 e.Amounts.OriginalMedicareWages ∧
      readN (buildRCW g e) 343 11 = money11 e.Amounts.CorrectMedicareWages ∧
      readN (buildRCW g e) 354 11 = money11 e.Amounts.OriginalMedicareTax ∧
      readN (buildRCW g e) 365 11 = money11 e.Amounts.CorrectMedicareTax ∧
      readN (buildRCW g e) 376 11 = money11 e.Amounts.OriginalSocialSecurityTips ∧
      readN (buildRCW g e) 387 11 = money11 e.Amounts.CorrectSocialSecurityTips := by
  have hb := rcw_box17_block g hg e l1 l2 l3 l4 l5 l6 l7 l8 l9 l10 l11 l12 l13 l14
  simp only [List.append_assoc] at hb
  obtain ⟨s1, hb⟩ := split_first _ 244 11 143 _ _ l1 154 (by norm_num) hb
  rw [show (244:Nat) + 11 = 255 from rfl] at hb
  obtain ⟨s2, hb⟩ := split_first _ 255 11 132 _ _ l2 143 (by norm_num) hb
  rw [show (255:Nat) + 11 = 266 from rfl] at hb
  obtain ⟨s3, hb⟩ := split_first _ 266 11 121 _ _ l3 132 (by norm_num) hb
  rw [show (266:Nat) + 11 = 277 from rfl] at hb
  obtain ⟨s4, hb⟩ := split_first _ 277 11 110 _ _ l4 121 (by norm_num) hb
  rw [show (277:Nat) + 11 = 288 from rfl] at hb
  obtain ⟨s5, hb⟩ := split_first _ 288 11 99 _ _ l5 110 (by norm_num) hb
  rw [show (288:Nat) + 11 = 299 from rfl] at hb
  obtain ⟨s6, hb⟩ := split_first _ 299 11 88 _ _ l6 99 (by norm_num) hb
  rw [show (299:Nat) + 11 = 310 from rfl] at hb
  obtain ⟨s7, hb⟩ := split_first _ 310 11 77 _ _ l7 88 (by norm_num) hb
  rw [show (310:Nat) + 11 = 321 from rfl] at hb
  obtain ⟨s8, hb⟩ := split_first _ 321 11 66 _ _ l8 77 (by norm_num) hb
  rw [show (321:Nat) + 11 = 332 from rfl] at hb
  obtain ⟨s9, hb⟩ := split_first _ 332 11 55 _ _ l9 66 (by norm_num) hb
  rw [show (332:Nat) + 11 = 343 from rfl] at hb
  obtain ⟨s10, hb⟩ := split_first _ 343 11 44 _ _ l10 55 (by norm_num) hb
  rw [show (343:Nat) + 11 = 354 from rfl] at hb
  obtain ⟨s11, hb⟩ := split_first _ 354 11 33 _ _ l11 44 (by norm_num) hb
  rw [show (354:Nat) + 11 = 365 from rfl] at hb
  obtain ⟨s12, hb⟩ := split_first _ 365 11 22 _ _ l12 33 (by norm_num) hb
  rw [show (365:Nat) + 11 = 376 from rfl] at hb
  obtain ⟨s13, hb⟩ := split_first _ 376 11 11 _ _ l13 22 (by norm_num) hb
  rw [show (376:Nat) + 11 = 387 from rfl] at hb
  exact ⟨s1, s2, s3, s4, s5, s6, s7, s8, s9, s10, s11, s12, s13, hb⟩

set_option maxHeartbeats 2000000 in
theorem rct_block (g : Generator) (hg : g.yspec.RCT = baseRCT)
    (origWages corrWages origFed corrFed origSS corrSS origSSTax corrSSTax origMed corrMed origMedTax corrMedTax origSSTips corrSSTips origDepCare corrDepCare origNQ457 corrNQ457 origNQNot457 corrNQNot457 origD corrD origE corrE origG corrG origW corrW origAA corrAA origBB corrBB origDD corrDD : Int)
    (t1 : (money15 origWages).length = 15)
    (t2 : (money15 corrWages).length = 15)
    (t3 : (money15 origFed).length = 15)
    (t4 : (money15 corrFed).length = 15)
    (t5 : (money15 origSS).length = 15)
    (t6 : (money15 corrSS).length = 15)
    (t7 : (money15 origSSTax).length = 15)
    (t8 : (money15 corrSSTax).length = 15)
    (t9 : (money15 origMed).length = 15)
    (t10 : (money15 corrMed).length = 15)
    (t11 : (money15 origMedTax).length = 15)
    (t12 : (money15 corrMedTax).length = 15)
    (t13 : (money15 origSSTips).length = 15)
    (t14 : (money15 corrSSTips).length = 15) :
    readN (buildRCT g origWages corrWages origFed corrFed origSS corrSS origSSTax corrSSTax origMed corrMed origMedTax corrMedTax origSSTips corrSSTips origDepCare corrDepCare origNQ457 corrNQ457 origNQNot457 corrNQNot457 origD corrD origE corrE origG corrG origW corrW origAA corrAA origBB corrBB origDD corrDD) 11 210 =
      money15 origWages ++
      money15 corrWages ++
      money15 origFed ++
      money15 corrFed ++
      money15 origSS ++
      money15 corrSS ++
      money15 origSSTax ++
      money15 corrSSTax ++
      money15 origMed ++
      money15 corrMed ++
      money15 origMedTax ++
      money15 corrMedTax ++
      money15 origSSTips ++
      money15 corrSSTips := by
  simp only [Nat.reduceAdd, Nat.reduceSub, Nat.reduceLeDiff, or_true,
    true_or, buildRCT, hg, putMoney15Pair, putRCT_RecordIdentifier, putRCT_TotalRCWRecords, putRCT_OrigTotalWagesTips, putRCT_CorrectTotalWagesTips, putRCT_OrigTotalFedIncomeTax, putRCT_CorrectTotalFedIncomeTax, putRCT_OrigTotalSSWages, putRCT_CorrectTotalSSWages, putRCT_OrigTotalSSTax, putRCT_CorrectTotalSSTax, putRCT_OrigTotalMedicareWages, putRCT_CorrectTotalMedicareWages, putRCT_OrigTotalMedicareTax, putRCT_CorrectTotalMedicareTax, putRCT_OrigTotalSSTips, putRCT_CorrectTotalSSTips, putRCT_OrigTotalDependentCare, putRCT_CorrectTotalDependentCare, putRCT_OrigTotalCode401k, putRCT_CorrectTotalCode401k, putRCT_OrigTotalCode403b, putRCT_CorrectTotalCode403b, putRCT_OrigTotalCode457bGovt, putRCT_CorrectTotalCode457bGovt, putRCT_OrigTotalCodeW_HSA, putRCT_CorrectTotalCodeW_HSA, putRCT_OrigTotalNonqualPlan457, putRCT_CorrectTotalNonqualPlan457, putRCT_OrigTotalNonqualNotSection457, putRCT_CorrectTotalNonqualNotSection457, putRCT_OrigTotalCodeAA_Roth401k, putRCT_CorrectTotalCodeAA_Roth401k, putRCT_OrigTotalCodeBB_Roth403b, putRCT_CorrectTotalCodeBB_Roth403b, putRCT_OrigTotalCodeDD_EmpHealth, putRCT_CorrectTotalCodeDD_EmpHealth, readN_ite, ite_self,
    readN_writeAt_out, readN_writeAt_last, readN_zero,
    t1, t2, t3, t4, t5, t6, t7, t8, t9, t10, t11, t12, t13, t14,
    List.nil_append, List.append_assoc]

theorem rct_slices (g : Generator) (hg : g.yspec.RCT = baseRCT)
    (origWages corrWages origFed corrFed origSS corrSS origSSTax corrSSTax origMed corrMed origMedTax corrMedTax origSSTips corrSSTips origDepCare corrDepCare origNQ457 corrNQ457 origNQNot457 corrNQNot457 origD corrD origE corrE origG corrG origW corrW origAA corrAA origBB corrBB origDD corrDD : Int)
    (t1 : (money15 origWages).length = 15)
    (t2 : (money15 corrWages).length = 15)
    (t3 : (money15 origFed).length = 15)
    (t4 : (money15 corrFed).length = 15)
    (t5 : (money15 origSS).length = 15)
    (t6 : (money15 corrSS).length = 15)
    (t7 : (money15 origSSTax).length = 15)
    (t8 : (money15 corrSSTax).length = 15)
    (t9 : (money15 origMed).length = 15)
    (t10 : (money15 corrMed).length = 15)
    (t11 : (money15 origMedTax).length = 15)
    (t12 : (money15 corrMedTax).length = 15)
    (t13 : (money15 origSSTips).length = 15)
    (t14 : (money15 corrSSTips).length = 15) :
      readN (buildRCT g origWages corrWages origFed corrFed origSS corrSS origSSTax corrSSTax origMed corrMed origMedTax corrMedTax origSSTips corrSSTips origDepCare corrDepCare origNQ457 corrNQ457 origNQNot457 corrNQNot457 origD corrD origE corrE origG corrG origW corrW origAA corrAA origBB corrBB origDD corrDD) 11 15 = money15 origWages ∧
      readN (buildRCT g origWages corrWages origFed corrFed origSS corrSS origSSTax corrSSTax origMed corrMed origMedTax corrMedTax origSSTips corrSSTips origDepCare corrDepCare origNQ457 corrNQ457 origNQNot457 corrNQNot457 origD corrD origE corrE origG corrG origW corrW origAA corrAA origBB corrBB origDD corrDD) 26 15 = money15 corrWages ∧
      readN (buildRCT g origWages corrWages origFed corrFed origSS corrSS origSSTax corrSSTax origMed corrMed origMedTax corrMedTax origSSTips corrSSTips origDepCare corrDepCare origNQ457 corrNQ457 origNQNot457 corrNQNot457 origD corrD origE corrE origG corrG origW corrW origAA corrAA origBB corrBB origDD corrDD) 41 15 = money15 origFed ∧
      readN (buildRCT g origWages corrWages origFed corrFed origSS corrSS origSSTax corrSSTax origMed corrMed origMedTax corrMedTax origSSTips corrSSTips origDepCare corrDepCare origNQ457 corrNQ457 origNQNot457 corrNQNot457 origD corrD origE corrE origG corrG origW corrW origAA corrAA origBB corrBB origDD corrDD) 56 15 = money15 corrFed ∧
      readN (buildRCT g origWages corrWages origFed corrFed origSS corrSS origSSTax corrSSTax origMed corrMed origMedTax corrMedTax origSSTips corrSSTips origDepCare corrDepCare origNQ457 corrNQ457 origNQNot457 corrNQNot457 origD corrD origE corrE origG corrG origW corrW origAA corrAA origBB corrBB origDD corrDD) 71 15 = money15 origSS ∧
      readN (buildRCT g origWages corrWages origFed corrFed origSS corrSS origSSTax corrSSTax origMed corrMed origMedTax corrMedTax origSSTips corrSSTips origDepCare corrDepCare origNQ457 corrNQ457 origNQNot457 corrNQNot457 origD corrD origE corrE origG corrG origW corrW origAA corrAA origBB corrBB origDD corrDD) 86 15 = money15 corrSS ∧
      readN (buildRCT g origWages corrWages origFed corrFed origSS corrSS origSSTax corrSSTax origMed corrMed origMedTax corrMedTax origSSTips corrSSTips origDepCare corrDepCare origNQ457 corrNQ457 origNQNot457 corrNQNot457 origD corrD origE corrE origG corrG origW corrW origAA corrAA origBB corrBB origDD corrDD) 101 15 = money15 origSSTax ∧
      readN (buildRCT g origWages corrWages origFed corrFed origSS corrSS origSSTax corrSSTax origMed corrMed origMedTax corrMedTax origSSTips corrSSTips origDepCare corrDepCare origNQ457 corrNQ457 origNQNot457 corrNQNot457 origD corrD origE corrE origG corrG origW corrW origAA corrAA origBB corrBB origDD corrDD) 116 15 = money15 corrSSTax ∧
      readN (buildRCT g origWages corrWages origFed corrFed origSS corrSS origSSTax corrSSTax origMed corrMed origMedTax corrMedTax origSSTips corrSSTips origDepCare corrDepCare origNQ457 corrNQ457 origNQNot457 corrNQNot457 origD corrD origE corrE origG corrG origW corrW origAA corrAA origBB corrBB origDD corrDD) 131 15 = money15 origMed ∧
      readN (buildRCT g origWages corrWages origFed corrFed origSS corrSS origSSTax corrSSTax origMed corrMed origMedTax corrMedTax origSSTips corrSSTips origDepCare corrDepCare origNQ457 corrNQ457 origNQNot457 corrNQNot457 origD corrD origE corrE origG corrG origW corrW origAA corrAA origBB corrBB origDD corrDD) 146 15 = money15 corrMed ∧
      readN (buildRCT g origWages corrWages origFed corrFed origSS corrSS origSSTax corrSSTax origMed corrMed origMedTax corrMedTax origSSTips corrSSTips origDepCare corrDepCare origNQ457 corrNQ457 origNQNot457 corrNQNot457 origD corrD origE corrE origG corrG origW corrW origAA corrAA origBB corrBB origDD corrDD) 161 15 = money15 origMedTax ∧
      readN (buildRCT g origWages corrWages origFed corrFed origSS corrSS origSSTax corrSSTax origMed corrMed origMedTax corrMedTax origSSTips corrSSTips origDepCare corrDepCare origNQ457 corrNQ457 origNQNot457 corrNQNot457 origD corrD origE corrE origG corrG origW corrW origAA corrAA origBB corrBB origDD corrDD) 176 15 = money15 corrMedTax ∧
      readN (buildRCT g origWages corrWages origFed corrFed origSS corrSS origSSTax corrSSTax origMed corrMed origMedTax corrMedTax origSSTips corrSSTips origDepCare corrDepCare origNQ457 corrNQ457 origNQNot457 corrNQNot457 origD corrD origE corrE origG corrG origW corrW origAA corrAA origBB corrBB origDD corrDD) 191 15 = money15 origSSTips ∧
      readN (buildRCT g origWages corrWages origFed corrFed origSS corrSS origSSTax corrSSTax origMed corrMed origMedTax corrMedTax origSSTips corrSSTips origDepCare corrDepCare origNQ457 corrNQ457 origNQNot457 corrNQNot457 origD corrD origE corrE origG corrG origW corrW origAA corrAA origBB corrBB origDD corrDD) 206 15 = money15 corrSSTips := by
  have hb := rct_block g hg origWages corrWages origFed corrFed origSS corrSS origSSTax corrSSTax origMed corrMed origMedTax corrMedTax origSSTips corrSSTips origDepCare corrDepCare origNQ457 corrNQ457 origNQNot457 corrNQNot457 origD corrD origE corrE origG corrG origW corrW origAA corrAA origBB corrBB origDD corrDD t1 t2 t3 t4 t5 t6 t7 t8 t9 t10 t11 t12 t13 t14
  simp only [List.append_assoc] at hb
  obtain ⟨s1, hb⟩ := split_first _ 11 15 195 _ _ t1 210 (by norm_num) hb
  rw [show (11:Nat) + 15 = 26 from rfl] at hb
  obtain ⟨s2, hb⟩ := split_first _ 26 15 180 _ _ t2 195 (by norm_num) hb
  rw [show (26:Nat) + 15 = 41 from rfl] at hb
  obtain ⟨s3, hb⟩ := split_first _ 41 15 165 _ _ t3 180 (by norm_num) hb
  rw [show (41:Nat) + 15 = 56 from rfl] at hb
  obtain ⟨s4, hb⟩ := split_first _ 56 15 150 _ _ t4 165 (by norm_num) hb
  rw [show (56:Nat) + 15 = 71 from rfl] at hb
  obtain ⟨s5, hb⟩ := split_first _ 71 15 135 _ _ t5 150 (by norm_num) hb
  rw [show (71:Nat) + 15 = 86 from rfl] at hb
  obtain ⟨s6, hb⟩ := split_first _ 86 15 120 _ _ t6 135 (by norm_num) hb
  rw [show (86:Nat) + 15 = 101 from rfl] at hb
  obtain ⟨s7, hb⟩ := split_first _ 101 15 105 _ _ t7 120 (by norm_num) hb
  rw [show (101:Nat) + 15 = 116 from rfl] at hb
  obtain ⟨s8, hb⟩ := split_first _ 116 15 90 _ _ t8 105 (by norm_num) hb
  rw [show (116:Nat) + 15 = 131 from rfl] at hb
  obtain ⟨s9, hb⟩ := split_first _ 131 15 75 _ _ t9 90 (by norm_num) hb
  rw [show (131:Nat) + 15 = 146 from rfl] at hb
  obtain ⟨s10, hb⟩ := split_first _ 146 15 60 _ _ t10 75 (by norm_num) hb
  rw [show (146:Nat) + 15 = 161 from rfl] at hb
  obtain ⟨s11, hb⟩ := split_first _ 161 15 45 _ _ t11 60 (by norm_num) hb
  rw [show (161:Nat) + 15 = 176 from rfl] at hb
  obtain ⟨s12, hb⟩ := split_first _ 176 15 30 _ _ t12 45 (by norm_num) hb
  rw [show (176:Nat) + 15 = 191 from rfl] at hb
  obtain ⟨s13, hb⟩ := split_first _ 191 15 15 _ _ t13 30 (by norm_num) hb
  rw [show (191:Nat) + 15 = 206 from rfl] at hb
  exact ⟨s1, s2, s3, s4, s5, s6, s7, s8, s9, s10, s11, s12, s13, hb⟩

/-! Year-spec case analysis: every ForYear result is one of the four
catalog entries, and all tables except RCO agree across them. -/

theorem ForYear_cases (y : Int) :
    (ForYear y).1 = ty2021Spec ∨ (ForYear y).1 = ty2022Spec ∨
    (ForYear y).1 = ty2023Spec ∨ (ForYear y).1 = ty2024Spec := by
  by_cases h1 : y = 2021
  · simp [ForYear, specs, h1]
  · by_cases h2 : y = 2022
    · simp [ForYear, specs, h1, h2]
    · by_cases h3 : y = 2023
      · simp [ForYear, specs, h1, h2, h3]
      · by_cases h4 : y = 2024
        · simp [ForYear, specs, h1, h2, h3, h4]
        · simp [ForYear, specs, h1, h2, h3, h4, DefaultYear]

theorem ForYear_RCA (y : Int) : ((ForYear y).1).RCA = baseRCA := by
  rcases ForYear_cases y with h | h | h | h <;> rw [h] <;> rfl

theorem ForYear_RCE (y : Int) : ((ForYear y).1).RCE = baseRCE := by
  rcases ForYear_cases y with h | h | h | h <;> rw [h] <;> rfl

theorem ForYear_RCW (y : Int) : ((ForYear y).1).RCW = baseRCW := by
  rcases ForYear_cases y with h | h | h | h <;> rw [h] <;> rfl

theorem ForYear_RCS (y : Int) : ((ForYear y).1).RCS = baseRCS := by
  rcases ForYear_cases y with h | h | h | h <;> rw [h] <;> rfl

theorem ForYear_RCT (y : Int) : ((ForYear y).1).RCT = baseRCT := by
  rcases ForYear_cases y with h | h | h | h <;> rw [h] <;> rfl

theorem ForYear_RCF (y : Int) : ((ForYear y).1).RCF = baseRCF := by
  rcases ForYear_cases y with h | h | h | h <;> rw [h] <;> rfl

theorem ForYear_RCO (y : Int) :
    ((ForYear y).1).RCO = baseRCO ∨ ((ForYear y).1).RCO = ty2024Spec.RCO := by
  rcases ForYear_cases y with h | h | h | h
  · left
    rw [h] <;> rfl
  · left
    rw [h] <;> rfl
  · left
    rw [h] <;> rfl
  · right
    rw [h]

/-! Record-kind bytes: every record starts with its three-letter tag. -/

set_option maxHeartbeats 1000000 in
theorem buildRCA_kind (g : Generator) (hg : g.yspec.RCA = baseRCA) (s : Submission) :
    readN (buildRCA g s) 1 3 = "RCA".toList := by
  simp only [Nat.reduceAdd, Nat.reduceLeDiff, or_true, true_or, buildRCA, hg,
    putMoney11Pair, putMoney15Pair, putBox13, putRCA_RecordIdentifier, putRCA_SubmitterEIN, putRCA_BSOUID, putRCA_CompanyName, putRCA_LocationAddress, putRCA_DeliveryAddress, putRCA_City, putRCA_StateAbbrev, putRCA_ZIPCode, putRCA_ZIPExtension, putRCA_ContactName, putRCA_ContactPhone, putRCA_ContactEmail, putRCA_PreparerCode, putRCA_ResubIndicator, putRCA_ResubWFID,
    readN_ite, ite_self, readN_writeAt_out, readN_writeAt_self,
    show (("RCA".toList) : Str).length = 3 from rfl]

set_option maxHeartbeats 1000000 in
theorem buildRCE_kind (g : Generator) (hg : g.yspec.RCE = baseRCE) (s : Submission) :
    readN (buildRCE g s) 1 3 = "RCE".toList := by
  simp only [Nat.reduceAdd, Nat.reduceLeDiff, or_true, true_or, buildRCE, hg,
    putMoney11Pair, putMoney15Pair, putBox13, putRCE_RecordIdentifier, putRCE_TaxYear, putRCE_OrigReportedEIN, putRCE_EmployerEIN, putRCE_AgentIndicatorCode, putRCE_AgentForEIN, putRCE_EmployerName, putRCE_LocationAddress, putRCE_DeliveryAddress, putRCE_City, putRCE_StateAbbrev, putRCE_ZIPCode, putRCE_ZIPExtension, putRCE_CorrectEmploymentCode, putRCE_KindOfEmployer, putRCE_ContactName, putRCE_ContactPhone, putRCE_ContactEmail,
    readN_ite, ite_self, readN_writeAt_out, readN_writeAt_self,
    show (("RCE".toList) : Str).length = 3 from rfl]

set_option maxHeartbeats 1000000 in
theorem buildRCW_kind (g : Generator) (hg : g.yspec.RCW = baseRCW) (e : EmployeeRecord) :
    readN (buildRCW g e) 1 3 = "RCW".toList := by
  simp only [Nat.reduceAdd, Nat.reduceLeDiff, or_true, true_or, buildRCW, hg,
    putMoney11Pair, putMoney15Pair, putBox13, putRCW_RecordIdentifier, putRCW_OrigSSN, putRCW_CorrectSSN, putRCW_OrigFirstName, putRCW_OrigMiddleName, putRCW_OrigLastName, putRCW_CorrectFirstName, putRCW_CorrectMiddleName, putRCW_CorrectLastName, putRCW_LocationAddress, putRCW_DeliveryAddress, putRCW_City, putRCW_StateAbbrev, putRCW_ZIPCode, putRCW_ZIPExtension, putRCW_OrigWagesTipsOther, putRCW_CorrectWagesTipsOther, putRCW_OrigFedIncomeTax, putRCW_CorrectFedIncomeTax, putRCW_OrigSSWages, putRCW_CorrectSSWages, putRCW_OrigSSTax, putRCW_CorrectSSTax, putRCW_OrigMedicareWages, putRCW_CorrectMedicareWages, putRCW_OrigMedicareTax, putRCW_CorrectMedicareTax, putRCW_OrigSSTips, putRCW_CorrectSSTips, putRCW_OrigDependentCare, putRCW_CorrectDependentCare, putRCW_OrigCode401k, putRCW_CorrectCode401k, putRCW_OrigCode403b, putRCW_CorrectCode403b, putRCW_OrigCode457bGovt, putRCW_CorrectCode457bGovt, putRCW_OrigCodeW_HSA, putRCW_CorrectCodeW_HSA, putRCW_OrigCodeAA_Roth401k, putRCW_CorrectCodeAA_Roth401k, putRCW_OrigCodeBB_Roth403b, putRCW_CorrectCodeBB_Roth403b, putRCW_OrigCodeDD_EmpHealth, putRCW_CorrectCodeDD_EmpHealth, putRCW_OrigNonqualPlan457, putRCW_CorrectNonqualPlan457, putRCW_OrigNonqualNotSection457, putRCW_CorrectNonqualNotSection457, putRCW_OrigStatutoryEmployee, putRCW_CorrectStatutoryEmployee, putRCW_OrigRetirementPlan, putRCW_CorrectRetirementPlan, putRCW_OrigThirdPartySickPay, putRCW_CorrectThirdPartySickPay,
    readN_ite, ite_self, readN_writeAt_out, readN_writeAt_self,
    show (("RCW".toList) : Str).length = 3 from rfl]

set_option maxHeartbeats 1000000 in
theorem buildRCS_kind (g : Generator) (hg : g.yspec.RCS = baseRCS) (e : EmployeeRecord) :
    readN (buildRCS g e) 1 3 = "RCS".toList := by
  simp only [Nat.reduceAdd, Nat.reduceLeDiff, or_true, true_or, buildRCS, hg,
    putMoney11Pair, putMoney15Pair, putBox13, putRCS_RecordIdentifier, putRCS_StateCode, putRCS_CorrectSSN, putRCS_CorrectFirstName, putRCS_CorrectMiddleName, putRCS_CorrectLastName, putRCS_StateCode2, putRCS_OrigStateWages, putRCS_CorrectStateWages, putRCS_OrigStateIncomeTax, putRCS_CorrectStateIncomeTax,
    readN_ite, ite_self, readN_writeAt_out, readN_writeAt_self,
    show (("RCS".toList) : Str).length = 3 from rfl]

set_option maxHeartbeats 1000000 in
theorem buildRCF_kind (g : Generator) (hg : g.yspec.RCF = baseRCF) (n : Nat) :
    readN (buildRCF g n) 1 3 = "RCF".toList := by
  simp only [Nat.reduceAdd, Nat.reduceLeDiff, or_true, true_or, buildRCF, hg,
    putMoney11Pair, putMoney15Pair, putBox13, putRCF_RecordIdentifier, putRCF_TotalRCWRecords,
    readN_ite, ite_self, readN_writeAt_out, readN_writeAt_self,
    show (("RCF".toList) : Str).length = 3 from rfl]

set_option maxHeartbeats 1000000 in
theorem buildRCT_kind (g : Generator) (hg : g.yspec.RCT = baseRCT) (origWages corrWages origFed corrFed origSS corrSS origSSTax corrSSTax origMed corrMed origMedTax corrMedTax origSSTips corrSSTips origDepCare corrDepCare origNQ457 corrNQ457 origNQNot457 corrNQNot457 origD corrD origE corrE origG corrG origW corrW origAA corrAA origBB corrBB origDD corrDD : Int) :
    readN (buildRCT g origWages corrWages origFed corrFed origSS corrSS origSSTax corrSSTax origMed corrMed origMedTax corrMedTax origSSTips corrSSTips origDepCare corrDepCare origNQ457 corrNQ457 origNQNot457 corrNQNot457 origD corrD origE corrE origG corrG origW corrW origAA corrAA origBB corrBB origDD corrDD) 1 3 = "RCT".toList := by
  simp only [Nat.reduceAdd, Nat.reduceLeDiff, or_true, true_or, buildRCT, hg,
    putMoney11Pair, putMoney15Pair, putBox13, putRCT_RecordIdentifier, putRCT_TotalRCWRecords, putRCT_OrigTotalWagesTips, putRCT_CorrectTotalWagesTips, putRCT_OrigTotalFedIncomeTax, putRCT_CorrectTotalFedIncomeTax, putRCT_OrigTotalSSWages, putRCT_CorrectTotalSSWages, putRCT_OrigTotalSSTax, putRCT_CorrectTotalSSTax, putRCT_OrigTotalMedicareWages, putRCT_CorrectTotalMedicareWages, putRCT_OrigTotalMedicareTax, putRCT_CorrectTotalMedicareTax, putRCT_OrigTotalSSTips, putRCT_CorrectTotalSSTips, putRCT_OrigTotalDependentCare, putRCT_CorrectTotalDependentCare, putRCT_OrigTotalCode401k, putRCT_CorrectTotalCode401k, putRCT_OrigTotalCode403b, putRCT_CorrectTotalCode403b, putRCT_OrigTotalCode457bGovt, putRCT_CorrectTotalCode457bGovt, putRCT_OrigTotalCodeW_HSA, putRCT_CorrectTotalCodeW_HSA, putRCT_OrigTotalNonqualPlan457, putRCT_CorrectTotalNonqualPlan457, putRCT_OrigTotalNonqualNotSection457, putRCT_CorrectTotalNonqualNotSection457, putRCT_OrigTotalCodeAA_Roth401k, putRCT_CorrectTotalCodeAA_Roth401k, putRCT_OrigTotalCodeBB_Roth403b, putRCT_CorrectTotalCodeBB_Roth403b, putRCT_OrigTotalCodeDD_EmpHealth, putRCT_CorrectTotalCodeDD_EmpHealth,
    readN_ite, ite_self, readN_writeAt_out, readN_writeAt_self,
    show (("RCT".toList) : Str).length = 3 from rfl]

set_option maxHeartbeats 1000000 in
theorem buildRCO_kind (g : Generator)
    (hg : g.yspec.RCO = baseRCO ∨ g.yspec.RCO = ty2024Spec.RCO) (e : EmployeeRecord) :
    readN (buildRCO g e) 1 3 = "RCO".toList := by
  rcases hg with hg | hg <;>
  simp only [Nat.reduceAdd, Nat.reduceLeDiff, or_true, true_or, buildRCO, hg,
    putMoney11Pair, putRCO_RecordIdentifier, putRCO_OrigAllocatedTips, putRCO_CorrectAllocatedTips, putRCO24_RecordIdentifier, putRCO24_OrigAllocatedTips, putRCO24_CorrectAllocatedTips,
    readN_ite, ite_self, readN_writeAt_out, readN_writeAt_self,
    show (("RCO".toList) : Str).length = 3 from rfl]


/-! Stream structure: record lengths, slicing, kind sequence. -/

theorem render_length (b : Buf) : (render b).length = 1024 := by
  simp [render, RecordLen]

theorem joinRender_length (rs : List Buf) :
    (joinRender rs).length = 1024 * rs.length := by
  induction rs with
  | nil => simp [joinRender]
  | cons r rs ih =>
    simp [joinRender, render_length, ih]
    ring

theorem render_take3 (b : Buf) : (render b).take 3 = readN b 1 3 := by
  simp only [render, readN, RecordLen, ← List.map_take, List.take_range]
  refine List.map_congr_left fun i _ => ?_
  rw [Nat.add_comm]

theorem joinRender_slice (rs : List Buf) : ∀ k, k < rs.length →
    ((joinRender rs).drop (1024 * k)).take 3 = readN (rs.getD k newBuf) 1 3 := by
  induction rs with
  | nil =>
    intro k hk
    simp at hk
  | cons r rs ih =>
    intro k hk
    cases k with
    | zero =>
      rw [joinRender]
      simp only [Nat.mul_zero, List.drop_zero, List.getD_cons_zero]
      rw [List.take_append_of_le_length (by rw [render_length]; omega), render_take3]
    | succ k =>
      rw [joinRender]
      have h1 : 1024 * (k + 1) = (render r).length + 1024 * k := by
        rw [render_length]
        ring
      rw [h1, List.drop_append, List.getD_cons_succ]
      exact ih k (by simpa using hk)

theorem kinds_emp (g : Generator) (hW : g.yspec.RCW = baseRCW)
    (hO : g.yspec.RCO = baseRCO ∨ g.yspec.RCO = ty2024Spec.RCO)
    (hS : g.yspec.RCS = baseRCS) (es : List EmployeeRecord) :
    (employeeRecords g es).map (fun r => readN r 1 3) =
      (specKindsEmp es).map String.toList := by
  induction es with
  | nil => rfl
  | cons e es ih =>
    simp only [employeeRecords, perEmployee, specKindsEmp, List.map_append, ih]
    congr 1
    by_cases hco : hasRCOData e <;> by_cases hcs : hasRCSData e <;>
      simp [hco, hcs, buildRCW_kind g hW e, buildRCO_kind g hO e, buildRCS_kind g hS e]

theorem kinds_all (s : Submission) :
    (generateRecords s).map (fun r => readN r 1 3) =
      (specKindSeq s).map String.toList := by
  simp only [generateRecords, specKindSeq, List.map_append, List.map_cons, List.map_nil]
  rw [buildRCA_kind _ (ForYear_RCA _) s, buildRCE_kind _ (ForYear_RCE _) s,
    buildRCT_kind _ (ForYear_RCT _), buildRCF_kind _ (ForYear_RCF _),
    kinds_emp _ (ForYear_RCW _) (ForYear_RCO _) (ForYear_RCS _)]

/-! Record counts. -/

theorem employeeRecords_len_none (g : Generator) (es : List EmployeeRecord)
    (h : ∀ e ∈ es, hasRCOData e = false ∧ hasRCSData e = false) :
    (employeeRecords g es).length = es.length := by
  induction es with
  | nil => rfl
  | cons e es ih =>
    have he := h e (List.mem_cons_self _ _)
    have ihr := ih fun x hx => h x (List.mem_cons_of_mem _ hx)
    simp [employeeRecords, perEmployee, he.1, he.2, ihr]
    try omega

theorem employeeRecords_len_all (g : Generator) (es : List EmployeeRecord)
    (h : ∀ e ∈ es, hasRCOData e = true ∧ hasRCSData e = true) :
    (employeeRecords g es).length = 3 * es.length := by
  induction es with
  | nil => rfl
  | cons e es ih =>
    have he := h e (List.mem_cons_self _ _)
    have ihr := ih fun x hx => h x (List.mem_cons_of_mem _ hx)
    simp [employeeRecords, perEmployee, he.1, he.2, ihr]
    try omega

theorem generateRecords_length (s : Submission) :
    (generateRecords s).length =
      (employeeRecords (MustNew (atoi s.Employer.TaxYear)) s.Employees).length + 4 := by
  simp [generateRecords]

/-! cleanDigits always returns exactly n characters. -/

theorem cleanDigits_length (s : Str) (n : Nat) : (cleanDigits s n).length = n := by
  simp only [cleanDigits]
  split
  · simp only [List.length_take]
    omega
  · simp only [List.length_append, List.length_replicate]
    omega

/-! SSN pairing slices of the RCW record. -/

set_option maxHeartbeats 1000000 in
theorem rcw_ssn_corrected (g : Generator) (hg : g.yspec.RCW = baseRCW)
    (e : EmployeeRecord) (h : e.OriginalSSN ≠ []) :
    readN (buildRCW g e) 4 9 = cleanDigits e.OriginalSSN 9 ∧
    readN (buildRCW g e) 13 9 = cleanDigits e.SSN 9 := by
  constructor <;>
  simp only [Nat.reduceAdd, Nat.reduceLeDiff, or_true, true_or, buildRCW, hg, h,
    putMoney11Pair, putBox13, putRCW_RecordIdentifier, putRCW_OrigSSN, putRCW_CorrectSSN, putRCW_OrigFirstName, putRCW_OrigMiddleName, putRCW_OrigLastName, putRCW_CorrectFirstName, putRCW_CorrectMiddleName, putRCW_CorrectLastName, putRCW_LocationAddress, putRCW_DeliveryAddress, putRCW_City, putRCW_StateAbbrev, putRCW_ZIPCode, putRCW_ZIPExtension, putRCW_OrigWagesTipsOther, putRCW_CorrectWagesTipsOther, putRCW_OrigFedIncomeTax, putRCW_CorrectFedIncomeTax, putRCW_OrigSSWages, putRCW_CorrectSSWages, putRCW_OrigSSTax, putRCW_CorrectSSTax, putRCW_OrigMedicareWages, putRCW_CorrectMedicareWages, putRCW_OrigMedicareTax, putRCW_CorrectMedicareTax, putRCW_OrigSSTips, putRCW_CorrectSSTips, putRCW_OrigDependentCare, putRCW_CorrectDependentCare, putRCW_OrigCode401k, putRCW_CorrectCode401k, putRCW_OrigCode403b, putRCW_CorrectCode403b, putRCW_OrigCode457bGovt, putRCW_CorrectCode457bGovt, putRCW_OrigCodeW_HSA, putRCW_CorrectCodeW_HSA, putRCW_OrigCodeAA_Roth401k, putRCW_CorrectCodeAA_Roth401k, putRCW_OrigCodeBB_Roth403b, putRCW_CorrectCodeBB_Roth403b, putRCW_OrigCodeDD_EmpHealth, putRCW_CorrectCodeDD_EmpHealth, putRCW_OrigNonqualPlan457, putRCW_CorrectNonqualPlan457, putRCW_OrigNonqualNotSection457, putRCW_CorrectNonqualNotSection457, putRCW_OrigStatutoryEmployee, putRCW_CorrectStatutoryEmployee, putRCW_OrigRetirementPlan, putRCW_CorrectRetirementPlan, putRCW_OrigThirdPartySickPay, putRCW_CorrectThirdPartySickPay, readN_ite, ite_self, ne_eq,
    not_false_eq_true, if_true, if_false, ite_true, ite_false,
    readN_writeAt_out, readN_writeAt_self, cleanDigits_length, readN_newBuf]

set_option maxHeartbeats 1000000 in
theorem rcw_ssn_plain (g : Generator) (hg : g.yspec.RCW = baseRCW)
    (e : EmployeeRecord) (h : e.OriginalSSN = []) :
    readN (buildRCW g e) 4 9 = cleanDigits e.SSN 9 ∧
    readN (buildRCW g e) 13 9 = List.replicate 9 ' ' := by
  constructor <;>
  simp only [Nat.reduceAdd, Nat.reduceLeDiff, or_true, true_or, buildRCW, hg, h,
    putMoney11Pair, putBox13, putRCW_RecordIdentifier, putRCW_OrigSSN, putRCW_CorrectSSN, putRCW_OrigFirstName, putRCW_OrigMiddleName, putRCW_OrigLastName, putRCW_CorrectFirstName, putRCW_CorrectMiddleName, putRCW_CorrectLastName, putRCW_LocationAddress, putRCW_DeliveryAddress, putRCW_City, putRCW_StateAbbrev, putRCW_ZIPCode, putRCW_ZIPExtension, putRCW_OrigWagesTipsOther, putRCW_CorrectWagesTipsOther, putRCW_OrigFedIncomeTax, putRCW_CorrectFedIncomeTax, putRCW_OrigSSWages, putRCW_CorrectSSWages, putRCW_OrigSSTax, putRCW_CorrectSSTax, putRCW_OrigMedicareWages, putRCW_CorrectMedicareWages, putRCW_OrigMedicareTax, putRCW_CorrectMedicareTax, putRCW_OrigSSTips, putRCW_CorrectSSTips, putRCW_OrigDependentCare, putRCW_CorrectDependentCare, putRCW_OrigCode401k, putRCW_CorrectCode401k, putRCW_OrigCode403b, putRCW_CorrectCode403b, putRCW_OrigCode457bGovt, putRCW_CorrectCode457bGovt, putRCW_OrigCodeW_HSA, putRCW_CorrectCodeW_HSA, putRCW_OrigCodeAA_Roth401k, putRCW_CorrectCodeAA_Roth401k, putRCW_OrigCodeBB_Roth403b, putRCW_CorrectCodeBB_Roth403b, putRCW_OrigCodeDD_EmpHealth, putRCW_CorrectCodeDD_EmpHealth, putRCW_OrigNonqualPlan457, putRCW_CorrectNonqualPlan457, putRCW_OrigNonqualNotSection457, putRCW_CorrectNonqualNotSection457, putRCW_OrigStatutoryEmployee, putRCW_CorrectStatutoryEmployee, putRCW_OrigRetirementPlan, putRCW_CorrectRetirementPlan, putRCW_OrigThirdPartySickPay, putRCW_CorrectThirdPartySickPay, readN_ite, ite_self, ne_eq,
    not_true_eq_false, if_true, if_false, ite_true, ite_false,
    readN_writeAt_out, readN_writeAt_self, cleanDigits_length, readN_newBuf]

/-! Decimal length lower bound. -/

theorem natCharsAux_lt_pow_length (fuel : Nat) : ∀ n, n < fuel →
    n < 10 ^ (natCharsAux fuel n).length := by
  induction fuel with
  | zero => omega
  | succ fuel ih =>
    intro n hf
    rw [natCharsAux]
    by_cases h10 : n < 10
    · rw [if_pos h10]
      simpa using h10
    · rw [if_neg h10]
      have := ih (n / 10) (by omega)
      simp only [List.length_append, List.length_cons, List.length_nil]
      have he : List.length (natCharsAux fuel (n / 10)) + (0 + 1) =
          List.length (natCharsAux fuel (n / 10)) + 1 := by omega
      rw [he, pow_succ]
      omega

theorem natRepr_lt_pow_length (n : Nat) : n < 10 ^ (natRepr n).length :=
  natCharsAux_lt_pow_length _ _ (Nat.lt_succ_self n)

/-! RCO across years: the three fields buildRCO writes sit at identical
positions in the base table and the TY2024 table, so the records coincide
byte for byte; the Code II region is never written and stays blank. -/

theorem buildRCO_year_invariant (e : EmployeeRecord) :
    buildRCO (MustNew 2024) e = buildRCO (MustNew 2021) e := rfl

set_option maxHeartbeats 1000000 in
theorem buildRCO_codeII_spaces (e : EmployeeRecord) :
    readN (buildRCO (MustNew 2024) e) 277 22 = List.replicate 22 ' ' := by
  simp only [Nat.reduceAdd, Nat.reduceLeDiff, or_true, true_or, buildRCO,
    show (MustNew 2024).yspec.RCO = ty2024Spec.RCO from rfl,
    putMoney11Pair, putRCO24_RecordIdentifier, putRCO24_OrigAllocatedTips, putRCO24_CorrectAllocatedTips, readN_ite, ite_self,
    readN_writeAt_out, readN_newBuf]

/-! RCF count and RCT placeholder slices. -/

set_option maxHeartbeats 1000000 in
theorem buildRCF_count (g : Generator) (hg : g.yspec.RCF = baseRCF) (n : Nat)
    (hn : (zeroPad 7 (natRepr n)).length = 7) :
    readN (buildRCF g n) 4 7 = zeroPad 7 (natRepr n) := by
  simp only [Nat.reduceAdd, Nat.reduceLeDiff, or_true, true_or, buildRCF, hg,
    putRCF_RecordIdentifier, putRCF_TotalRCWRecords, readN_ite, ite_self, readN_writeAt_out, readN_writeAt_self, hn]

set_option maxHeartbeats 1000000 in
theorem buildRCT_placeholder (g : Generator) (hg : g.yspec.RCT = baseRCT)
    (origWages corrWages origFed corrFed origSS corrSS origSSTax corrSSTax origMed corrMed origMedTax corrMedTax origSSTips corrSSTips origDepCare corrDepCare origNQ457 corrNQ457 origNQNot457 corrNQNot457 origD corrD origE corrE origG corrG origW corrW origAA corrAA origBB corrBB origDD corrDD : Int) :
    readN (buildRCT g origWages corrWages origFed corrFed origSS corrSS origSSTax corrSSTax origMed corrMed origMedTax corrMedTax origSSTips corrSSTips origDepCare corrDepCare origNQ457 corrNQ457 origNQNot457 corrNQNot457 origD corrD origE corrE origG corrG origW corrW origAA corrAA origBB corrBB origDD corrDD) 4 7 = "0000000".toList := by
  simp only [Nat.reduceAdd, Nat.reduceLeDiff, or_true, true_or, buildRCT, hg,
    putMoney15Pair, putRCT_RecordIdentifier, putRCT_TotalRCWRecords, putRCT_OrigTotalWagesTips, putRCT_CorrectTotalWagesTips, putRCT_OrigTotalFedIncomeTax, putRCT_CorrectTotalFedIncomeTax, putRCT_OrigTotalSSWages, putRCT_CorrectTotalSSWages, putRCT_OrigTotalSSTax, putRCT_CorrectTotalSSTax, putRCT_OrigTotalMedicareWages, putRCT_CorrectTotalMedicareWages, putRCT_OrigTotalMedicareTax, putRCT_CorrectTotalMedicareTax, putRCT_OrigTotalSSTips, putRCT_CorrectTotalSSTips, putRCT_OrigTotalDependentCare, putRCT_CorrectTotalDependentCare, putRCT_OrigTotalCode401k, putRCT_CorrectTotalCode401k, putRCT_OrigTotalCode403b, putRCT_CorrectTotalCode403b, putRCT_OrigTotalCode457bGovt, putRCT_CorrectTotalCode457bGovt, putRCT_OrigTotalCodeW_HSA, putRCT_CorrectTotalCodeW_HSA, putRCT_OrigTotalNonqualPlan457, putRCT_CorrectTotalNonqualPlan457, putRCT_OrigTotalNonqualNotSection457, putRCT_CorrectTotalNonqualNotSection457, putRCT_OrigTotalCodeAA_Roth401k, putRCT_CorrectTotalCodeAA_Roth401k, putRCT_OrigTotalCodeBB_Roth403b, putRCT_CorrectTotalCodeBB_Roth403b, putRCT_OrigTotalCodeDD_EmpHealth, putRCT_CorrectTotalCodeDD_EmpHealth, readN_ite, ite_self, readN_writeAt_out,
    readN_writeAt_self, show (zeroPad 7 (natRepr 0)).length = 7 from rfl,
    show zeroPad 7 (natRepr 0) = "0000000".toList from rfl,
    show (("0000000".toList) : Str).length = 7 from rfl]

/-! Extracting the RCT and RCF records from a generated stream. -/

theorem getD_concat_at (l1 l2 : List Buf) (x y d : Buf) (k : Nat)
    (hk : k = l1.length + l2.length) :
    (l1 ++ l2 ++ [x, y]).getD k d = x := by
  subst hk
  rw [List.getD_append_right _ _ _ _ (by simp)]
  simp

theorem getLastD_concat_at (l1 l2 : List Buf) (x y d : Buf) :
    (l1 ++ l2 ++ [x, y]).getLastD d = y := by
  rw [show ([x, y] : List Buf) = [x] ++ [y] from rfl, ← List.append_assoc,
    List.getLastD_concat]

theorem rctOf_eq (s : Submission) :
    rctOf s = buildRCT (MustNew (atoi s.Employer.TaxYear))
      (sumAmt (·.OriginalWagesTipsOther) s.Employees)
      (sumAmt (·.CorrectWagesTipsOther) s.Employees)
      (sumAmt (·.OriginalFederalIncomeTax) s.Employees)
      (sumAmt (·.CorrectFederalIncomeTax) s.Employees)
      (sumAmt (·.OriginalSocialSecurityWages) s.Employees)
      (sumAmt (·.CorrectSocialSecurityWages) s.Employees)
      (sumAmt (·.OriginalSocialSecurityTax) s.Employees)
      (sumAmt (·.CorrectSocialSecurityTax) s.Employees)
      (sumAmt (·.OriginalMedicareWages) s.Employees)
      (sumAmt (·.CorrectMedicareWages) s.Employees)
      (sumAmt (·.OriginalMedicareTax) s.Employees)
      (sumAmt (·.CorrectMedicareTax) s.Employees)
      (sumAmt (·.OriginalSocialSecurityTips) s.Employees)
      (sumAmt (·.CorrectSocialSecurityTips) s.Employees)
      (sumAmt (·.OriginalDependentCare) s.Employees)
      (sumAmt (·.CorrectDependentCare) s.Employees)
      (sumAmt (·.OriginalNonqualPlan457) s.Employees)
      (sumAmt (·.CorrectNonqualPlan457) s.Employees)
      (sumAmt (·.OriginalNonqualNotSection457) s.Employees)
      (sumAmt (·.CorrectNonqualNotSection457) s.Employees)
      (sumAmt (·.OriginalCode401k) s.Employees)
      (sumAmt (·.CorrectCode401k) s.Employees)
      (sumAmt (·.OriginalCode403b) s.Employees)
      (sumAmt (·.CorrectCode403b) s.Employees)
      (sumAmt (·.OriginalCode457bGovt) s.Employees)
      (sumAmt (·.CorrectCode457bGovt) s.Employees)
      (sumAmt (·.OriginalCodeW_HSA) s.Employees)
      (sumAmt (·.CorrectCodeW_HSA) s.Employees)
      (sumAmt (·.OriginalCodeAA_Roth401k) s.Employees)
      (sumAmt (·.CorrectCodeAA_Roth401k) s.Employees)
      (sumAmt (·.OriginalCodeBB_Roth403b) s.Employees)
      (sumAmt (·.CorrectCodeBB_Roth403b) s.Employees)
      (sumAmt (·.OriginalCodeDD_EmpHealth) s.Employees)
      (sumAmt (·.CorrectCodeDD_EmpHealth) s.Employees) := by
  rw [rctOf]
  simp only [generateRecords]
  rw [getD_concat_at]
  simp only [List.length_append, List.length_cons, List.length_nil]
  omega

theorem rcfOf_eq (s : Submission) :
    rcfOf s = buildRCF (MustNew (atoi s.Employer.TaxYear)) s.Employees.length := by
  rw [rcfOf]
  simp only [generateRecords]
  rw [getLastD_concat_at]

/-! ## Claims -/

/-! Mapping record kinds through getD. -/

theorem getD_map_kind (rs : List Buf) (ks : List String) (k : Nat) (hk : k < ks.length)
    (h : rs.map (fun r => readN r 1 3) = ks.map String.toList)
    (hl : rs.length = ks.length) :
    readN (rs.getD k newBuf) 1 3 = (ks.getD k "").toList := by
  induction ks generalizing rs k with
  | nil => simp at hk
  | cons k0 ks ih =>
    cases rs with
    | nil => simp at hl
    | cons r rs =>
      simp only [List.map_cons, List.cons.injEq] at h
      cases k with
      | zero => simpa using h.1
      | succ k =>
        simp only [List.getD_cons_succ]
        exact ih rs k (by simpa using hk) h.2 (by simpa using hl)

/-- C2: for every submission, the byte stream Generate writes has length a
multiple of 1024, and the first three bytes of each consecutive 1024-byte
slice spell the record-kind sequence RCA, RCE, then per employee RCW
optionally followed by RCO and then optionally RCS, then RCT, then RCF,
with no separator bytes between records.  Holds for every submission, well
formed or not. -/
theorem claim_C2 (s : Submission) :
    (generateBytes s).length % 1024 = 0 ∧
    ∀ k, k < (specKindSeq s).length →
      ((generateBytes s).drop (1024 * k)).take 3 = ((specKindSeq s).getD k "").toList := by
  have hm := kinds_all s
  have hl : (generateRecords s).length = (specKindSeq s).length := by
    have h2 := congrArg List.length hm
    simpa using h2
  constructor
  · rw [generateBytes, joinRender_length]
    simp [Nat.mul_mod_right]
  · intro k hk
    rw [generateBytes, joinRender_slice _ k (by omega)]
    exact getD_map_kind _ _ k hk hm hl

/-- C2 witness: Scenario A evaluated at the third slice (its RCW record). -/
theorem claim_C2_witness :
    2 < (specKindSeq scenarioA).length ∧
    ((generateBytes scenarioA).drop (1024 * 2)).take 3 =
      ((specKindSeq scenarioA).getD 2 "").toList :=
  ⟨by decide, (claim_C2 scenarioA).2 2 (by decide)⟩

/-- C3 counterexample: with one employee triggering both RCO and RCS the
stream has 7 records, not 3 + 3n = 6 as the claim states. -/
theorem claim_C3_counterexample :
    (∀ e ∈ subAllTrig.Employees, hasRCOData e = true ∧ hasRCSData e = true) ∧
    (generateRecords subAllTrig).length ≠ 3 + 3 * subAllTrig.Employees.length := by
  constructor
  · decide
  · decide

/-- C3 amended: with n employees and no RCO/RCS triggers the stream has
exactly n + 4 records; when every employee triggers both RCO and RCS it has
3n + 4 records (the spec text says 3 + 3n, forgetting one of the four fixed
records RCA, RCE, RCT, RCF). -/
theorem claim_C3_amended (s : Submission) :
    ((∀ e ∈ s.Employees, hasRCOData e = false ∧ hasRCSData e = false) →
      (generateRecords s).length = s.Employees.length + 4) ∧
    ((∀ e ∈ s.Employees, hasRCOData e = true ∧ hasRCSData e = true) →
      (generateRecords s).length = 3 * s.Employees.length + 4) := by
  constructor
  · intro h
    rw [generateRecords_length, employeeRecords_len_none _ _ h]
  · intro h
    rw [generateRecords_length, employeeRecords_len_all _ _ h]

/-- C3 witness: Scenario A (one employee, no triggers) yields 5 records and
the all-trigger variant yields 7. -/
theorem claim_C3_witness :
    (generateRecords scenarioA).length = scenarioA.Employees.length + 4 ∧
    (generateRecords subAllTrig).length = 3 * subAllTrig.Employees.length + 4 :=
  ⟨(claim_C3_amended scenarioA).1 (by decide),
   (claim_C3_amended subAllTrig).2 (by decide)⟩

/-- C4: for every supported tax year and every record kind, the field list
tiles [1, 1024] with no gap and no overlap: the first field starts at 1,
each subsequent field starts at the previous end plus one, and the last
field ends at 1024. -/
theorem claim_C4 : ∀ y ∈ Supported,
    chainOK ((ForYear y).1).RCA ∧ chainOK ((ForYear y).1).RCE ∧
    chainOK ((ForYear y).1).RCW ∧ chainOK ((ForYear y).1).RCO ∧
    chainOK ((ForYear y).1).RCS ∧ chainOK ((ForYear y).1).RCT ∧
    chainOK ((ForYear y).1).RCF := by
  decide

/-- C4 witness: the partition property at tax year 2024. -/
theorem claim_C4_witness :
    2024 ∈ Supported ∧
    (chainOK ((ForYear 2024).1).RCA ∧ chainOK ((ForYear 2024).1).RCE ∧
     chainOK ((ForYear 2024).1).RCW ∧ chainOK ((ForYear 2024).1).RCO ∧
     chainOK ((ForYear 2024).1).RCS ∧ chainOK ((ForYear 2024).1).RCT ∧
     chainOK ((ForYear 2024).1).RCF) :=
  ⟨by decide, claim_C4 2024 (by decide)⟩

/-- C9: the spec lookup is total; each supported year 2021-2024 resolves to
its own layout with exact = true, and every other year falls back to the
default (TY2024) layout with exact = false, so Generate still has a full
layout to work from. -/
theorem claim_C9 :
    ForYear 2021 = (ty2021Spec, true) ∧ ForYear 2022 = (ty2022Spec, true) ∧
    ForYear 2023 = (ty2023Spec, true) ∧ ForYear 2024 = (ty2024Spec, true) ∧
    ∀ y : Int, y ∉ Supported → ForYear y = (ty2024Spec, false) := by
  refine ⟨rfl, rfl, rfl, rfl, ?_⟩
  intro y hy
  simp only [Supported, List.mem_cons, List.not_mem_nil, or_false, not_or] at hy
  obtain ⟨h1, h2, h3, h4⟩ := hy
  simp [ForYear, specs, h1, h2, h3, h4, DefaultYear]

/-- C9 witness: the fallback at the unmodeled year 1999. -/
theorem claim_C9_witness :
    (1999 : Int) ∉ Supported ∧ ForYear 1999 = (ty2024Spec, false) :=
  ⟨by decide, claim_C9.2.2.2.2 1999 (by decide)⟩

/-- C8 counterexample: at the int64 cents value 10^11 the formatter emits
12 bytes, not 11. -/
theorem claim_C8_counterexample : (money11 100000000000).length ≠ 11 := by
  decide

/-- C8 amended: money11 clamps negatives to eleven zeros; for cents below
10^11 it returns the zero-padded 11-character decimal (11 bytes that parse
back to the clamped value); from 10^11 on, Go's zero-padding verb pads but
never truncates, so the output is longer than 11 bytes. -/
theorem claim_C8_amended (c : Int) :
    (c < 0 → money11 c = List.replicate 11 '0') ∧
    (0 ≤ c → c < 10 ^ 11 → (money11 c).length = 11 ∧ parseNat (money11 c) = c.toNat) ∧
    (10 ^ 11 ≤ c → 11 < (money11 c).length) := by
  refine ⟨money11_of_neg c, fun h0 h1 => ⟨money11_length c h1, parseNat_money11 c h0⟩,
    fun h => ?_⟩
  have hpow : ((10 : Int) ^ 11) = 100000000000 := by norm_num
  rw [hpow] at h
  have hL : 11 < (natRepr c.toNat).length := by
    by_contra hle
    push_neg at hle
    have h2 := natRepr_lt_pow_length c.toNat
    have h3 : (10 : Nat) ^ (natRepr c.toNat).length ≤ 10 ^ 11 :=
      Nat.pow_le_pow_right (by norm_num) hle
    have h4 : (10 : Nat) ^ 11 = 100000000000 := by norm_num
    omega
  have h0 : ¬c < 0 := by omega
  simp only [money11, if_neg h0, zeroPad, List.length_append, List.length_replicate]
  omega

/-- C8 witness: the amended statement evaluated at -5 and at 123 cents. -/
theorem claim_C8_witness :
    money11 (-5) = List.replicate 11 '0' ∧
    ((money11 123).length = 11 ∧ parseNat (money11 123) = (123 : Int).toNat) :=
  ⟨(claim_C8_amended (-5)).1 (by norm_num),
   (claim_C8_amended 123).2.1 (by norm_num) (by norm_num)⟩

/-- C10: in the RCW record, when OriginalSSN is populated the original
(wrong) SSN digits go to positions 4-12 and the current (correct) SSN
digits to positions 13-21; when OriginalSSN is empty the current SSN goes
to positions 4-12 and positions 13-21 stay spaces. -/
theorem claim_C10 (y : Int) (e : EmployeeRecord) :
    (e.OriginalSSN ≠ [] →
      readN (buildRCW (MustNew y) e) 4 9 = cleanDigits e.OriginalSSN 9 ∧
      readN (buildRCW (MustNew y) e) 13 9 = cleanDigits e.SSN 9) ∧
    (e.OriginalSSN = [] →
      readN (buildRCW (MustNew y) e) 4 9 = cleanDigits e.SSN 9 ∧
      readN (buildRCW (MustNew y) e) 13 9 = List.replicate 9 ' ') :=
  ⟨fun h => rcw_ssn_corrected _ (ForYear_RCW y) e h,
   fun h => rcw_ssn_plain _ (ForYear_RCW y) e h⟩

/-- C10 witness: Scenario D employee (SSN correction) and the Scenario A
employee (no correction), under TY2024. -/
theorem claim_C10_witness :
    (ssnEmployee.OriginalSSN ≠ [] ∧
      readN (buildRCW (MustNew 2024) ssnEmployee) 4 9 =
        cleanDigits ssnEmployee.OriginalSSN 9 ∧
      readN (buildRCW (MustNew 2024) ssnEmployee) 13 9 =
        cleanDigits ssnEmployee.SSN 9) ∧
    (scenarioAEmployee.OriginalSSN = [] ∧
      readN (buildRCW (MustNew 2024) scenarioAEmployee) 4 9 =
        cleanDigits scenarioAEmployee.SSN 9 ∧
      readN (buildRCW (MustNew 2024) scenarioAEmployee) 13 9 =
        List.replicate 9 ' ') :=
  ⟨⟨by decide, (claim_C10 2024 ssnEmployee).1 (by decide)⟩,
   ⟨by decide, (claim_C10 2024 scenarioAEmployee).2 (by decide)⟩⟩

/-- C6 counterexample: for the RCO-triggering employee, the TY2024 RCO
record's bytes 277-298 are all spaces, so they do not hold a Money11 pair
(money values are digit strings). -/
theorem claim_C6_counterexample :
    hasRCOData trigEmployee = true ∧
    ¬∃ a b : Int, readN (buildRCO (MustNew 2024) trigEmployee) 277 22 =
      money11 a ++ money11 b := by
  refine ⟨by decide, ?_⟩
  rintro ⟨a, b, h⟩
  rw [buildRCO_codeII_spaces] at h
  obtain ⟨c, cs, hc⟩ := List.exists_cons_of_ne_nil (money11_ne_nil a)
  rw [hc, List.cons_append,
    show List.replicate 22 ' ' = ' ' :: List.replicate 21 ' ' from rfl] at h
  injection h with h1 h2
  exact money11_ne_space a c (by rw [hc]; exact List.mem_cons_self c cs) h1.symm

/-- C6 amended: an RCO-triggering submission emitted under TY2024 and
TY2021 yields byte-identical RCO records at every position, including
277-298, which the TY2024 layout designates as the Box 12 Code II Money11
pair but which the generator never populates, leaving spaces under both
years; TY2021 keeps those bytes inside its trailing blank region. -/
theorem claim_C6_amended (e : EmployeeRecord) (h : hasRCOData e = true) :
    (∀ p, buildRCO (MustNew 2024) e p = buildRCO (MustNew 2021) e p) ∧
    readN (buildRCO (MustNew 2024) e) 277 22 = List.replicate 22 ' ' ∧
    readN (buildRCO (MustNew 2021) e) 277 22 = List.replicate 22 ' ' ∧
    ty2024Spec.RCO.find? (fun f => f.Name == "OrigMedicaidWaiver") =
      some ⟨"OrigMedicaidWaiver", 277, 287, FieldType.Money11⟩ ∧
    ty2024Spec.RCO.find? (fun f => f.Name == "CorrectMedicaidWaiver") =
      some ⟨"CorrectMedicaidWaiver", 288, 298, FieldType.Money11⟩ ∧
    baseRCO.find? (fun f => f.Name == "OrigMedicaidWaiver") = none := by
  refine ⟨fun p => by rw [buildRCO_year_invariant], buildRCO_codeII_spaces e, ?_,
    by decide, by decide, by decide⟩
  rw [← buildRCO_year_invariant]
  exact buildRCO_codeII_spaces e

/-- C6 witness: the amended statement at the RCO-triggering employee,
sampled at byte 280. -/
theorem claim_C6_witness :
    hasRCOData trigEmployee = true ∧
    buildRCO (MustNew 2024) trigEmployee 280 = buildRCO (MustNew 2021) trigEmployee 280 ∧
    readN (buildRCO (MustNew 2024) trigEmployee) 277 22 = List.replicate 22 ' ' :=
  ⟨by decide, ((claim_C6_amended trigEmployee (by decide)).1) 280,
   (claim_C6_amended trigEmployee (by decide)).2.1⟩

/-- C7 counterexample: with ten million employees the RCF count field holds
the truncated first seven digits of n, not a zero-padded rendering of n. -/
theorem claim_C7_counterexample :
    readN (rcfOf subBig) 4 7 ≠ zeroPad 7 (natRepr subBig.Employees.length) := by
  rw [rcfOf_eq]
  have hlen : subBig.Employees.length = 10000000 := by
    rw [show subBig.Employees = List.replicate 10000000 {} from rfl,
      List.length_replicate]
  rw [hlen]
  decide

/-- C7 amended: for fewer than 10^7 employees the RCF record carries the
zero-padded 7-digit employee count (the number of RCW records) at positions
4-10, while the RCT record carries the literal placeholder 0000000 there
regardless of the count. -/
theorem claim_C7_amended (s : Submission) (hn : s.Employees.length < 10 ^ 7) :
    readN (rcfOf s) 4 7 = zeroPad 7 (natRepr s.Employees.length) ∧
    readN (rctOf s) 4 7 = "0000000".toList := by
  constructor
  · rw [rcfOf_eq]
    exact buildRCF_count _ (ForYear_RCF _) _
      (zeroPad_length _ _ (natRepr_length_le _ 7 hn (by norm_num)))
  · rw [rctOf_eq]
    exact buildRCT_placeholder _ (ForYear_RCT _) _ _ _ _ _ _ _ _ _ _ _ _ _ _ _ _ _ _ _ _ _ _ _ _ _ _ _ _ _ _ _ _ _ _

/-- C7 witness: Scenario A has one employee; RCF shows 0000001 and RCT the
placeholder. -/
theorem claim_C7_witness :
    scenarioA.Employees.length < 10 ^ 7 ∧
    readN (rcfOf scenarioA) 4 7 = zeroPad 7 (natRepr scenarioA.Employees.length) ∧
    readN (rctOf scenarioA) 4 7 = "0000000".toList :=
  ⟨by decide, claim_C7_amended scenarioA (by decide)⟩

/-- The fourteen Box 1-7 RCW slices under the Box17OK bounds. -/
theorem rcw_slices_of_OK (g : Generator) (hg : g.yspec.RCW = baseRCW)
    (e : EmployeeRecord) (h : Box17OK e) :
      readN (buildRCW g e) 244 11 = money11 e.Amounts.OriginalWagesTipsOther ∧
      readN (buildRCW g e) 255 11 = money11 e.Amounts.CorrectWagesTipsOther ∧
      readN (buildRCW g e) 266 11 = money11 e.Amounts.OriginalFederalIncomeTax ∧
      readN (buildRCW g e) 277 11 = money11 e.Amounts.CorrectFederalIncomeTax ∧
      readN (buildRCW g e) 288 11 = money11 e.Amounts.OriginalSocialSecurityWages ∧
      readN (buildRCW g e) 299 11 = money11 e.Amounts.CorrectSocialSecurityWages ∧
      readN (buildRCW g e) 310 11 = money11 e.Amounts.OriginalSocialSecurityTax ∧
      readN (buildRCW g e) 321 11 = money11 e.Amounts.CorrectSocialSecurityTax ∧
      readN (buildRCW g e) 332 11 = money11 e.Amounts.OriginalMedicareWages ∧
      readN (buildRCW g e) 343 11 = money11 e.Amounts.CorrectMedicareWages ∧
      readN (buildRCW g e) 354 11 = money11 e.Amounts.OriginalMedicareTax ∧
      readN (buildRCW g e) 365 11 = money11 e.Amounts.CorrectMedicareTax ∧
      readN (buildRCW g e) 376 11 = money11 e.Amounts.OriginalSocialSecurityTips ∧
      readN (buildRCW g e) 387 11 = money11 e.Amounts.CorrectSocialSecurityTips := by
  obtain ⟨⟨a1, b1⟩, ⟨a2, b2⟩, ⟨a3, b3⟩, ⟨a4, b4⟩, ⟨a5, b5⟩, ⟨a6, b6⟩, ⟨a7, b7⟩, ⟨a8, b8⟩, ⟨a9, b9⟩, ⟨a10, b10⟩, ⟨a11, b11⟩, ⟨a12, b12⟩, ⟨a13, b13⟩, ⟨a14, b14⟩⟩ := h
  exact rcw_box17_slices g hg e (money11_length _ b1) (money11_length _ b2) (money11_length _ b3) (money11_length _ b4) (money11_length _ b5) (money11_length _ b6) (money11_length _ b7) (money11_length _ b8) (money11_length _ b9) (money11_length _ b10) (money11_length _ b11) (money11_length _ b12) (money11_length _ b13) (money11_length _ b14)

/-- C5 amended: when every employee's fourteen Box 1-7 sides are
non-negative and below 10^11 cents and each of the fourteen submission-wide
totals stays below 10^15 cents, every Box 1-7 RCT total slice equals the
zero-padded decimal sum of the cents values rendered for the same field in
the emitted RCW records.  (As originally stated the claim fails: negative
sides are clamped to zero in each RCW but summed raw into RCT.) -/
theorem claim_C5_amended (s : Submission)
    (hb : ∀ e ∈ s.Employees, Box17OK e) (hs : Box17SumsOK s) :
    readN (rctOf s) 11 15 =
      zeroPad 15 (natRepr ((s.Employees.map fun e =>
        parseNat (readN (buildRCW (MustNew (atoi s.Employer.TaxYear)) e) 244 11)).sum)) ∧
    readN (rctOf s) 26 15 =
      zeroPad 15 (natRepr ((s.Employees.map fun e =>
        parseNat (readN (buildRCW (MustNew (atoi s.Employer.TaxYear)) e) 255 11)).sum)) ∧
    readN (rctOf s) 41 15 =
      zeroPad 15 (natRepr ((s.Employees.map fun e =>
        parseNat (readN (buildRCW (MustNew (atoi s.Employer.TaxYear)) e) 266 11)).sum)) ∧
    readN (rctOf s) 56 15 =
      zeroPad 15 (natRepr ((s.Employees.map fun e =>
        parseNat (readN (buildRCW (MustNew (atoi s.Employer.TaxYear)) e) 277 11)).sum)) ∧
    readN (rctOf s) 71 15 =
      zeroPad 15 (natRepr ((s.Employees.map fun e =>
        parseNat (readN (buildRCW (MustNew (atoi s.Employer.TaxYear)) e) 288 11)).sum)) ∧
    readN (rctOf s) 86 15 =
      zeroPad 15 (natRepr ((s.Employees.map fun e =>
        parseNat (readN (buildRCW (MustNew (atoi s.Employer.TaxYear)) e) 299 11)).sum)) ∧
    readN (rctOf s) 101 15 =
      zeroPad 15 (natRepr ((s.Employees.map fun e =>
        parseNat (readN (buildRCW (MustNew (atoi s.Employer.TaxYear)) e) 310 11)).sum)) ∧
    readN (rctOf s) 116 15 =
      zeroPad 15 (natRepr ((s.Employees.map fun e =>
        parseNat (readN (buildRCW (MustNew (atoi s.Employer.TaxYear)) e) 321 11)).sum)) ∧
    readN (rctOf s) 131 15 =
      zeroPad 15 (natRepr ((s.Employees.map fun e =>
        parseNat (readN (buildRCW (MustNew (atoi s.Employer.TaxYear)) e) 332 11)).sum)) ∧
    readN (rctOf s) 146 15 =
      zeroPad 15 (natRepr ((s.Employees.map fun e =>
        parseNat (readN (buildRCW (MustNew (atoi s.Employer.TaxYear)) e) 343 11)).sum)) ∧
    readN (rctOf s) 161 15 =
      zeroPad 15 (natRepr ((s.Employees.map fun e =>
        parseNat (readN (buildRCW (MustNew (atoi s.Employer.TaxYear)) e) 354 11)).sum)) ∧
    readN (rctOf s) 176 15 =
      zeroPad 15 (natRepr ((s.Employees.map fun e =>
        parseNat (readN (buildRCW (MustNew (atoi s.Employer.TaxYear)) e) 365 11)).sum)) ∧
    readN (rctOf s) 191 15 =
      zeroPad 15 (natRepr ((s.Employees.map fun e =>
        parseNat (readN (buildRCW (MustNew (atoi s.Employer.TaxYear)) e) 376 11)).sum)) ∧
    readN (rctOf s) 206 15 =
      zeroPad 15 (natRepr ((s.Employees.map fun e =>
        parseNat (readN (buildRCW (MustNew (atoi s.Employer.TaxYear)) e) 387 11)).sum)) := by
  obtain ⟨hs1, hs2, hs3, hs4, hs5, hs6, hs7, hs8, hs9, hs10, hs11, hs12, hs13, hs14⟩ := hs
  have hn1 : ∀ e ∈ s.Employees, 0 ≤ e.Amounts.OriginalWagesTipsOther :=
    fun e he => ((hb e he).1).1
  have hn2 : ∀ e ∈ s.Employees, 0 ≤ e.Amounts.CorrectWagesTipsOther :=
    fun e he => ((hb e he).2.1).1
  have hn3 : ∀ e ∈ s.Employees, 0 ≤ e.Amounts.OriginalFederalIncomeTax :=
    fun e he => ((hb e he).2.2.1).1
  have hn4 : ∀ e ∈ s.Employees, 0 ≤ e.Amounts.CorrectFederalIncomeTax :=
    fun e he => ((hb e he).2.2.2.1).1
  have hn5 : ∀ e ∈ s.Employees, 0 ≤ e.Amounts.OriginalSocialSecurityWages :=
    fun e he => ((hb e he).2.2.2.2.1).1
  have hn6 : ∀ e ∈ s.Employees, 0 ≤ e.Amounts.CorrectSocialSecurityWages :=
    fun e he => ((hb e he).2.2.2.2.2.1).1
  have hn7 : ∀ e ∈ s.Employees, 0 ≤ e.Amounts.OriginalSocialSecurityTax :=
    fun e he => ((hb e he).2.2.2.2.2.2.1).1
  have hn8 : ∀ e ∈ s.Employees, 0 ≤ e.Amounts.CorrectSocialSecurityTax :=
    fun e he => ((hb e he).2.2.2.2.2.2.2.1).1
  have hn9 : ∀ e ∈ s.Employees, 0 ≤ e.Amounts.OriginalMedicareWages :=
    fun e he => ((hb e he).2.2.2.2.2.2.2.2.1).1
  have hn10 : ∀ e ∈ s.Employees, 0 ≤ e.Amounts.CorrectMedicareWages :=
    fun e he => ((hb e he).2.2.2.2.2.2.2.2.2.1).1
  have hn11 : ∀ e ∈ s.Employees, 0 ≤ e.Amounts.OriginalMedicareTax :=
    fun e he => ((hb e he).2.2.2.2.2.2.2.2.2.2.1).1
  have hn12 : ∀ e ∈ s.Employees, 0 ≤ e.Amounts.CorrectMedicareTax :=
    fun e he => ((hb e he).2.2.2.2.2.2.2.2.2.2.2.1).1
  have hn13 : ∀ e ∈ s.Employees, 0 ≤ e.Amounts.OriginalSocialSecurityTips :=
    fun e he => ((hb e he).2.2.2.2.2.2.2.2.2.2.2.2.1).1
  have hn14 : ∀ e ∈ s.Employees, 0 ≤ e.Amounts.CorrectSocialSecurityTips :=
    fun e he => ((hb e he).2.2.2.2.2.2.2.2.2.2.2.2.2).1
  have hsum1 : sumAmt (·.OriginalWagesTipsOther) s.Employees =
      (s.Employees.map fun e : EmployeeRecord => e.Amounts.OriginalWagesTipsOther).sum :=
    sumAmt_eq_sum _ _ hn1 (lt_of_lt_of_le hs1 (by norm_num))
  have hsum2 : sumAmt (·.CorrectWagesTipsOther) s.Employees =
      (s.Employees.map fun e : EmployeeRecord => e.Amounts.CorrectWagesTipsOther).sum :=
    sumAmt_eq_sum _ _ hn2 (lt_of_lt_of_le hs2 (by norm_num))
  have hsum3 : sumAmt (·.OriginalFederalIncomeTax) s.Employees =
      (s.Employees.map fun e : EmployeeRecord => e.Amounts.OriginalFederalIncomeTax).sum :=
    sumAmt_eq_sum _ _ hn3 (lt_of_lt_of_le hs3 (by norm_num))
  have hsum4 : sumAmt (·.CorrectFederalIncomeTax) s.Employees =
      (s.Employees.map fun e : EmployeeRecord => e.Amounts.CorrectFederalIncomeTax).sum :=
    sumAmt_eq_sum _ _ hn4 (lt_of_lt_of_le hs4 (by norm_num))
  have hsum5 : sumAmt (·.OriginalSocialSecurityWages) s.Employees =
      (s.Employees.map fun e : EmployeeRecord => e.Amounts.OriginalSocialSecurityWages).sum :=
    sumAmt_eq_sum _ _ hn5 (lt_of_lt_of_le hs5 (by norm_num))
  have hsum6 : sumAmt (·.CorrectSocialSecurityWages) s.Employees =
      (s.Employees.map fun e : EmployeeRecord => e.Amounts.CorrectSocialSecurityWages).sum :=
    sumAmt_eq_sum _ _ hn6 (lt_of_lt_of_le hs6 (by norm_num))
  have hsum7 : sumAmt (·.OriginalSocialSecurityTax) s.Employees =
      (s.Employees.map fun e : EmployeeRecord => e.Amounts.OriginalSocialSecurityTax).sum :=
    sumAmt_eq_sum _ _ hn7 (lt_of_lt_of_le hs7 (by norm_num))
  have hsum8 : sumAmt (·.CorrectSocialSecurityTax) s.Employees =
      (s.Employees.map fun e : EmployeeRecord => e.Amounts.CorrectSocialSecurityTax).sum :=
    sumAmt_eq_sum _ _ hn8 (lt_of_lt_of_le hs8 (by norm_num))
  have hsum9 : sumAmt (·.OriginalMedicareWages) s.Employees =
      (s.Employees.map fun e : EmployeeRecord => e.Amounts.OriginalMedicareWages).sum :=
    sumAmt_eq_sum _ _ hn9 (lt_of_lt_of_le hs9 (by norm_num))
  have hsum10 : sumAmt (·.CorrectMedicareWages) s.Employees =
      (s.Employees.map fun e : EmployeeRecord => e.Amounts.CorrectMedicareWages).sum :=
    sumAmt_eq_sum _ _ hn10 (lt_of_lt_of_le hs10 (by norm_num))
  have hsum11 : sumAmt (·.OriginalMedicareTax) s.Employees =
      (s.Employees.map fun e : EmployeeRecord => e.Amounts.OriginalMedicareTax).sum :=
    sumAmt_eq_sum _ _ hn11 (lt_of_lt_of_le hs11 (by norm_num))
  have hsum12 : sumAmt (·.CorrectMedicareTax) s.Employees =
      (s.Employees.map fun e : EmployeeRecord => e.Amounts.CorrectMedicareTax).sum :=
    sumAmt_eq_sum _ _ hn12 (lt_of_lt_of_le hs12 (by norm_num))
  have hsum13 : sumAmt (·.OriginalSocialSecurityTips) s.Employees =
      (s.Employees.map fun e : EmployeeRecord => e.Amounts.OriginalSocialSecurityTips).sum :=
    sumAmt_eq_sum _ _ hn13 (lt_of_lt_of_le hs13 (by norm_num))
  have hsum14 : sumAmt (·.CorrectSocialSecurityTips) s.Employees =
      (s.Employees.map fun e : EmployeeRecord => e.Amounts.CorrectSocialSecurityTips).sum :=
    sumAmt_eq_sum _ _ hn14 (lt_of_lt_of_le hs14 (by norm_num))
  have ht1 : (money15 (sumAmt (·.OriginalWagesTipsOther) s.Employees)).length = 15 := by
    rw [hsum1]
    exact money15_length _ hs1
  have ht2 : (money15 (sumAmt (·.CorrectWagesTipsOther) s.Employees)).length = 15 := by
    rw [hsum2]
    exact money15_length _ hs2
  have ht3 : (money15 (sumAmt (·.OriginalFederalIncomeTax) s.Employees)).length = 15 := by
    rw [hsum3]
    exact money15_length _ hs3
  have ht4 : (money15 (sumAmt (·.CorrectFederalIncomeTax) s.Employees)).length = 15 := by
    rw [hsum4]
    exact money15_length _ hs4
  have ht5 : (money15 (sumAmt (·.OriginalSocialSecurityWages) s.Employees)).length = 15 := by
    rw [hsum5]
    exact money15_length _ hs5
  have ht6 : (money15 (sumAmt (·.CorrectSocialSecurityWages) s.Employees)).length = 15 := by
    rw [hsum6]
    exact money15_length _ hs6
  have ht7 : (money15 (sumAmt (·.OriginalSocialSecurityTax) s.Employees)).length = 15 := by
    rw [hsum7]
    exact money15_length _ hs7
  have ht8 : (money15 (sumAmt (·.CorrectSocialSecurityTax) s.Employees)).length = 15 := by
    rw [hsum8]
    exact money15_length _ hs8
  have ht9 : (money15 (sumAmt (·.OriginalMedicareWages) s.Employees)).length = 15 := by
    rw [hsum9]
    exact money15_length _ hs9
  have ht10 : (money15 (sumAmt (·.CorrectMedicareWages) s.Employees)).length = 15 := by
    rw [hsum10]
    exact money15_length _ hs10
  have ht11 : (money15 (sumAmt (·.OriginalMedicareTax) s.Employees)).length = 15 := by
    rw [hsum11]
    exact money15_length _ hs11
  have ht12 : (money15 (sumAmt (·.CorrectMedicareTax) s.Employees)).length = 15 := by
    rw [hsum12]
    exact money15_length _ hs12
  have ht13 : (money15 (sumAmt (·.OriginalSocialSecurityTips) s.Employees)).length = 15 := by
    rw [hsum13]
    exact money15_length _ hs13
  have ht14 : (money15 (sumAmt (·.CorrectSocialSecurityTips) s.Employees)).length = 15 := by
    rw [hsum14]
    exact money15_length _ hs14
  have hrct := rct_slices (MustNew (atoi s.Employer.TaxYear)) (ForYear_RCT _)
      (sumAmt (·.OriginalWagesTipsOther) s.Employees)
      (sumAmt (·.CorrectWagesTipsOther) s.Employees)
      (sumAmt (·.OriginalFederalIncomeTax) s.Employees)
      (sumAmt (·.CorrectFederalIncomeTax) s.Employees)
      (sumAmt (·.OriginalSocialSecurityWages) s.Employees)
      (sumAmt (·.CorrectSocialSecurityWages) s.Employees)
      (sumAmt (·.OriginalSocialSecurityTax) s.Employees)
      (sumAmt (·.CorrectSocialSecurityTax) s.Employees)
      (sumAmt (·.OriginalMedicareWages) s.Employees)
      (sumAmt (·.CorrectMedicareWages) s.Employees)
      (sumAmt (·.OriginalMedicareTax) s.Employees)
      (sumAmt (·.CorrectMedicareTax) s.Employees)
      (sumAmt (·.OriginalSocialSecurityTips) s.Employees)
      (sumAmt (·.CorrectSocialSecurityTips) s.Employees)
      (sumAmt (·.OriginalDependentCare) s.Employees)
      (sumAmt (·.CorrectDependentCare) s.Employees)
      (sumAmt (·.OriginalNonqualPlan457) s.Employees)
      (sumAmt (·.CorrectNonqualPlan457) s.Employees)
      (sumAmt (·.OriginalNonqualNotSection457) s.Employees)
      (sumAmt (·.CorrectNonqualNotSection457) s.Employees)
      (sumAmt (·.OriginalCode401k) s.Employees)
      (sumAmt (·.CorrectCode401k) s.Employees)
      (sumAmt (·.OriginalCode403b) s.Employees)
      (sumAmt (·.CorrectCode403b) s.Employees)
      (sumAmt (·.OriginalCode457bGovt) s.Employees)
      (sumAmt (·.CorrectCode457bGovt) s.Employees)
      (sumAmt (·.OriginalCodeW_HSA) s.Employees)
      (sumAmt (·.CorrectCodeW_HSA) s.Employees)
      (sumAmt (·.OriginalCodeAA_Roth401k) s.Employees)
      (sumAmt (·.CorrectCodeAA_Roth401k) s.Employees)
      (sumAmt (·.OriginalCodeBB_Roth403b) s.Employees)
      (sumAmt (·.CorrectCodeBB_Roth403b) s.Employees)
      (sumAmt (·.OriginalCodeDD_EmpHealth) s.Employees)
      (sumAmt (·.CorrectCodeDD_EmpHealth) s.Employees)
      ht1 ht2 ht3 ht4 ht5 ht6 ht7 ht8 ht9 ht10 ht11 ht12 ht13 ht14
  have hmap1 : (s.Employees.map fun e =>
      parseNat (readN (buildRCW (MustNew (atoi s.Employer.TaxYear)) e) 244 11)).sum =
      ((s.Employees.map fun e : EmployeeRecord => e.Amounts.OriginalWagesTipsOther).sum).toNat := by
    have hpt : ∀ e ∈ s.Employees,
        parseNat (readN (buildRCW (MustNew (atoi s.Employer.TaxYear)) e) 244 11) = e.Amounts.OriginalWagesTipsOther.toNat :=
      fun e he => by
        rw [(rcw_slices_of_OK _ (ForYear_RCW _) e (hb e he)).1,
          parseNat_money11 _ ((hb e he).1).1]
    rw [List.map_congr_left hpt,
      show (s.Employees.map fun e : EmployeeRecord => e.Amounts.OriginalWagesTipsOther.toNat) =
        ((s.Employees.map fun e : EmployeeRecord => e.Amounts.OriginalWagesTipsOther).map Int.toNat) from by
          rw [List.map_map]
          rfl]
    exact sum_toNat_of_nonneg _ fun x hx => by
      obtain ⟨e, he, rfl⟩ := List.mem_map.1 hx
      exact hn1 e he
  have hmap2 : (s.Employees.map fun e =>
      parseNat (readN (buildRCW (MustNew (atoi s.Employer.TaxYear)) e) 255 11)).sum =
      ((s.Employees.map fun e : EmployeeRecord => e.Amounts.CorrectWagesTipsOther).sum).toNat := by
    have hpt : ∀ e ∈ s.Employees,
        parseNat (readN (buildRCW (MustNew (atoi s.Employer.TaxYear)) e) 255 11) = e.Amounts.CorrectWagesTipsOther.toNat :=
      fun e he => by
        rw [(rcw_slices_of_OK _ (ForYear_RCW _) e (hb e he)).2.1,
          parseNat_money11 _ ((hb e he).2.1).1]
    rw [List.map_congr_left hpt,
      show (s.Employees.map fun e : EmployeeRecord => e.Amounts.CorrectWagesTipsOther.toNat) =
        ((s.Employees.map fun e : EmployeeRecord => e.Amounts.CorrectWagesTipsOther).map Int.toNat) from by
          rw [List.map_map]
          rfl]
    exact sum_toNat_of_nonneg _ fun x hx => by
      obtain ⟨e, he, rfl⟩ := List.mem_map.1 hx
      exact hn2 e he
  have hmap3 : (s.Employees.map fun e =>
      parseNat (readN (buildRCW (MustNew (atoi s.Employer.TaxYear)) e) 266 11)).sum =
      ((s.Employees.map fun e : EmployeeRecord => e.Amounts.OriginalFederalIncomeTax).sum).toNat := by
    have hpt : ∀ e ∈ s.Employees,
        parseNat (readN (buildRCW (MustNew (atoi s.Employer.TaxYear)) e) 266 11) = e.Amounts.OriginalFederalIncomeTax.toNat :=
      fun e he => by
        rw [(rcw_slices_of_OK _ (ForYear_RCW _) e (hb e he)).2.2.1,
          parseNat_money11 _ ((hb e he).2.2.1).1]
    rw [List.map_congr_left hpt,
      show (s.Employees.map fun e : EmployeeRecord => e.Amounts.OriginalFederalIncomeTax.toNat) =
        ((s.Employees.map fun e : EmployeeRecord => e.Amounts.OriginalFederalIncomeTax).map Int.toNat) from by
          rw [List.map_map]
          rfl]
    exact sum_toNat_of_nonneg _ fun x hx => by
      obtain ⟨e, he, rfl⟩ := List.mem_map.1 hx
      exact hn3 e he
  have hmap4 : (s.Employees.map fun e =>
      parseNat (readN (buildRCW (MustNew (atoi s.Employer.TaxYear)) e) 277 11)).sum =
      ((s.Employees.map fun e : EmployeeRecord => e.Amounts.CorrectFederalIncomeTax).sum).toNat := by
    have hpt : ∀ e ∈ s.Employees,
        parseNat (readN (buildRCW (MustNew (atoi s.Employer.TaxYear)) e) 277 11) = e.Amounts.CorrectFederalIncomeTax.toNat :=
      fun e he => by
        rw [(rcw_slices_of_OK _ (ForYear_RCW _) e (hb e he)).2.2.2.1,
          parseNat_money11 _ ((hb e he).2.2.2.1).1]
    rw [List.map_congr_left hpt,
      show (s.Employees.map fun e : EmployeeRecord => e.Amounts.CorrectFederalIncomeTax.toNat) =
        ((s.Employees.map fun e : EmployeeRecord => e.Amounts.CorrectFederalIncomeTax).map Int.toNat) from by
          rw [List.map_map]
          rfl]
    exact sum_toNat_of_nonneg _ fun x hx => by
      obtain ⟨e, he, rfl⟩ := List.mem_map.1 hx
      exact hn4 e he
  have hmap5 : (s.Employees.map fun e =>
      parseNat (readN (buildRCW (MustNew (atoi s.Employer.TaxYear)) e) 288 11)).sum =
      ((s.Employees.map fun e : EmployeeRecord => e.Amounts.OriginalSocialSecurityWages).sum).toNat := by
    have hpt : ∀ e ∈ s.Employees,
        parseNat (readN (buildRCW (MustNew (atoi s.Employer.TaxYear)) e) 288 11) = e.Amounts.OriginalSocialSecurityWages.toNat :=
      fun e he => by
        rw [(rcw_slices_of_OK _ (ForYear_RCW _) e (hb e he)).2.2.2.2.1,
          parseNat_money11 _ ((hb e he).2.2.2.2.1).1]
    rw [List.map_congr_left hpt,
      show (s.Employees.map fun e : EmployeeRecord => e.Amounts.OriginalSocialSecurityWages.toNat) =
        ((s.Employees.map fun e : EmployeeRecord => e.Amounts.OriginalSocialSecurityWages).map Int.toNat) from by
          rw [List.map_map]
          rfl]
    exact sum_toNat_of_nonneg _ fun x hx => by
      obtain ⟨e, he, rfl⟩ := List.mem_map.1 hx
      exact hn5 e he
  have hmap6 : (s.Employees.map fun e =>
      parseNat (readN (buildRCW (MustNew (atoi s.Employer.TaxYear)) e) 299 11)).sum =
      ((s.Employees.map fun e : EmployeeRecord => e.Amounts.CorrectSocialSecurityWages).sum).toNat := by
    have hpt : ∀ e ∈ s.Employees,
        parseNat (readN (buildRCW (MustNew (atoi s.Employer.TaxYear)) e) 299 11) = e.Amounts.CorrectSocialSecurityWages.toNat :=
      fun e he => by
        rw [(rcw_slices_of_OK _ (ForYear_RCW _) e (hb e he)).2.2.2.2.2.1,
          parseNat_money11 _ ((hb e he).2.2.2.2.2.1).1]
    rw [List.map_congr_left hpt,
      show (s.Employees.map fun e : EmployeeRecord => e.Amounts.CorrectSocialSecurityWages.toNat) =
        ((s.Employees.map fun e : EmployeeRecord => e.Amounts.CorrectSocialSecurityWages).map Int.toNat) from by
          rw [List.map_map]
          rfl]
    exact sum_toNat_of_nonneg _ fun x hx => by
      obtain ⟨e, he, rfl⟩ := List.mem_map.1 hx
      exact hn6 e he
  have hmap7 : (s.Employees.map fun e =>
      parseNat (readN (buildRCW (MustNew (atoi s.Employer.TaxYear)) e) 310 11)).sum =
      ((s.Employees.map fun e : EmployeeRecord => e.Amounts.OriginalSocialSecurityTax).sum).toNat := by
    have hpt : ∀ e ∈ s.Employees,
        parseNat (readN (buildRCW (MustNew (atoi s.Employer.TaxYear)) e) 310 11) = e.Amounts.OriginalSocialSecurityTax.toNat :=
      fun e he => by
        rw [(rcw_slices_of_OK _ (ForYear_RCW _) e (hb e he)).2.2.2.2.2.2.1,
          parseNat_money11 _ ((hb e he).2.2.2.2.2.2.1).1]
    rw [List.map_congr_left hpt,
      show (s.Employees.map fun e : EmployeeRecord => e.Amounts.OriginalSocialSecurityTax.toNat) =
        ((s.Employees.map fun e : EmployeeRecord => e.Amounts.OriginalSocialSecurityTax).map Int.toNat) from by
          rw [List.map_map]
          rfl]
    exact sum_toNat_of_nonneg _ fun x hx => by
      obtain ⟨e, he, rfl⟩ := List.mem_map.1 hx
      exact hn7 e he
  have hmap8 : (s.Employees.map fun e =>
      parseNat (readN (buildRCW (MustNew (atoi s.Employer.TaxYear)) e) 321 11)).sum =
      ((s.Employees.map fun e : EmployeeRecord => e.Amounts.CorrectSocialSecurityTax).sum).toNat := by
    have hpt : ∀ e ∈ s.Employees,
        parseNat (readN (buildRCW (MustNew (atoi s.Employer.TaxYear)) e) 321 11) = e.Amounts.CorrectSocialSecurityTax.toNat :=
      fun e he => by
        rw [(rcw_slices_of_OK _ (ForYear_RCW _) e (hb e he)).2.2.2.2.2.2.2.1,
          parseNat_money11 _ ((hb e he).2.2.2.2.2.2.2.1).1]
    rw [List.map_congr_left hpt,
      show (s.Employees.map fun e : EmployeeRecord => e.Amounts.CorrectSocialSecurityTax.toNat) =
        ((s.Employees.map fun e : EmployeeRecord => e.Amounts.CorrectSocialSecurityTax).map Int.toNat) from by
          rw [List.map_map]
          rfl]
    exact sum_toNat_of_nonneg _ fun x hx => by
      obtain ⟨e, he, rfl⟩ := List.mem_map.1 hx
      exact hn8 e he
  have hmap9 : (s.Employees.map fun e =>
      parseNat (readN (buildRCW (MustNew (atoi s.Employer.TaxYear)) e) 332 11)).sum =
      ((s.Employees.map fun e : EmployeeRecord => e.Amounts.OriginalMedicareWages).sum).toNat := by
    have hpt : ∀ e ∈ s.Employees,
        parseNat (readN (buildRCW (MustNew (atoi s.Employer.TaxYear)) e) 332 11) = e.Amounts.OriginalMedicareWages.toNat :=
      fun e he => by
        rw [(rcw_slices_of_OK _ (ForYear_RCW _) e (hb e he)).2.2.2.2.2.2.2.2.1,
          parseNat_money11 _ ((hb e he).2.2.2.2.2.2.2.2.1).1]
    rw [List.map_congr_left hpt,
      show (s.Employees.map fun e : EmployeeRecord => e.Amounts.OriginalMedicareWages.toNat) =
        ((s.Employees.map fun e : EmployeeRecord => e.Amounts.OriginalMedicareWages).map Int.toNat) from by
          rw [List.map_map]
          rfl]
    exact sum_toNat_of_nonneg _ fun x hx => by
      obtain ⟨e, he, rfl⟩ := List.mem_map.1 hx
      exact hn9 e he
  have hmap10 : (s.Employees.map fun e =>
      parseNat (readN (buildRCW (MustNew (atoi s.Employer.TaxYear)) e) 343 11)).sum =
      ((s.Employees.map fun e : EmployeeRecord => e.Amounts.CorrectMedicareWages).sum).toNat := by
    have hpt : ∀ e ∈ s.Employees,
        parseNat (readN (buildRCW (MustNew (atoi s.Employer.TaxYear)) e) 343 11) = e.Amounts.CorrectMedicareWages.toNat :=
      fun e he => by
        rw [(rcw_slices_of_OK _ (ForYear_RCW _) e (hb e he)).2.2.2.2.2.2.2.2.2.1,
          parseNat_money11 _ ((hb e he).2.2.2.2.2.2.2.2.2.1).1]
    rw [List.map_congr_left hpt,
      show (s.Employees.map fun e : EmployeeRecord => e.Amounts.CorrectMedicareWages.toNat) =
        ((s.Employees.map fun e : EmployeeRecord => e.Amounts.CorrectMedicareWages).map Int.toNat) from by
          rw [List.map_map]
          rfl]
    exact sum_toNat_of_nonneg _ fun x hx => by
      obtain ⟨e, he, rfl⟩ := List.mem_map.1 hx
      exact hn10 e he
  have hmap11 : (s.Employees.map fun e =>
      parseNat (readN (buildRCW (MustNew (atoi s.Employer.TaxYear)) e) 354 11)).sum =
      ((s.Employees.map fun e : EmployeeRecord => e.Amounts.OriginalMedicareTax).sum).toNat := by
    have hpt : ∀ e ∈ s.Employees,
        parseNat (readN (buildRCW (MustNew (atoi s.Employer.TaxYear)) e) 354 11) = e.Amounts.OriginalMedicareTax.toNat :=
      fun e he => by
        rw [(rcw_slices_of_OK _ (ForYear_RCW _) e (hb e he)).2.2.2.2.2.2.2.2.2.2.1,
          parseNat_money11 _ ((hb e he).2.2.2.2.2.2.2.2.2.2.1).1]
    rw [List.map_congr_left hpt,
      show (s.Employees.map fun e : EmployeeRecord => e.Amounts.OriginalMedicareTax.toNat) =
        ((s.Employees.map fun e : EmployeeRecord => e.Amounts.OriginalMedicareTax).map Int.toNat) from by
          rw [List.map_map]
          rfl]
    exact sum_toNat_of_nonneg _ fun x hx => by
      obtain ⟨e, he, rfl⟩ := List.mem_map.1 hx
      exact hn11 e he
  have hmap12 : (s.Employees.map fun e =>
      parseNat (readN (buildRCW (MustNew (atoi s.Employer.TaxYear)) e) 365 11)).sum =
      ((s.Employees.map fun e : EmployeeRecord => e.Amounts.CorrectMedicareTax).sum).toNat := by
    have hpt : ∀ e ∈ s.Employees,
        parseNat (readN (buildRCW (MustNew (atoi s.Employer.TaxYear)) e) 365 11) = e.Amounts.CorrectMedicareTax.toNat :=
      fun e he => by
        rw [(rcw_slices_of_OK _ (ForYear_RCW _) e (hb e he)).2.2.2.2.2.2.2.2.2.2.2.1,
          parseNat_money11 _ ((hb e he).2.2.2.2.2.2.2.2.2.2.2.1).1]
    rw [List.map_congr_left hpt,
      show (s.Employees.map fun e : EmployeeRecord => e.Amounts.CorrectMedicareTax.toNat) =
        ((s.Employees.map fun e : EmployeeRecord => e.Amounts.CorrectMedicareTax).map Int.toNat) from by
          rw [List.map_map]
          rfl]
    exact sum_toNat_of_nonneg _ fun x hx => by
      obtain ⟨e, he, rfl⟩ := List.mem_map.1 hx
      exact hn12 e he
  have hmap13 : (s.Employees.map fun e =>
      parseNat (readN (buildRCW (MustNew (atoi s.Employer.TaxYear)) e) 376 11)).sum =
      ((s.Employees.map fun e : EmployeeRecord => e.Amounts.OriginalSocialSecurityTips).sum).toNat := by
    have hpt : ∀ e ∈ s.Employees,
        parseNat (readN (buildRCW (MustNew (atoi s.Employer.TaxYear)) e) 376 11) = e.Amounts.OriginalSocialSecurityTips.toNat :=
      fun e he => by
        rw [(rcw_slices_of_OK _ (ForYear_RCW _) e (hb e he)).2.2.2.2.2.2.2.2.2.2.2.2.1,
          parseNat_money11 _ ((hb e he).2.2.2.2.2.2.2.2.2.2.2.2.1).1]
    rw [List.map_congr_left hpt,
      show (s.Employees.map fun e : EmployeeRecord => e.Amounts.OriginalSocialSecurityTips.toNat) =
        ((s.Employees.map fun e : EmployeeRecord => e.Amounts.OriginalSocialSecurityTips).map Int.toNat) from by
          rw [List.map_map]
          rfl]
    exact sum_toNat_of_nonneg _ fun x hx => by
      obtain ⟨e, he, rfl⟩ := List.mem_map.1 hx
      exact hn13 e he
  have hmap14 : (s.Employees.map fun e =>
      parseNat (readN (buildRCW (MustNew (atoi s.Employer.TaxYear)) e) 387 11)).sum =
      ((s.Employees.map fun e : EmployeeRecord => e.Amounts.CorrectSocialSecurityTips).sum).toNat := by
    have hpt : ∀ e ∈ s.Employees,
        parseNat (readN (buildRCW (MustNew (atoi s.Employer.TaxYear)) e) 387 11) = e.Amounts.CorrectSocialSecurityTips.toNat :=
      fun e he => by
        rw [(rcw_slices_of_OK _ (ForYear_RCW _) e (hb e he)).2.2.2.2.2.2.2.2.2.2.2.2.2,
          parseNat_money11 _ ((hb e he).2.2.2.2.2.2.2.2.2.2.2.2.2).1]
    rw [List.map_congr_left hpt,
      show (s.Employees.map fun e : EmployeeRecord => e.Amounts.CorrectSocialSecurityTips.toNat) =
        ((s.Employees.map fun e : EmployeeRecord => e.Amounts.CorrectSocialSecurityTips).map Int.toNat) from by
          rw [List.map_map]
          rfl]
    exact sum_toNat_of_nonneg _ fun x hx => by
      obtain ⟨e, he, rfl⟩ := List.mem_map.1 hx
      exact hn14 e he
  refine ⟨?g1, ?g2, ?g3, ?g4, ?g5, ?g6, ?g7, ?g8, ?g9, ?g10, ?g11, ?g12, ?g13, ?g14⟩
  case g1 =>
    rw [rctOf_eq s, hrct.1, hsum1]
    have hnn : 0 ≤ (s.Employees.map fun e : EmployeeRecord => e.Amounts.OriginalWagesTipsOther).sum :=
      List.sum_nonneg fun x hx => by
        obtain ⟨e, he, rfl⟩ := List.mem_map.1 hx
        exact hn1 e he
    simp only [money15]
    rw [if_neg (not_lt.2 hnn), hmap1]
  case g2 =>
    rw [rctOf_eq s, hrct.2.1, hsum2]
    have hnn : 0 ≤ (s.Employees.map fun e : EmployeeRecord => e.Amounts.CorrectWagesTipsOther).sum :=
      List.sum_nonneg fun x hx => by
        obtain ⟨e, he, rfl⟩ := List.mem_map.1 hx
        exact hn2 e he
    simp only [money15]
    rw [if_neg (not_lt.2 hnn), hmap2]
  case g3 =>
    rw [rctOf_eq s, hrct.2.2.1, hsum3]
    have hnn : 0 ≤ (s.Employees.map fun e : EmployeeRecord => e.Amounts.OriginalFederalIncomeTax).sum :=
      List.sum_nonneg fun x hx => by
        obtain ⟨e, he, rfl⟩ := List.mem_map.1 hx
        exact hn3 e he
    simp only [money15]
    rw [if_neg (not_lt.2 hnn), hmap3]
  case g4 =>
    rw [rctOf_eq s, hrct.2.2.2.1, hsum4]
    have hnn : 0 ≤ (s.Employees.map fun e : EmployeeRecord => e.Amounts.CorrectFederalIncomeTax).sum :=
      List.sum_nonneg fun x hx => by
        obtain ⟨e, he, rfl⟩ := List.mem_map.1 hx
        exact hn4 e he
    simp only [money15]
    rw [if_neg (not_lt.2 hnn), hmap4]
  case g5 =>
    rw [rctOf_eq s, hrct.2.2.2.2.1, hsum5]
    have hnn : 0 ≤ (s.Employees.map fun e : EmployeeRecord => e.Amounts.OriginalSocialSecurityWages).sum :=
      List.sum_nonneg fun x hx => by
        obtain ⟨e, he, rfl⟩ := List.mem_map.1 hx
        exact hn5 e he
    simp only [money15]
    rw [if_neg (not_lt.2 hnn), hmap5]
  case g6 =>
    rw [rctOf_eq s, hrct.2.2.2.2.2.1, hsum6]
    have hnn : 0 ≤ (s.Employees.map fun e : EmployeeRecord => e.Amounts.CorrectSocialSecurityWages).sum :=
      List.sum_nonneg fun x hx => by
        obtain ⟨e, he, rfl⟩ := List.mem_map.1 hx
        exact hn6 e he
    simp only [money15]
    rw [if_neg (not_lt.2 hnn), hmap6]
  case g7 =>
    rw [rctOf_eq s, hrct.2.2.2.2.2.2.1, hsum7]
    have hnn : 0 ≤ (s.Employees.map fun e : EmployeeRecord => e.Amounts.OriginalSocialSecurityTax).sum :=
      List.sum_nonneg fun x hx => by
        obtain ⟨e, he, rfl⟩ := List.mem_map.1 hx
        exact hn7 e he
    simp only [money15]
    rw [if_neg (not_lt.2 hnn), hmap7]
  case g8 =>
    rw [rctOf_eq s, hrct.2.2.2.2.2.2.2.1, hsum8]
    have hnn : 0 ≤ (s.Employees.map fun e : EmployeeRecord => e.Amounts.CorrectSocialSecurityTax).sum :=
      List.sum_nonneg fun x hx => by
        obtain ⟨e, he, rfl⟩ := List.mem_map.1 hx
        exact hn8 e he
    simp only [money15]
    rw [if_neg (not_lt.2 hnn), hmap8]
  case g9 =>
    rw [rctOf_eq s, hrct.2.2.2.2.2.2.2.2.1, hsum9]
    have hnn : 0 ≤ (s.Employees.map fun e : EmployeeRecord => e.Amounts.OriginalMedicareWages).sum :=
      List.sum_nonneg fun x hx => by
        obtain ⟨e, he, rfl⟩ := List.mem_map.1 hx
        exact hn9 e he
    simp only [money15]
    rw [if_neg (not_lt.2 hnn), hmap9]
  case g10 =>
    rw [rctOf_eq s, hrct.2.2.2.2.2.2.2.2.2.1, hsum10]
    have hnn : 0 ≤ (s.Employees.map fun e : EmployeeRecord => e.Amounts.CorrectMedicareWages).sum :=
      List.sum_nonneg fun x hx => by
        obtain ⟨e, he, rfl⟩ := List.mem_map.1 hx
        exact hn10 e he
    simp only [money15]
    rw [if_neg (not_lt.2 hnn), hmap10]
  case g11 =>
    rw [rctOf_eq s, hrct.2.2.2.2.2.2.2.2.2.2.1, hsum11]
    have hnn : 0 ≤ (s.Employees.map fun e : EmployeeRecord => e.Amounts.OriginalMedicareTax).sum :=
      List.sum_nonneg fun x hx => by
        obtain ⟨e, he, rfl⟩ := List.mem_map.1 hx
        exact hn11 e he
    simp only [money15]
    rw [if_neg (not_lt.2 hnn), hmap11]
  case g12 =>
    rw [rctOf_eq s, hrct.2.2.2.2.2.2.2.2.2.2.2.1, hsum12]
    have hnn : 0 ≤ (s.Employees.map fun e : EmployeeRecord => e.Amounts.CorrectMedicareTax).sum :=
      List.sum_nonneg fun x hx => by
        obtain ⟨e, he, rfl⟩ := List.mem_map.1 hx
        exact hn12 e he
    simp only [money15]
    rw [if_neg (not_lt.2 hnn), hmap12]
  case g13 =>
    rw [rctOf_eq s, hrct.2.2.2.2.2.2.2.2.2.2.2.2.1, hsum13]
    have hnn : 0 ≤ (s.Employees.map fun e : EmployeeRecord => e.Amounts.OriginalSocialSecurityTips).sum :=
      List.sum_nonneg fun x hx => by
        obtain ⟨e, he, rfl⟩ := List.mem_map.1 hx
        exact hn13 e he
    simp only [money15]
    rw [if_neg (not_lt.2 hnn), hmap13]
  case g14 =>
    rw [rctOf_eq s, hrct.2.2.2.2.2.2.2.2.2.2.2.2.2, hsum14]
    have hnn : 0 ≤ (s.Employees.map fun e : EmployeeRecord => e.Amounts.CorrectSocialSecurityTips).sum :=
      List.sum_nonneg fun x hx => by
        obtain ⟨e, he, rfl⟩ := List.mem_map.1 hx
        exact hn14 e he
    simp only [money15]
    rw [if_neg (not_lt.2 hnn), hmap14]

/-- C5 counterexample: one employee with original Box 1 of -100 cents and
another with 200 cents; the RCW slices render 0 and 200 (sum 200) but the
RCT total renders the raw accumulated 100. -/
theorem claim_C5_counterexample :
    readN (rctOf subNeg) 11 15 ≠
      zeroPad 15 (natRepr ((subNeg.Employees.map fun e =>
        parseNat (readN (buildRCW (MustNew (atoi subNeg.Employer.TaxYear)) e) 244 11)).sum)) := by
  decide

/-- C5 witness: the amended claim's Box 1 original conjunct evaluated on
Scenario A. -/
theorem claim_C5_witness :
    (∀ e ∈ scenarioA.Employees, Box17OK e) ∧ Box17SumsOK scenarioA ∧
    readN (rctOf scenarioA) 11 15 =
      zeroPad 15 (natRepr ((scenarioA.Employees.map fun e =>
        parseNat (readN (buildRCW (MustNew (atoi scenarioA.Employer.TaxYear)) e) 244 11)).sum)) :=
  ⟨by decide, by decide, (claim_C5_amended scenarioA (by decide) (by decide)).1⟩

/-- C1: Scenario A (single employee, TY2024) produces exactly 5 records and
5120 bytes, with the prescribed RCE, RCW, RCT and RCF byte slices. -/
theorem claim_C1 :
    (generateRecords scenarioA).length = 5 ∧
    (generateBytes scenarioA).length = 5120 ∧
    readN ((generateRecords scenarioA).getD 1 newBuf) 17 9 = "123456789".toList ∧
    readN ((generateRecords scenarioA).getD 1 newBuf) 223 1 = "R".toList ∧
    readN ((generateRecords scenarioA).getD 1 newBuf) 227 1 = "N".toList ∧
    readN ((generateRecords scenarioA).getD 2 newBuf) 244 11 = "00005000000".toList ∧
    readN ((generateRecords scenarioA).getD 2 newBuf) 255 11 = "00005100000".toList ∧
    readN ((generateRecords scenarioA).getD 2 newBuf) 354 11 = "00000072500".toList ∧
    readN ((generateRecords scenarioA).getD 3 newBuf) 11 15 = "000000005000000".toList ∧
    readN ((generateRecords scenarioA).getD 4 newBuf) 4 7 = "0000001".toList := by
  refine ⟨by decide, ?_, by decide, by decide, by decide, by decide, by decide,
    by decide, by decide, by decide⟩
  have h : (generateRecords scenarioA).length = 5 := by decide
  rw [generateBytes, joinRender_length, h]

end EFW2C
